import Mathlib

/-!
# MetricsGui sample, Direct3D 12 back end

A shallow embedding of `sample/impl_d3d12.cpp`: the checkerboard texture
generator and the copy of its result into the upload buffer, and the frame
pacing protocol of `ImplD3D12` (frame slots, fence values, the swap-chain
images) together with the calls it issues to the graphics driver and to the
operating system.

Conventions.
* `UINT` arithmetic is arithmetic modulo `2 ^ 32`, `UINT64` arithmetic is
  arithmetic modulo `2 ^ 64`.
* Pointers and handles are natural numbers, `0` being the null pointer.
* Behaviour that C++ leaves undefined (division by zero, an index outside an
  array, a null pointer that is dereferenced) is a `Fault`.
-/

namespace MetricsGui

/-! ## Faults -/

/-- The ways in which a run can fail to return normally. -/
inductive Fault where
  /-- An integer division or remainder by zero. -/
  | divideByZero
  /-- An index outside the array or vector it addresses. -/
  | indexOutOfRange
  /-- A null pointer was dereferenced. -/
  | nullPointer
  /-- A call checked by `HR_CHECK` reported failure. -/
  | callFailed
  /-- A wait with no time limit was followed for as long as the driver model
  allows and its condition never became true. -/
  | waitNeverReturns
  /-- The iteration bound of a loop model was used up. -/
  | outOfFuel
  deriving DecidableEq, Repr

deriving instance DecidableEq for Except

/-! ## Machine integers -/

/-- Number of values of a `UINT` (32 bits). -/
def UINT_RANGE : Nat := 2 ^ 32

/-- Number of values of a `UINT64`. -/
def UINT64_RANGE : Nat := 2 ^ 64

/-! ## GenerateTextureData

`TextureWidth`, `TextureHeight` and `TexturePixelSize` are constants of
`impl_d3d12.h`; they are parameters here. -/

/-- The assignment `pData[idx] = b` into a vector of `data.length` bytes. -/
def storeByte (data : List Nat) (idx : Nat) (b : Nat) : Except Fault (List Nat) :=
  if idx < data.length then .ok (data.set idx b) else .error .indexOutOfRange

/-- The body of the `for` loop of `GenerateTextureData` for one value of `n`:
the four stores of one pixel. -/
def writePixel (rowPitch cellPitch cellHeight : Nat) (n : Nat) (data : List Nat) :
    Except Fault (List Nat) :=
  if rowPitch = 0 then .error .divideByZero else
  let x := n % rowPitch
  let y := n / rowPitch
  if cellPitch = 0 then .error .divideByZero else
  let i := x / cellPitch
  if cellHeight = 0 then .error .divideByZero else
  let j := y / cellHeight
  if i % 2 = j % 2 then
    (storeByte data n 0xff) >>= fun d0 =>
    (storeByte d0 ((n + 1) % UINT_RANGE) 0xff) >>= fun d1 =>
    (storeByte d1 ((n + 2) % UINT_RANGE) 0xff) >>= fun d2 =>
    storeByte d2 ((n + 3) % UINT_RANGE) 0xff
  else
    (storeByte data n 0x00) >>= fun d0 =>
    (storeByte d0 ((n + 1) % UINT_RANGE) 0x00) >>= fun d1 =>
    (storeByte d1 ((n + 2) % UINT_RANGE) 0x00) >>= fun d2 =>
    storeByte d2 ((n + 3) % UINT_RANGE) 0xff

/-- The loop `for (UINT n = 0; n < textureSize; n += TexturePixelSize)`, started
at `n`, with an iteration bound. -/
def fillLoop (rowPitch cellPitch cellHeight textureSize TexturePixelSize : Nat) :
    Nat → Nat → List Nat → Except Fault (List Nat)
  | 0, _, _ => .error .outOfFuel
  | fuel + 1, n, data =>
    if n < textureSize then
      (writePixel rowPitch cellPitch cellHeight n data) >>= fun d =>
      fillLoop rowPitch cellPitch cellHeight textureSize TexturePixelSize fuel
        ((n + TexturePixelSize) % UINT_RANGE) d
    else .ok data

/-- The function `ImplD3D12::GenerateTextureData`. The vector is created with
`textureSize` zero bytes; `&data[0]` on an empty vector is outside its range.
The loop runs at most `textureSize` times when `TexturePixelSize` is positive
and `n` does not wrap, which is the bound given to `fillLoop`. -/
def GenerateTextureData (TextureWidth TextureHeight TexturePixelSize : Nat) :
    Except Fault (List Nat) :=
  let rowPitch := (TextureWidth * TexturePixelSize) % UINT_RANGE
  let cellPitch := rowPitch >>> 3
  let cellHeight := TextureWidth >>> 3
  let textureSize := (rowPitch * TextureHeight) % UINT_RANGE
  let data := List.replicate textureSize 0
  if textureSize = 0 then .error .indexOutOfRange else
  fillLoop rowPitch cellPitch cellHeight textureSize TexturePixelSize (textureSize + 1) 0 data

/-- The four bytes of the returned vector that belong to pixel `(x, y)` of a
texture `TextureWidth` pixels wide, four bytes per pixel. -/
def pixelBytes (data : List Nat) (TextureWidth x y : Nat) : List Nat :=
  (data.drop ((y * TextureWidth + x) * 4)).take 4

/-- The byte that the loop of `GenerateTextureData` leaves at index `m`, for a
four byte pixel: the value stored by the iteration `n = m - m % 4`. Used to
state the loop invariant. -/
def texel (rowPitch cellPitch cellHeight m : Nat) : Nat :=
  if m % 4 = 3 then 0xff
  else if (((m - m % 4) % rowPitch) / cellPitch) % 2 = (((m - m % 4) / rowPitch) / cellHeight) % 2
  then 0xff else 0x00

/-! ## Constants and environment of `ImplD3D12`

The header `impl_d3d12.h` is not among the sources. Its constants are the
fields of `Config`. `FrameIndex` is taken to be a `UINT` (`WaitForResources`
returns a remainder of it as `uint32_t`), the fence values and
`LastSignalledFenceValue` to be `UINT64` (the type `ID3D12Fence` and
`ID3D12CommandQueue::Signal` work with). Neither counter is guarded against
overflow in the source, so both wrap around. -/

/-- The compile-time constants of `impl_d3d12.h`. -/
structure Config where
  D3D12_NUM_BACK_BUFFERS : Nat
  D3D12_NUM_FRAMES_IN_FLIGHT : Nat
  TextureWidth : Nat
  TextureHeight : Nat
  TexturePixelSize : Nat
  deriving DecidableEq, Repr

/-- The two resource states `Render` moves the back buffer between. -/
inductive ResourceState where
  | PRESENT
  | RENDER_TARGET
  deriving DecidableEq, Repr

/-- The members of `ImplD3D12` handed to `SafeRelease` and `CloseHandle`. -/
inductive Member where
  | CommandAllocator (i : Nat)
  | RTVHeap
  | SRVHeap
  | CmdList
  | PipelineState
  | RootSignature
  | VertexBuffer
  | Fence
  | BackBufferResource (i : Nat)
  | DxgiSwapChain3
  | CommandQueue
  | Device
  | DxgiFactory4
  | SwapChainWaitableObject
  | FenceEvent
  deriving DecidableEq, Repr

/-- The calls `ImplD3D12` makes to the driver, the operating system and the UI
library, with the arguments that matter for frame pacing. A run of a member
function is recorded as the list of the calls it made, in order. -/
inductive Call where
  /- Fence and waits. -/
  | GetCompletedValue
  | SetEventOnCompletion (value : Nat) (event : Nat)
  | WaitForSingleObject (handle : Nat)
  | WaitForMultipleObjects (count : Nat) (handles : List Nat) (waitAll : Bool)
  | Signal (fence : Nat) (value : Nat)
  /- Recording and submitting a frame. -/
  | GetCurrentBackBufferIndex
  | CommandAllocatorReset (allocator : Nat)
  | CmdListReset (allocator : Nat)
  | ResourceBarrier (resource : Nat) (before after : ResourceState)
  | ClearRenderTargetView (handle : Nat)
  | SetGraphicsRootSignature
  | SetDescriptorHeaps
  | IASetPrimitiveTopology
  | IASetVertexBuffers
  | RSSetViewports (width height : Nat)
  | OMSetRenderTargets (handle : Nat)
  | RSSetScissorRects (right bottom : Nat)
  | GetDescriptorHandleIncrementSize
  | SetGraphicsRootDescriptorTable (descriptorIndex : Nat)
  | DrawInstanced (vertexCount instanceCount startVertex startInstance : Nat)
  | ImGuiRender
  | CmdListClose
  | ExecuteCommandLists
  | Present (syncInterval flags : Nat)
  /- Swap chain. -/
  | SwapChainRelease (swapChain : Nat)
  | ResourceRelease (resource : Nat)
  | CloseHandle (handle : Nat)
  | CreateSwapChainForHwnd (width height bufferCount : Nat)
  | QueryInterface
  | SwapChain1Release
  | SetMaximumFrameLatency (latency : Nat)
  | GetFrameLatencyWaitableObject
  | LastErrorAsHResult
  | GetBuffer (i : Nat)
  | CreateRenderTargetView (resource handle : Nat)
  /- Start-up. -/
  | LoadLibrary
  | FreeLibrary
  | CreateDXGIFactory1
  | MakeWindowAssociation
  | EnumAdapters
  | D3D12CreateDevice
  | AdapterRelease
  | CreateDescriptorHeapRTV (numDescriptors : Nat)
  | GetCPUDescriptorHandleForHeapStart
  | CreateDescriptorHeapSRV
  | CreateCommandQueue
  | CreateRootSignature
  | CompileVertexShader
  | CompilePixelShader
  | CreateGraphicsPipelineState
  | CreateVertexBuffer
  | MapVertexBuffer
  | CreateCommandAllocator (i : Nat)
  | CreateCommandList
  | Memcpy (bytes : Nat)
  | CopyTextureRegion (rowPitch : Nat)
  | UploadSubmit
  | UploadWait
  | CreateShaderResourceView
  | CreateFence
  | CreateEvent
  | ImGuiInit (numFramesInFlight : Nat)
  /- Shutdown. -/
  | ImGuiShutdown
  | SafeRelease (target : Member) (expectedCount : Nat)
  deriving Repr

/-- The answers of the world outside `ImplD3D12` during one call of a member
function. Time is a count of instants; the GPU and the presentation engine
make progress as time passes. -/
structure Driver where
  /-- Whether a call checked by `HR_CHECK` reports success. -/
  succeeds : Call → Bool
  /-- The completed value of `Fence` at each instant. -/
  fence : Nat → Nat
  /-- Whether the frame latency waitable object of the swap chain is signalled
  at each instant. -/
  swapChainReady : Nat → Bool
  /-- For how many instants a wait without time limit is followed. -/
  patience : Nat
  /-- Result of `GetCurrentBackBufferIndex`. -/
  currentBackBufferIndex : Nat
  /-- Result of `GetCPUDescriptorHandleForHeapStart` on the RTV heap. -/
  rtvHeapStart : Nat
  /-- Result of `GetDescriptorHandleIncrementSize` for RTV descriptors. -/
  rtvDescriptorSize : Nat
  /-- Result of `LoadLibrary`. -/
  library : Nat
  /-- The adapter left by the enumeration loop. -/
  adapter : Nat
  /-- The swap chain returned through `QueryInterface`. -/
  swapChain : Nat
  /-- Result of `GetFrameLatencyWaitableObject`. -/
  waitableObject : Nat
  /-- The resource returned by `GetBuffer(i)`. -/
  buffer : Nat → Nat
  /-- The allocator returned by the `i`-th `CreateCommandAllocator`. -/
  commandAllocator : Nat → Nat
  /-- The fence returned by `CreateFence`. -/
  newFence : Nat
  /-- The event returned by `CreateEvent`. -/
  newFenceEvent : Nat

/-! ## The state of `ImplD3D12` -/

/-- An element of `FrameCtxt`. -/
structure FrameContext where
  CommandAllocator : Nat
  FenceValue : Nat
  deriving DecidableEq, Repr

/-- An element of `BackBuffer`. -/
structure BackBufferEntry where
  Resource : Nat
  Handle : Nat
  deriving DecidableEq, Repr

/-- The data members of `ImplD3D12` that its control flow reads or that take
part in frame pacing. The remaining members are objects that only appear as
the targets of recorded calls. -/
structure ImplD3D12 where
  HWnd : Nat
  Width : Nat
  Height : Nat
  DxgiSwapChain3 : Nat
  SwapChainWaitableObject : Nat
  Fence : Nat
  FenceEvent : Nat
  LastSignalledFenceValue : Nat
  FrameIndex : Nat
  BackBuffer : List BackBufferEntry
  FrameCtxt : List FrameContext
  deriving DecidableEq, Repr

/-- The object after the assignment `frameCtxt->FenceValue = value`, where
`frameCtxt` points to `FrameCtxt[slot]` and `fc` is the value of that element. -/
def ImplD3D12.storeFenceValue (self : ImplD3D12) (slot : Nat) (fc : FrameContext)
    (value : Nat) : ImplD3D12 :=
  { self with FrameCtxt := self.FrameCtxt.set slot { fc with FenceValue := value } }

/-- The constructor `ImplD3D12::ImplD3D12`: every member is zero. -/
def ImplD3D12.new (cfg : Config) : ImplD3D12 :=
  { HWnd := 0
    Width := 0
    Height := 0
    DxgiSwapChain3 := 0
    SwapChainWaitableObject := 0
    Fence := 0
    FenceEvent := 0
    LastSignalledFenceValue := 0
    FrameIndex := 0
    BackBuffer := List.replicate cfg.D3D12_NUM_BACK_BUFFERS ⟨0, 0⟩
    FrameCtxt := List.replicate cfg.D3D12_NUM_FRAMES_IN_FLIGHT ⟨0, 0⟩ }

/-! ## Runs

A member function is a function from the instant at which it is called to an
`Outcome`: the calls it made and either a fault or its result together with
the instant at which it returns. -/

/-- What a run leaves behind. -/
structure Outcome (α : Type) where
  calls : List Call
  result : Except Fault (α × Nat)

/-- A computation that makes calls, may block, and may fail. -/
def Run (α : Type) : Type := Nat → Outcome α

/-- Return without making a call. -/
def Run.pure {α : Type} (a : α) : Run α :=
  fun t => ⟨[], .ok (a, t)⟩

/-- Sequencing: the second part runs from the instant the first returns. -/
def Run.bind {α β : Type} (m : Run α) (f : α → Run β) : Run β :=
  fun t =>
    match (m t).result with
    | .error e => ⟨(m t).calls, .error e⟩
    | .ok (a, t1) => ⟨(m t).calls ++ (f a t1).calls, (f a t1).result⟩

instance : Monad Run where
  pure := Run.pure
  bind := Run.bind

/-- Stop with a fault. -/
def Run.fault {α : Type} (e : Fault) : Run α :=
  fun _ => ⟨[], .error e⟩

/-- A call whose result is not inspected. -/
def Run.call (c : Call) : Run Unit :=
  fun t => ⟨[c], .ok ((), t)⟩

/-- Modelled from the spec: the macro `HR_CHECK` of `impl.h`, which is not
among the sources. A failed call into the driver is fatal and ends the run. -/
def HR_CHECK (drv : Driver) (c : Call) : Run Unit :=
  fun t => ⟨[c], if drv.succeeds c then .ok ((), t) else .error .callFailed⟩

/-- Dereferencing the pointer `p`. -/
def Run.deref (p : Nat) : Run Unit :=
  if p = 0 then Run.fault .nullPointer else Run.pure ()

/-- The element `xs[i]` of a C array. -/
def Run.index {α : Type} (xs : List α) (i : Nat) : Run α :=
  match xs[i]? with
  | some x => Run.pure x
  | none => Run.fault .indexOutOfRange

/-- The remainder `a % b` of unsigned integers. -/
def Run.umod (a b : Nat) : Run Nat :=
  if b = 0 then Run.fault .divideByZero else Run.pure (a % b)

/-- A `for` loop over the indices in the list, threading the loop state. -/
def Run.forEach {σ : Type} (body : Nat → σ → Run σ) : List Nat → σ → Run σ
  | [], s => Run.pure s
  | i :: rest, s => Run.bind (body i s) (Run.forEach body rest)

/-- The first instant from `t` on, among the next `fuel` instants, at which
`ready` holds. -/
def firstInstant (ready : Nat → Bool) : Nat → Nat → Option Nat
  | 0, _ => none
  | fuel + 1, t => if ready t then some t else firstInstant ready fuel (t + 1)

/-- Whether the object behind `handle` is signalled at instant `t`, for an
`ImplD3D12` whose swap chain waitable object is `waitable`, whose fence event
is `fenceEvent`, and whose fence event was last armed by
`SetEventOnCompletion(armed, fenceEvent)` (`none`: not armed). The event
fires once the completed value of the fence has reached `armed`. -/
def objectSignalled (drv : Driver) (waitable fenceEvent : Nat) (armed : Option Nat)
    (handle t : Nat) : Bool :=
  if handle = fenceEvent then
    match armed with
    | some value => decide (value ≤ drv.fence t)
    | none => false
  else if handle = waitable then drv.swapChainReady t
  else false

/-- The call `WaitForSingleObject(handle, INFINITE)`: returns at the first
instant at which the object is signalled. Its return value is not inspected
by the source. -/
def WaitForSingleObject (drv : Driver) (waitable fenceEvent : Nat) (armed : Option Nat)
    (handle : Nat) : Run Unit :=
  fun t =>
    ⟨[.WaitForSingleObject handle],
      match firstInstant (objectSignalled drv waitable fenceEvent armed handle) drv.patience t with
      | some t1 => .ok ((), t1)
      | none => .error .waitNeverReturns⟩

/-- The call `HR_CHECK(WaitForMultipleObjects(count, handles, waitAll, INFINITE))`:
only the first `count` handles are looked at; with `waitAll` the call returns
at the first instant at which all of them are signalled, otherwise at the
first instant at which one of them is. -/
def WaitForMultipleObjects (drv : Driver) (waitable fenceEvent : Nat) (armed : Option Nat)
    (count : Nat) (handles : List Nat) (waitAll : Bool) : Run Unit :=
  fun t =>
    let ready : Nat → Bool := fun u =>
      if waitAll then (handles.take count).all (fun h => objectSignalled drv waitable fenceEvent armed h u)
      else (handles.take count).any (fun h => objectSignalled drv waitable fenceEvent armed h u)
    ⟨[.WaitForMultipleObjects count handles waitAll],
      if drv.succeeds (.WaitForMultipleObjects count handles waitAll) then
        match firstInstant ready drv.patience t with
        | some t1 => .ok ((), t1)
        | none => .error .waitNeverReturns
      else .error .callFailed⟩

/-- The call `Fence->GetCompletedValue()`. -/
def GetCompletedValue (drv : Driver) : Run Nat :=
  fun t => ⟨[.GetCompletedValue], .ok (drv.fence t, t)⟩

/-! ## The synchronisation helpers -/

/-- The function `ImplD3D12::WaitForLastSubmittedFrame`. -/
def WaitForLastSubmittedFrame (cfg : Config) (drv : Driver) (self : ImplD3D12) : Run ImplD3D12 := do
  let slot ← Run.umod self.FrameIndex cfg.D3D12_NUM_FRAMES_IN_FLIGHT
  let frameCtxt ← Run.index self.FrameCtxt slot
  let fenceValue := frameCtxt.FenceValue
  if fenceValue = 0 then
    pure self
  else do
    let self1 := self.storeFenceValue slot frameCtxt 0
    Run.deref self.Fence
    let completed ← GetCompletedValue drv
    if completed ≥ fenceValue then
      pure self1
    else do
      HR_CHECK drv (.SetEventOnCompletion fenceValue self.FenceEvent)
      WaitForSingleObject drv self.SwapChainWaitableObject self.FenceEvent (some fenceValue)
        self.FenceEvent
      pure self1

/-- The function `ImplD3D12::WaitForResources`; the first component of the
result is the returned index. -/
def WaitForResources (cfg : Config) (drv : Driver) (self : ImplD3D12) : Run (Nat × ImplD3D12) := do
  let nextFrameIndex := (self.FrameIndex + 1) % UINT_RANGE
  let nextResourcesIndex ← Run.umod nextFrameIndex cfg.D3D12_NUM_FRAMES_IN_FLIGHT
  let self1 := { self with FrameIndex := nextFrameIndex }
  let frameCtxt ← Run.index self1.FrameCtxt nextResourcesIndex
  let fence := self1.Fence
  let fenceEvent := self1.FenceEvent
  let fenceValue := frameCtxt.FenceValue
  if fenceValue ≠ 0 then do
    let self2 := self1.storeFenceValue nextResourcesIndex frameCtxt 0
    Run.deref fence
    HR_CHECK drv (.SetEventOnCompletion fenceValue fenceEvent)
    WaitForMultipleObjects drv self1.SwapChainWaitableObject fenceEvent (some fenceValue)
      2 [self1.SwapChainWaitableObject, fenceEvent] true
    pure (nextResourcesIndex, self2)
  else do
    WaitForMultipleObjects drv self1.SwapChainWaitableObject fenceEvent none
      1 [self1.SwapChainWaitableObject, 0] true
    pure (nextResourcesIndex, self1)

/-! ## Render -/

/-- The function `ImplD3D12::Render`. The clear colour and the depth range of
the viewport are floating point constants and are left out of the record. -/
def Render (drv : Driver) (self : ImplD3D12) (resourcesIndex : Nat) : Run ImplD3D12 := do
  let frameCtxt ← Run.index self.FrameCtxt resourcesIndex
  Run.deref self.DxgiSwapChain3
  Run.call .GetCurrentBackBufferIndex
  let backBufferIdx := drv.currentBackBufferIndex
  Run.deref frameCtxt.CommandAllocator
  HR_CHECK drv (.CommandAllocatorReset frameCtxt.CommandAllocator)
  HR_CHECK drv (.CmdListReset frameCtxt.CommandAllocator)
  let backBuffer ← Run.index self.BackBuffer backBufferIdx
  Run.call (.ResourceBarrier backBuffer.Resource .PRESENT .RENDER_TARGET)
  Run.call (.ClearRenderTargetView backBuffer.Handle)
  Run.call .SetGraphicsRootSignature
  Run.call .SetDescriptorHeaps
  Run.call .IASetPrimitiveTopology
  Run.call .IASetVertexBuffers
  Run.call (.RSSetViewports self.Width self.Height)
  Run.call (.OMSetRenderTargets backBuffer.Handle)
  Run.call (.RSSetScissorRects self.Width self.Height)
  Run.call .GetDescriptorHandleIncrementSize
  Run.call (.SetGraphicsRootDescriptorTable 1)
  Run.call (.DrawInstanced 3 1 0 0)
  Run.call (.SetGraphicsRootDescriptorTable 0)
  Run.call .ImGuiRender
  Run.call (.ResourceBarrier backBuffer.Resource .RENDER_TARGET .PRESENT)
  HR_CHECK drv .CmdListClose
  Run.call .ExecuteCommandLists
  HR_CHECK drv (.Present 1 0)
  let fenceValue := (self.LastSignalledFenceValue + 1) % UINT64_RANGE
  HR_CHECK drv (.Signal self.Fence fenceValue)
  let self1 := { self with LastSignalledFenceValue := fenceValue }
  pure (self1.storeFenceValue resourcesIndex frameCtxt fenceValue)

/-! ## Resize -/

/-- One turn of the loop of `Resize` that releases the old back buffers. -/
def releaseBackBuffer (i : Nat) (self : ImplD3D12) : Run ImplD3D12 := do
  let backBuffer ← Run.index self.BackBuffer i
  Run.deref backBuffer.Resource
  Run.call (.ResourceRelease backBuffer.Resource)
  pure { self with BackBuffer := self.BackBuffer.set i { backBuffer with Resource := 0 } }

/-- One turn of the loop of `Resize` that fetches the new back buffers and
creates their render target views. -/
def acquireBackBuffer (drv : Driver) (i : Nat) (self : ImplD3D12) : Run ImplD3D12 := do
  let backBuffer ← Run.index self.BackBuffer i
  Run.deref self.DxgiSwapChain3
  HR_CHECK drv (.GetBuffer i)
  let resource := drv.buffer i
  Run.call (.CreateRenderTargetView resource backBuffer.Handle)
  pure { self with BackBuffer := self.BackBuffer.set i { backBuffer with Resource := resource } }

/-- The part of `Resize` guarded by `DxgiSwapChain3 != nullptr`. -/
def releaseSwapChain (cfg : Config) (self : ImplD3D12) : Run ImplD3D12 :=
  if self.DxgiSwapChain3 ≠ 0 then do
    Run.call (.SwapChainRelease self.DxgiSwapChain3)
    let self1 := { self with DxgiSwapChain3 := 0 }
    let self2 ← Run.forEach releaseBackBuffer (List.range cfg.D3D12_NUM_BACK_BUFFERS) self1
    Run.call (.CloseHandle self2.SwapChainWaitableObject)
    pure self2
  else
    pure self

/-- The function `ImplD3D12::Resize`. -/
def Resize (cfg : Config) (drv : Driver) (self : ImplD3D12) (width height : Nat) :
    Run ImplD3D12 := do
  let self1 ← WaitForLastSubmittedFrame cfg drv self
  let self2 := { self1 with Width := width, Height := height }
  let self3 ← releaseSwapChain cfg self2
  HR_CHECK drv (.CreateSwapChainForHwnd width height cfg.D3D12_NUM_BACK_BUFFERS)
  HR_CHECK drv .QueryInterface
  let self4 := { self3 with DxgiSwapChain3 := drv.swapChain }
  Run.call .SwapChain1Release
  Run.deref self4.DxgiSwapChain3
  HR_CHECK drv (.SetMaximumFrameLatency cfg.D3D12_NUM_BACK_BUFFERS)
  Run.call .GetFrameLatencyWaitableObject
  let self5 := { self4 with SwapChainWaitableObject := drv.waitableObject }
  (if self5.SwapChainWaitableObject = 0 then HR_CHECK drv .LastErrorAsHResult else pure ())
  Run.forEach (acquireBackBuffer drv) (List.range cfg.D3D12_NUM_BACK_BUFFERS) self5

/-! ## Initialize -/

/-- The constant `D3D12_TEXTURE_DATA_PITCH_ALIGNMENT` of `d3d12.h`. -/
def D3D12_TEXTURE_DATA_PITCH_ALIGNMENT : Nat := 256

/-- The row pitch of the upload buffer computed in `Initialize`:
`(TextureWidth * 4 + ALIGNMENT - 1u) & ~(ALIGNMENT - 1u)` in `UINT` arithmetic;
clearing the low bits of a number is rounding it down to a multiple of the
alignment. -/
def uploadPitch (cfg : Config) : Nat :=
  (((cfg.TextureWidth * 4) % UINT_RANGE + (D3D12_TEXTURE_DATA_PITCH_ALIGNMENT - 1)) % UINT_RANGE)
    / D3D12_TEXTURE_DATA_PITCH_ALIGNMENT * D3D12_TEXTURE_DATA_PITCH_ALIGNMENT

/-- One turn of the loop of `Initialize` that hands out the render target view
handles; the loop state is the running `rtvHandle.ptr` (a 64 bit `SIZE_T`) and
the object. -/
def assignHandle (rtvDescriptorSize : Nat) (i : Nat) (st : Nat × ImplD3D12) :
    Run (Nat × ImplD3D12) := do
  let backBuffer ← Run.index st.2.BackBuffer i
  pure ((st.1 + rtvDescriptorSize) % UINT64_RANGE,
    { st.2 with BackBuffer := st.2.BackBuffer.set i { backBuffer with Handle := st.1 } })

/-- One turn of the loop of `Initialize` that creates the command allocators. -/
def createAllocator (drv : Driver) (i : Nat) (self : ImplD3D12) : Run ImplD3D12 := do
  let frameCtxt ← Run.index self.FrameCtxt i
  HR_CHECK drv (.CreateCommandAllocator i)
  pure { self with
    FrameCtxt := self.FrameCtxt.set i { frameCtxt with CommandAllocator := drv.commandAllocator i } }

/-- A pure computation that may fault, as a run. -/
def Run.ofExcept {α : Type} (x : Except Fault α) : Run α :=
  match x with
  | .ok a => Run.pure a
  | .error e => Run.fault e

/-- The function `ImplD3D12::Initialize`; the first component of the result
is the returned `bool`. The creation calls whose result is only tested by
`assert` are recorded as calls that are not checked. The wait for the one
texture upload is recorded as a call; its duration is not modelled. -/
def Initialize (cfg : Config) (drv : Driver) (self : ImplD3D12) (hwnd : Nat) :
    Run (Bool × ImplD3D12) := do
  let self1 := { self with HWnd := hwnd }
  Run.call .LoadLibrary
  if drv.library = 0 then
    pure (false, self1)
  else do
    Run.call .FreeLibrary
    HR_CHECK drv .CreateDXGIFactory1
    HR_CHECK drv .MakeWindowAssociation
    Run.call .EnumAdapters
    if drv.adapter = 0 then
      pure (false, self1)
    else do
      HR_CHECK drv .D3D12CreateDevice
      Run.call .AdapterRelease
      HR_CHECK drv (.CreateDescriptorHeapRTV cfg.D3D12_NUM_BACK_BUFFERS)
      Run.call .GetDescriptorHandleIncrementSize
      Run.call .GetCPUDescriptorHandleForHeapStart
      let st ← Run.forEach (assignHandle drv.rtvDescriptorSize)
        (List.range cfg.D3D12_NUM_BACK_BUFFERS) (drv.rtvHeapStart, self1)
      let self2 := st.2
      HR_CHECK drv .CreateDescriptorHeapSRV
      HR_CHECK drv .CreateCommandQueue
      Run.call .CreateRootSignature
      HR_CHECK drv .CompileVertexShader
      HR_CHECK drv .CompilePixelShader
      HR_CHECK drv .CreateGraphicsPipelineState
      HR_CHECK drv .CreateVertexBuffer
      HR_CHECK drv .MapVertexBuffer
      let self3 ← Run.forEach (createAllocator drv) (List.range cfg.D3D12_NUM_FRAMES_IN_FLIGHT) self2
      let _ ← Run.index self3.FrameCtxt 0
      HR_CHECK drv .CreateCommandList
      let _ ← Run.ofExcept
        (GenerateTextureData cfg.TextureWidth cfg.TextureHeight cfg.TexturePixelSize)
      Run.call (.Memcpy ((cfg.TextureHeight * cfg.TextureWidth * 4) % UINT_RANGE))
      Run.call (.CopyTextureRegion (uploadPitch cfg))
      Run.call .UploadSubmit
      Run.call .UploadWait
      Run.call .CreateShaderResourceView
      HR_CHECK drv .CmdListClose
      HR_CHECK drv .CreateFence
      let self4 := { self3 with Fence := drv.newFence }
      Run.call .CreateEvent
      let self5 := { self4 with FenceEvent := drv.newFenceEvent }
      (if self5.FenceEvent = 0 then HR_CHECK drv .LastErrorAsHResult else pure ())
      Run.call (.ImGuiInit cfg.D3D12_NUM_FRAMES_IN_FLIGHT)
      pure (true, self5)

/-! ## Finalize -/

/-- Modelled from the spec: the helper `SafeRelease` of `impl.h`, which is not
among the sources: it releases the object a member points to. The member is
null afterwards. -/
def SafeRelease (target : Member) (expectedCount : Nat) : Run Unit :=
  Run.call (.SafeRelease target expectedCount)

/-- One turn of the first loop of `Finalize`. -/
def releaseAllocator (i : Nat) (self : ImplD3D12) : Run ImplD3D12 := do
  let frameCtxt ← Run.index self.FrameCtxt i
  SafeRelease (.CommandAllocator i) 0
  pure { self with FrameCtxt := self.FrameCtxt.set i { frameCtxt with CommandAllocator := 0 } }

/-- One turn of the second loop of `Finalize`. -/
def releaseImage (cfg : Config) (i : Nat) (self : ImplD3D12) : Run ImplD3D12 := do
  let backBuffer ← Run.index self.BackBuffer i
  SafeRelease (.BackBufferResource i) (cfg.D3D12_NUM_BACK_BUFFERS - i - 1)
  pure { self with BackBuffer := self.BackBuffer.set i { backBuffer with Resource := 0 } }

/-- Everything `Finalize` does after its call of `WaitForLastSubmittedFrame`. -/
def releaseAll (cfg : Config) (self : ImplD3D12) : Run ImplD3D12 := do
  Run.call .ImGuiShutdown
  let self1 ← Run.forEach releaseAllocator (List.range cfg.D3D12_NUM_FRAMES_IN_FLIGHT) self
  SafeRelease .RTVHeap 0
  SafeRelease .SRVHeap 0
  SafeRelease .CmdList 0
  SafeRelease .PipelineState 0
  SafeRelease .RootSignature 0
  SafeRelease .VertexBuffer 0
  SafeRelease .Fence 0
  let self2 := { self1 with Fence := 0 }
  let self3 ← Run.forEach (releaseImage cfg) (List.range cfg.D3D12_NUM_BACK_BUFFERS) self2
  SafeRelease .DxgiSwapChain3 0
  let self4 := { self3 with DxgiSwapChain3 := 0 }
  SafeRelease .CommandQueue 0
  SafeRelease .Device 0
  SafeRelease .DxgiFactory4 0
  Run.call (.CloseHandle self4.SwapChainWaitableObject)
  Run.call (.CloseHandle self4.FenceEvent)
  pure self4

/-- The function `ImplD3D12::Finalize`. -/
def Finalize (cfg : Config) (drv : Driver) (self : ImplD3D12) : Run ImplD3D12 := do
  let self1 ← WaitForLastSubmittedFrame cfg drv self
  releaseAll cfg self1

/-! ## A sample configuration

A small configuration, a driver that always succeeds, and a GPU that
completes fence value `k` at instant `k`; used to run the model on concrete
inputs. -/

/-- Three frames in flight, three back buffers, an 8 by 2 texture. -/
def sampleConfig : Config :=
  { D3D12_NUM_BACK_BUFFERS := 3
    D3D12_NUM_FRAMES_IN_FLIGHT := 3
    TextureWidth := 8
    TextureHeight := 2
    TexturePixelSize := 4 }

/-- Every call succeeds at once; the fence has completed `t` at instant `t`. -/
def sampleDriver : Driver :=
  { succeeds := fun _ => true
    fence := fun t => t
    swapChainReady := fun _ => true
    patience := 16
    currentBackBufferIndex := 0
    rtvHeapStart := 4096
    rtvDescriptorSize := 32
    library := 1
    adapter := 1
    swapChain := 7
    waitableObject := 8
    buffer := fun i => 100 + i
    commandAllocator := fun i => 200 + i
    newFence := 5
    newFenceEvent := 6 }

/-- The object after `Initialize` and `Resize(800, 600)` under `sampleConfig`
and `sampleDriver`, with the given counters and markers. -/
def sampleState (frameIndex lastSignalled : Nat) (markers : List Nat) : ImplD3D12 :=
  { HWnd := 1
    Width := 800
    Height := 600
    DxgiSwapChain3 := 7
    SwapChainWaitableObject := 8
    Fence := 5
    FenceEvent := 6
    LastSignalledFenceValue := lastSignalled
    FrameIndex := frameIndex
    BackBuffer := [⟨100, 4096⟩, ⟨101, 4128⟩, ⟨102, 4160⟩]
    FrameCtxt := (List.range 3).map fun i => ⟨200 + i, markers.getD i 0⟩ }

/-- The run named in the specification as its end-to-end test, up to the
call of `Finalize`: `Initialize`, `Resize(800, 600)`, `Render(0)`, `Render(1)`. -/
def sampleScenario : Run ImplD3D12 := do
  let r ← Initialize sampleConfig sampleDriver (ImplD3D12.new sampleConfig) 1
  let s1 ← Resize sampleConfig sampleDriver r.2 800 600
  let s2 ← Render sampleDriver s1 0
  Render sampleDriver s2 1

/-- Whether a call is a resource barrier, that is, a state transition. -/
def Call.isResourceBarrier : Call → Bool
  | .ResourceBarrier _ _ _ => true
  | _ => false

/-- Whether a call clears or draws into the render target: the clear, the
draw, and the recording of the UI overlay. -/
def Call.isDrawing : Call → Bool
  | .ClearRenderTargetView _ => true
  | .DrawInstanced _ _ _ _ => true
  | .ImGuiRender => true
  | _ => false

/-- Whether a call closes the command list, submits it to the queue, presents
the back buffer, or signals the fence. -/
def Call.isSubmission : Call → Bool
  | .CmdListClose => true
  | .ExecuteCommandLists => true
  | .Present _ _ => true
  | .Signal _ _ => true
  | _ => false

/-- Whether a call releases an object or closes a handle. -/
def Call.isRelease : Call → Bool
  | .SafeRelease _ _ => true
  | .ResourceRelease _ => true
  | .SwapChainRelease _ => true
  | .CloseHandle _ => true
  | .SwapChain1Release => true
  | .AdapterRelease => true
  | .FreeLibrary => true
  | _ => false

/-- Consecutive calls of `WaitForResources`, one driver per call; the result is
the list of the returned indices and the object after the last call. -/
def WaitForResourcesTimes (cfg : Config) : List Driver → ImplD3D12 → Run (List Nat × ImplD3D12)
  | [], self => Run.pure ([], self)
  | drv :: rest, self =>
    Run.bind (WaitForResources cfg drv self) fun r =>
    Run.bind (WaitForResourcesTimes cfg rest r.2) fun rs =>
    Run.pure (r.1 :: rs.1, rs.2)

/-- The members that the waits, `Resize` and `Finalize` leave alone: the two
counters and the view handles of the back buffers. -/
def ImplD3D12.keeps (before after : ImplD3D12) : Prop :=
  after.LastSignalledFenceValue = before.LastSignalledFenceValue ∧
  after.FrameIndex = before.FrameIndex ∧
  after.BackBuffer.map (fun b => b.Handle) = before.BackBuffer.map (fun b => b.Handle)

/-- Consecutive calls of `Resize`, each with its own driver answers and
dimensions. -/
def ResizeTimes (cfg : Config) : List (Driver × Nat × Nat) → ImplD3D12 → Run ImplD3D12
  | [], self => Run.pure self
  | (drv, width, height) :: rest, self =>
    Run.bind (Resize cfg drv self width height) (ResizeTimes cfg rest)

/-- The object after `Initialize` alone under `sampleConfig` and
`sampleDriver`. -/
def sampleInitialized : ImplD3D12 :=
  { HWnd := 1
    Width := 0
    Height := 0
    DxgiSwapChain3 := 0
    SwapChainWaitableObject := 0
    Fence := 5
    FenceEvent := 6
    LastSignalledFenceValue := 0
    FrameIndex := 0
    BackBuffer := [⟨0, 4096⟩, ⟨0, 4128⟩, ⟨0, 4160⟩]
    FrameCtxt := [⟨200, 0⟩, ⟨201, 0⟩, ⟨202, 0⟩] }

/-- The values of `n` for which the body of the loop
`for (UINT n = 0; n < textureSize; n += TexturePixelSize)` of
`GenerateTextureData` runs, started at `n`, with the iteration bound of
`fillLoop`. The body run for `n` stores at the indices `n`, `n + 1`, `n + 2`
and `n + 3`. -/
def loopCounters (textureSize TexturePixelSize : Nat) : Nat → Nat → List Nat
  | 0, _ => []
  | fuel + 1, n =>
    if n < textureSize then
      n :: loopCounters textureSize TexturePixelSize fuel ((n + TexturePixelSize) % UINT_RANGE)
    else []

/-! ## The texture upload of `Initialize` -/

/-- The size of the upload buffer computed in `Initialize`:
`UINT uploadSize = TextureHeight * uploadPitch`. -/
def uploadSize (cfg : Config) : Nat :=
  (cfg.TextureHeight * uploadPitch cfg) % UINT_RANGE

/-- The library function `memcpy(dst, src, count)` on byte sequences: the first
`count` bytes of `dst` become the first `count` bytes of `src`. Reading or
writing beyond either sequence is outside its range. -/
def memcpy (dst src : List Nat) (count : Nat) : Except Fault (List Nat) :=
  if count ≤ src.length ∧ count ≤ dst.length then .ok (src.take count ++ dst.drop count)
  else .error .indexOutOfRange

/-- The part of `Initialize` that fills the upload buffer: `pixels` is the
result of `GenerateTextureData`, the mapped buffer has `uploadSize` bytes, and
the one call `memcpy(mapped, pixels.data(), TextureHeight * TextureWidth * 4)`
writes it. What the buffer holds before the copy is not specified:
`unwritten i` is the byte at offset `i`. The result is the buffer as
`CopyTextureRegion` finds it. -/
def uploadTexture (cfg : Config) (unwritten : Nat → Nat) : Except Fault (List Nat) :=
  (GenerateTextureData cfg.TextureWidth cfg.TextureHeight cfg.TexturePixelSize) >>= fun pixels =>
  let mapped := (List.range (uploadSize cfg)).map unwritten
  memcpy mapped pixels ((cfg.TextureHeight * cfg.TextureWidth * 4) % UINT_RANGE)

/-- The four bytes which a copy from a placed footprint at offset 0, of a format
of four bytes per texel and row pitch `RowPitch`, reads for texel `(x, y)`:
those at offset `y * RowPitch + 4 * x` of the buffer. -/
def footprintBytes (buffer : List Nat) (RowPitch x y : Nat) : List Nat :=
  (buffer.drop (y * RowPitch + 4 * x)).take 4

/-! ## The frame loop -/

/-- The completion markers of the frame slots, in slot order. -/
def ImplD3D12.markers (self : ImplD3D12) : List Nat :=
  self.FrameCtxt.map (fun fc => fc.FenceValue)

/-- Modelled from the spec: one turn of the frame loop of the caller, which is
not among the sources: `Render` is called with the index that
`WaitForResources` has just returned. The driver gives the answers of the
environment during this turn. -/
def frameStep (cfg : Config) (drv : Driver) (self : ImplD3D12) : Run ImplD3D12 := do
  let r ← WaitForResources cfg drv self
  Render drv r.2 r.1

/-- Modelled from the spec: what the caller does with the object between
`Initialize` and `Finalize`: it resizes the output, or it runs one turn of the
frame loop. -/
inductive LoopStep where
  | resize (drv : Driver) (width height : Nat)
  | frame (drv : Driver)

/-- The member functions called by one step of the caller. -/
def LoopStep.run (cfg : Config) : LoopStep → ImplD3D12 → Run ImplD3D12
  | .resize drv width height, self => Resize cfg drv self width height
  | .frame drv, self => frameStep cfg drv self

/-- Modelled from the spec: the frame loop of the caller as a sequence of
steps. -/
def FrameLoop (cfg : Config) : List LoopStep → ImplD3D12 → Run ImplD3D12
  | [], self => Run.pure self
  | step :: rest, self => Run.bind (step.run cfg self) (FrameLoop cfg rest)

/-- The number of calls of `Render` in a sequence of steps. -/
def frameCount : List LoopStep → Nat
  | [] => 0
  | .frame _ :: rest => frameCount rest + 1
  | .resize _ _ _ :: rest => frameCount rest

/-- The claimed property of the markers: none is above the last signalled
value, and no nonzero marker is held by two slots. -/
def pacedMarkers (markers : List Nat) (lastSignalled : Nat) : Prop :=
  (∀ (i m : Nat), markers[i]? = some m → m ≤ lastSignalled) ∧
  (∀ (i j m : Nat), i ≠ j → markers[i]? = some m → markers[j]? = some m → m = 0)

/-- The `sampleDriver` with a GPU that has completed every fence value. -/
def readyDriver : Driver :=
  { sampleDriver with fence := fun _ => UINT64_RANGE - 1 }

/-! ## Theorems -/

theorem storeByte_ok (data : List Nat) (idx b : Nat) (h : idx < data.length) :
    storeByte data idx b = .ok (data.set idx b) := by
  simp [storeByte, h]

theorem writePixel_ok (R c h n : Nat) (data : List Nat) (hR : 0 < R) (hc : 0 < c)
    (hh : 0 < h) (hn : n + 3 < data.length) (hlen : data.length ≤ UINT_RANGE) (h4 : 4 ∣ n) :
    ∃ d, writePixel R c h n data = .ok d ∧ d.length = data.length ∧
      ∀ m, d[m]? = if n ≤ m ∧ m < n + 4 then some (texel R c h m) else data[m]? := by
  have e1 : (n + 1) % UINT_RANGE = n + 1 := Nat.mod_eq_of_lt (by omega)
  have e2 : (n + 2) % UINT_RANGE = n + 2 := Nat.mod_eq_of_lt (by omega)
  have e3 : (n + 3) % UINT_RANGE = n + 3 := Nat.mod_eq_of_lt (by omega)
  have hR0 : R ≠ 0 := by omega
  have hc0 : c ≠ 0 := by omega
  have hh0 : h ≠ 0 := by omega
  have key : ∀ m, n ≤ m → m < n + 4 → m - m % 4 = n := by
    intro m h1 h2
    obtain ⟨k, rfl⟩ := h4
    omega
  unfold writePixel
  simp only [hR0, hc0, hh0, if_false, e1, e2, e3]
  by_cases hw : (n % R / c) % 2 = (n / R / h) % 2
  · simp only [hw, if_true]
    refine ⟨(((data.set n 0xff).set (n + 1) 0xff).set (n + 2) 0xff).set (n + 3) 0xff, ?_, by simp, ?_⟩
    · rw [storeByte_ok _ _ _ (by omega)]
      simp only [bind, Except.bind]
      rw [storeByte_ok _ _ _ (by simp; omega)]
      simp only [bind, Except.bind]
      rw [storeByte_ok _ _ _ (by simp; omega)]
      simp only [bind, Except.bind]
      rw [storeByte_ok _ _ _ (by simp; omega)]
    · intro m
      simp only [List.getElem?_set, List.length_set]
      by_cases hm : n ≤ m ∧ m < n + 4
      · have hk := key m hm.1 hm.2
        simp only [hm, and_self, if_true, texel, hk, hw]
        obtain ⟨k, rfl⟩ := h4
        have : m = 4 * k ∨ m = 4 * k + 1 ∨ m = 4 * k + 2 ∨ m = 4 * k + 3 := by omega
        rcases this with rfl | rfl | rfl | rfl
        · have hmod : (4 * k) % 4 = 0 := by omega
          simp [hmod]
          omega
        · have hmod : (4 * k + 1) % 4 = 1 := by omega
          simp [hmod]
          omega
        · have hmod : (4 * k + 2) % 4 = 2 := by omega
          simp [hmod]
          omega
        · have hmod : (4 * k + 3) % 4 = 3 := by omega
          simp [hmod]
          omega
      · simp only [hm, if_false]
        have h0 : ¬ n = m := by omega
        have h1 : ¬ n + 1 = m := by omega
        have h2 : ¬ n + 2 = m := by omega
        have h3 : ¬ n + 3 = m := by omega
        simp [h0, h1, h2, h3]
  · simp only [hw, if_false]
    refine ⟨(((data.set n 0x00).set (n + 1) 0x00).set (n + 2) 0x00).set (n + 3) 0xff, ?_, by simp, ?_⟩
    · rw [storeByte_ok _ _ _ (by omega)]
      simp only [bind, Except.bind]
      rw [storeByte_ok _ _ _ (by simp; omega)]
      simp only [bind, Except.bind]
      rw [storeByte_ok _ _ _ (by simp; omega)]
      simp only [bind, Except.bind]
      rw [storeByte_ok _ _ _ (by simp; omega)]
    · intro m
      simp only [List.getElem?_set, List.length_set]
      by_cases hm : n ≤ m ∧ m < n + 4
      · have hk := key m hm.1 hm.2
        simp only [hm, and_self, if_true, texel, hk, hw]
        obtain ⟨k, rfl⟩ := h4
        have : m = 4 * k ∨ m = 4 * k + 1 ∨ m = 4 * k + 2 ∨ m = 4 * k + 3 := by omega
        rcases this with rfl | rfl | rfl | rfl
        · have hmod : (4 * k) % 4 = 0 := by omega
          simp [hmod]
          omega
        · have hmod : (4 * k + 1) % 4 = 1 := by omega
          simp [hmod]
          omega
        · have hmod : (4 * k + 2) % 4 = 2 := by omega
          simp [hmod]
          omega
        · have hmod : (4 * k + 3) % 4 = 3 := by omega
          simp [hmod]
          omega
      · simp only [hm, if_false]
        have h0 : ¬ n = m := by omega
        have h1 : ¬ n + 1 = m := by omega
        have h2 : ¬ n + 2 = m := by omega
        have h3 : ¬ n + 3 = m := by omega
        simp [h0, h1, h2, h3]

theorem fillLoop_ok (R c h T : Nat) (hR : 0 < R) (hc : 0 < c) (hh : 0 < h)
    (hT : T < UINT_RANGE) (hT4 : 4 ∣ T) :
    ∀ (fuel n : Nat) (data : List Nat), 4 ∣ n → n ≤ T → data.length = T → (T - n) / 4 < fuel →
      ∃ d, fillLoop R c h T 4 fuel n data = .ok d ∧ d.length = T ∧
        ∀ m, d[m]? = if n ≤ m ∧ m < T then some (texel R c h m) else data[m]? := by
  intro fuel
  induction fuel with
  | zero => intro n data _ _ _ hf; omega
  | succ fuel ih =>
    intro n data hn4 hnT hlen hf
    unfold fillLoop
    by_cases hlt : n < T
    · have hn4T : n + 4 ≤ T := by
        obtain ⟨a, rfl⟩ := hn4
        obtain ⟨b, rfl⟩ := hT4
        omega
      obtain ⟨d1, hd1, hl1, hg1⟩ :=
        writePixel_ok R c h n data hR hc hh (by omega) (by omega) hn4
      have hwrap : (n + 4) % UINT_RANGE = n + 4 := Nat.mod_eq_of_lt (by omega)
      obtain ⟨d2, hd2, hl2, hg2⟩ :=
        ih (n + 4) d1 (Dvd.dvd.add hn4 (dvd_refl 4)) hn4T (by omega) (by omega)
      refine ⟨d2, ?_, hl2, ?_⟩
      · simp only [hlt, if_true, hd1, bind, Except.bind, hwrap, hd2]
      · intro m
        rw [hg2 m, hg1 m]
        by_cases h1 : n + 4 ≤ m ∧ m < T
        · have h2 : n ≤ m ∧ m < T := ⟨by omega, h1.2⟩
          rw [if_pos h1, if_pos h2]
        · by_cases h3 : n ≤ m ∧ m < n + 4
          · have h2 : n ≤ m ∧ m < T := ⟨h3.1, by omega⟩
            rw [if_neg h1, if_pos h3, if_pos h2]
          · have h2 : ¬ (n ≤ m ∧ m < T) := by omega
            rw [if_neg h1, if_neg h3, if_neg h2]
    · refine ⟨data, by simp only [hlt, if_false], hlen, ?_⟩
      intro m
      have h2 : ¬ (n ≤ m ∧ m < T) := by omega
      rw [if_neg h2]

theorem GenerateTextureData_ok (W H : Nat) (hW : 8 ≤ W) (hH : 1 ≤ H)
    (hsize : W * 4 * H < UINT_RANGE) :
    ∃ d, GenerateTextureData W H 4 = .ok d ∧ d.length = W * 4 * H ∧
      ∀ m, m < W * 4 * H → d[m]? = some (texel (W * 4) (W * 4 / 8) (W / 8) m) := by
  have hrow : W * 4 ≤ W * 4 * H := Nat.le_mul_of_pos_right _ hH
  have e1 : (W * 4) % UINT_RANGE = W * 4 := Nat.mod_eq_of_lt (by omega)
  have e2 : (W * 4 * H) % UINT_RANGE = W * 4 * H := Nat.mod_eq_of_lt hsize
  have hT0 : W * 4 * H ≠ 0 := by omega
  obtain ⟨d, hd, hl, hg⟩ := fillLoop_ok (W * 4) (W * 4 / 8) (W / 8) (W * 4 * H)
    (by omega) (by omega) (by omega) hsize
    (Dvd.dvd.mul_right (Dvd.intro_left W rfl) H)
    (W * 4 * H + 1) 0 (List.replicate (W * 4 * H) 0) (dvd_zero 4) (Nat.zero_le _)
    (by simp) (by omega)
  refine ⟨d, ?_, hl, ?_⟩
  · unfold GenerateTextureData
    simp only [e1, e2, hT0, if_false, Nat.shiftRight_eq_div_pow]
    exact hd
  · intro m hm
    rw [hg m]
    simp [hm]

theorem pixelBytes_eq (d : List Nat) (W x y : Nat) (f : Nat → Nat)
    (hlen : (y * W + x) * 4 + 3 < d.length)
    (hd : ∀ m, m < d.length → d[m]? = some (f m)) :
    pixelBytes d W x y =
      [f ((y * W + x) * 4), f ((y * W + x) * 4 + 1), f ((y * W + x) * 4 + 2),
        f ((y * W + x) * 4 + 3)] := by
  unfold pixelBytes
  apply List.ext_getElem?
  intro i
  rw [List.getElem?_take]
  by_cases hi : i < 4
  · rw [if_pos hi, List.getElem?_drop, hd _ (by omega)]
    have : i = 0 ∨ i = 1 ∨ i = 2 ∨ i = 3 := by omega
    rcases this with rfl | rfl | rfl | rfl <;> simp
  · rw [if_neg hi]
    rw [List.getElem?_eq_none (by simp; omega)]

/-- The value of `texel` on the four bytes of pixel `(x, y)`. -/
theorem texel_pixel (W x y k : Nat) (hW : 0 < W) (hx : x < W) (hk : k < 4) :
    texel (W * 4) (W * 4 / 8) (W / 8) ((y * W + x) * 4 + k) =
      if k = 3 then 0xff
      else if (4 * x / (W * 4 / 8)) % 2 = (y / (W / 8)) % 2 then 0xff else 0x00 := by
  have h1 : ((y * W + x) * 4 + k) % 4 = k := by omega
  have h2 : (y * W + x) * 4 + k - k = 4 * x + y * (W * 4) := by
    rw [Nat.add_sub_cancel]
    ring
  have h3 : (4 * x + y * (W * 4)) % (W * 4) = 4 * x := by
    rw [Nat.add_mul_mod_self_right]
    exact Nat.mod_eq_of_lt (by omega)
  have h4 : (4 * x + y * (W * 4)) / (W * 4) = y := by
    rw [Nat.add_mul_div_right _ _ (by omega : 0 < W * 4)]
    rw [Nat.div_eq_of_lt (by omega)]
    omega
  unfold texel
  rw [h1, h2, h3, h4]

/-- C1 (amended). For every texture width `W` of at least 8, every height `H`
with `4 * W * H < 2 ^ 32` and every pixel `(x, y)` with `x < W` and `y < H`,
`GenerateTextureData` (four bytes per pixel) returns a vector of `4 * W * H`
bytes in which the four bytes of the pixel are `FF FF FF FF` when the cell
column `(4 * x) / cellPitch` and the cell row `y / cellHeight` have the same
parity, and `00 00 00 FF` otherwise. Pixel `(0, 0)` is white. The pixel one
cell width to the right of it, `(cellPitch / 4, 0)`, is black exactly when
`W % 8` is 0 or 1, so whenever `W` is a multiple of 8. -/
theorem GenerateTextureData_checkerboard (W H x y : Nat) (hW : 8 ≤ W)
    (hsize : W * 4 * H < UINT_RANGE) (hx : x < W) (hy : y < H) :
    ∃ data, GenerateTextureData W H 4 = .ok data ∧ data.length = W * 4 * H ∧
      pixelBytes data W x y =
        (if (4 * x / ((W * 4) >>> 3)) % 2 = (y / (W >>> 3)) % 2
          then [0xff, 0xff, 0xff, 0xff] else [0x00, 0x00, 0x00, 0xff]) ∧
      pixelBytes data W 0 0 = [0xff, 0xff, 0xff, 0xff] ∧
      (pixelBytes data W (((W * 4) >>> 3) / 4) 0 = [0x00, 0x00, 0x00, 0xff] ↔ W % 8 ≤ 1) := by
  have hH : 1 ≤ H := by omega
  obtain ⟨d, hd, hl, hg⟩ := GenerateTextureData_ok W H hW hH hsize
  have hrow : W * 4 * y + W * 4 ≤ W * 4 * H := by
    have : W * 4 * (y + 1) ≤ W * 4 * H := Nat.mul_le_mul_left _ (by omega)
    rw [Nat.mul_add, Nat.mul_one] at this
    exact this
  have hrow0 : W * 4 ≤ W * 4 * H := Nat.le_mul_of_pos_right _ hH
  have hg2 : ∀ m, m < d.length → d[m]? = some (texel (W * 4) (W * 4 / 8) (W / 8) m) := by
    intro m hm
    exact hg m (by omega)
  have hs1 : (W * 4) >>> 3 = W * 4 / 8 := by
    simp [Nat.shiftRight_eq_div_pow]
  have hs2 : W >>> 3 = W / 8 := by
    simp [Nat.shiftRight_eq_div_pow]
  refine ⟨d, hd, hl, ?_, ?_, ?_⟩
  · have hidx : (y * W + x) * 4 + 3 < d.length := by
      have : (y * W + x) * 4 = W * 4 * y + x * 4 := by ring
      omega
    rw [pixelBytes_eq d W x y _ hidx hg2, hs1, hs2]
    rw [show (y * W + x) * 4 = (y * W + x) * 4 + 0 from rfl]
    simp only [Nat.add_assoc, Nat.zero_add]
    rw [texel_pixel W x y 0 (by omega) hx (by omega), texel_pixel W x y 1 (by omega) hx (by omega),
      texel_pixel W x y 2 (by omega) hx (by omega), texel_pixel W x y 3 (by omega) hx (by omega)]
    by_cases hp : (4 * x / (W * 4 / 8)) % 2 = (y / (W / 8)) % 2
    · simp [hp]
    · simp [hp]
  · have hidx : (0 * W + 0) * 4 + 3 < d.length := by omega
    rw [pixelBytes_eq d W 0 0 _ hidx hg2]
    rw [show (0 * W + 0) * 4 = (0 * W + 0) * 4 + 0 from rfl]
    simp only [Nat.add_assoc, Nat.zero_add]
    rw [texel_pixel W 0 0 0 (by omega) (by omega) (by omega),
      texel_pixel W 0 0 1 (by omega) (by omega) (by omega),
      texel_pixel W 0 0 2 (by omega) (by omega) (by omega),
      texel_pixel W 0 0 3 (by omega) (by omega) (by omega)]
    simp
  · rw [hs1]
    have hc : W * 4 / 8 / 4 < W := by omega
    have hidx : (0 * W + W * 4 / 8 / 4) * 4 + 3 < d.length := by omega
    rw [pixelBytes_eq d W (W * 4 / 8 / 4) 0 _ hidx hg2]
    rw [show (0 * W + W * 4 / 8 / 4) * 4 = (0 * W + W * 4 / 8 / 4) * 4 + 0 from rfl]
    simp only [Nat.add_assoc, Nat.zero_add]
    rw [texel_pixel W _ 0 0 (by omega) hc (by omega), texel_pixel W _ 0 1 (by omega) hc (by omega),
      texel_pixel W _ 0 2 (by omega) hc (by omega), texel_pixel W _ 0 3 (by omega) hc (by omega)]
    by_cases hr : W % 8 ≤ 1
    · have hcp : 4 * (W * 4 / 8 / 4) = W * 4 / 8 := by omega
      have hq : 4 * (W * 4 / 8 / 4) / (W * 4 / 8) = 1 := by
        rw [hcp]
        exact Nat.div_self (by omega)
      simp [hq, hr]
    · have hq : 4 * (W * 4 / 8 / 4) / (W * 4 / 8) = 0 :=
        Nat.div_eq_of_lt (by omega)
      simp [hq, hr]

/-- C1 (amended) at a concrete texture: pixel `(1, 1)` of an 8 by 2 texture. -/
theorem GenerateTextureData_checkerboard_witness :
    ∃ data, GenerateTextureData 8 2 4 = .ok data ∧ data.length = 8 * 4 * 2 ∧
      pixelBytes data 8 1 1 =
        (if (4 * 1 / ((8 * 4) >>> 3)) % 2 = (1 / (8 >>> 3)) % 2
          then [0xff, 0xff, 0xff, 0xff] else [0x00, 0x00, 0x00, 0xff]) ∧
      pixelBytes data 8 0 0 = [0xff, 0xff, 0xff, 0xff] ∧
      (pixelBytes data 8 (((8 * 4) >>> 3) / 4) 0 = [0x00, 0x00, 0x00, 0xff] ↔ 8 % 8 ≤ 1) :=
  GenerateTextureData_checkerboard 8 2 1 1 (by decide) (by decide) (by decide) (by decide)

/-- C1 as stated fails for some widths. For width 4 and height 1 the cell
height `4 >> 3` is zero and the generator divides by zero at pixel `(0, 0)`.
For width 10 the pixel one cell width (`cellPitch / 4 = 1` pixel) to the right
of `(0, 0)` is white. For width `2 ^ 30 + 8` the product `TextureWidth * 4`
wraps around to 32, and the returned vector has 32 bytes, none of them for the
pixel `(8, 0)`. -/
theorem GenerateTextureData_fails :
    GenerateTextureData 4 1 4 = .error .divideByZero ∧
    ((10 * 4) >>> 3) / 4 = 1 ∧
    (GenerateTextureData 10 1 4).map (fun data => pixelBytes data 10 1 0)
      = .ok [0xff, 0xff, 0xff, 0xff] ∧
    (GenerateTextureData (2 ^ 30 + 8) 1 4).map (fun data => (data.length, pixelBytes data (2 ^ 30 + 8) 8 0))
      = .ok (32, []) :=
  ⟨by decide, by decide, by decide, by decide⟩

/-! ### Runs -/

theorem run_bind_eq {α β : Type} (m : Run α) (f : α → Run β) : (m >>= f) = Run.bind m f := rfl

theorem run_pure_eq {α : Type} (a : α) : (pure a : Run α) = Run.pure a := rfl

theorem run_bind_of_ok {α β : Type} (m : Run α) (f : α → Run β) (t t1 : Nat) (a : α)
    (h : (m t).result = .ok (a, t1)) :
    Run.bind m f t = ⟨(m t).calls ++ (f a t1).calls, (f a t1).result⟩ := by
  simp only [Run.bind, h]

theorem run_bind_of_error {α β : Type} (m : Run α) (f : α → Run β) (t : Nat) (e : Fault)
    (h : (m t).result = .error e) :
    Run.bind m f t = ⟨(m t).calls, .error e⟩ := by
  simp only [Run.bind, h]

/-- A sequence returns exactly when its first part returns and the second
part, started from there, returns. -/
theorem run_bind_result_ok {α β : Type} (m : Run α) (f : α → Run β) (t : Nat) (r : β × Nat) :
    (Run.bind m f t).result = .ok r ↔
      ∃ a t1, (m t).result = .ok (a, t1) ∧ (f a t1).result = .ok r := by
  cases h : (m t).result with
  | error e => simp [Run.bind, h]
  | ok v =>
    obtain ⟨a, t1⟩ := v
    simp only [Run.bind, h]
    constructor
    · intro hr
      exact ⟨a, t1, rfl, hr⟩
    · rintro ⟨b, u, he, hr⟩
      cases he
      exact hr

theorem run_bind_calls_of_ok {α β : Type} (m : Run α) (f : α → Run β) (t t1 : Nat) (a : α)
    (h : (m t).result = .ok (a, t1)) :
    (Run.bind m f t).calls = (m t).calls ++ (f a t1).calls := by
  simp only [Run.bind, h]

/-! ### WaitForLastSubmittedFrame -/

/-- The marker of the slot `WaitForLastSubmittedFrame` looks at is zero: it
returns at once and makes no call. -/
theorem WaitForLastSubmittedFrame_zero (cfg : Config) (drv : Driver) (self : ImplD3D12)
    (t : Nat) (fc : FrameContext) (hN : cfg.D3D12_NUM_FRAMES_IN_FLIGHT ≠ 0)
    (hfc : self.FrameCtxt[self.FrameIndex % cfg.D3D12_NUM_FRAMES_IN_FLIGHT]? = some fc)
    (h0 : fc.FenceValue = 0) :
    WaitForLastSubmittedFrame cfg drv self t = ⟨[], .ok (self, t)⟩ := by
  simp [WaitForLastSubmittedFrame, run_bind_eq, run_pure_eq, Run.bind, Run.pure, Run.umod,
    Run.index, hN, hfc, h0]

/-- The marker is nonzero and the fence has already reached it: one call of
`GetCompletedValue`, no wait. -/
theorem WaitForLastSubmittedFrame_fast (cfg : Config) (drv : Driver) (self : ImplD3D12)
    (t : Nat) (fc : FrameContext) (hN : cfg.D3D12_NUM_FRAMES_IN_FLIGHT ≠ 0)
    (hfc : self.FrameCtxt[self.FrameIndex % cfg.D3D12_NUM_FRAMES_IN_FLIGHT]? = some fc)
    (h0 : fc.FenceValue ≠ 0) (hF : self.Fence ≠ 0) (hc : fc.FenceValue ≤ drv.fence t) :
    WaitForLastSubmittedFrame cfg drv self t =
      ⟨[.GetCompletedValue],
        .ok (self.storeFenceValue (self.FrameIndex % cfg.D3D12_NUM_FRAMES_IN_FLIGHT) fc 0, t)⟩ := by
  simp [WaitForLastSubmittedFrame, run_bind_eq, run_pure_eq, Run.bind, Run.pure, Run.umod,
    Run.index, Run.deref, GetCompletedValue, hN, hfc, h0, hF, hc]

/-- The marker is nonzero and the fence has not reached it: the event is armed
for the marker and, when arming succeeds, waited for. -/
theorem WaitForLastSubmittedFrame_slow (cfg : Config) (drv : Driver) (self : ImplD3D12)
    (t : Nat) (fc : FrameContext) (hN : cfg.D3D12_NUM_FRAMES_IN_FLIGHT ≠ 0)
    (hfc : self.FrameCtxt[self.FrameIndex % cfg.D3D12_NUM_FRAMES_IN_FLIGHT]? = some fc)
    (hF : self.Fence ≠ 0) (hc : drv.fence t < fc.FenceValue)
    (hs : drv.succeeds (.SetEventOnCompletion fc.FenceValue self.FenceEvent) = true) :
    WaitForLastSubmittedFrame cfg drv self t =
      ⟨[.GetCompletedValue, .SetEventOnCompletion fc.FenceValue self.FenceEvent,
          .WaitForSingleObject self.FenceEvent],
        match firstInstant (objectSignalled drv self.SwapChainWaitableObject self.FenceEvent
            (some fc.FenceValue) self.FenceEvent) drv.patience t with
        | some t1 =>
          .ok (self.storeFenceValue (self.FrameIndex % cfg.D3D12_NUM_FRAMES_IN_FLIGHT) fc 0, t1)
        | none => .error .waitNeverReturns⟩ := by
  have h0 : fc.FenceValue ≠ 0 := by omega
  have hc2 : ¬ fc.FenceValue ≤ drv.fence t := by omega
  simp only [WaitForLastSubmittedFrame, run_bind_eq, run_pure_eq, Run.bind, Run.pure, Run.umod,
    Run.index, Run.deref, GetCompletedValue, HR_CHECK, WaitForSingleObject, hN, hfc, h0, hF, hc2,
    hs, if_false, if_true, ge_iff_le, List.nil_append, List.append_nil, List.cons_append,
    List.singleton_append]
  cases firstInstant (objectSignalled drv self.SwapChainWaitableObject self.FenceEvent
            (some fc.FenceValue) self.FenceEvent) drv.patience t <;> rfl

/-- The arming call fails: the run ends there. -/
theorem WaitForLastSubmittedFrame_armFails (cfg : Config) (drv : Driver) (self : ImplD3D12)
    (t : Nat) (fc : FrameContext) (hN : cfg.D3D12_NUM_FRAMES_IN_FLIGHT ≠ 0)
    (hfc : self.FrameCtxt[self.FrameIndex % cfg.D3D12_NUM_FRAMES_IN_FLIGHT]? = some fc)
    (hF : self.Fence ≠ 0) (hc : drv.fence t < fc.FenceValue)
    (hs : drv.succeeds (.SetEventOnCompletion fc.FenceValue self.FenceEvent) = false) :
    WaitForLastSubmittedFrame cfg drv self t =
      ⟨[.GetCompletedValue, .SetEventOnCompletion fc.FenceValue self.FenceEvent],
        .error .callFailed⟩ := by
  have h0 : fc.FenceValue ≠ 0 := by omega
  have hc2 : ¬ fc.FenceValue ≤ drv.fence t := by omega
  simp [WaitForLastSubmittedFrame, run_bind_eq, run_pure_eq, Run.bind, Run.pure, Run.umod,
    Run.index, Run.deref, GetCompletedValue, HR_CHECK, hN, hfc, h0, hF, hc2, hs]

/-- The fence pointer is null when it is needed. -/
theorem WaitForLastSubmittedFrame_null (cfg : Config) (drv : Driver) (self : ImplD3D12)
    (t : Nat) (fc : FrameContext) (hN : cfg.D3D12_NUM_FRAMES_IN_FLIGHT ≠ 0)
    (hfc : self.FrameCtxt[self.FrameIndex % cfg.D3D12_NUM_FRAMES_IN_FLIGHT]? = some fc)
    (h0 : fc.FenceValue ≠ 0) (hF : self.Fence = 0) :
    WaitForLastSubmittedFrame cfg drv self t = ⟨[], .error .nullPointer⟩ := by
  simp [WaitForLastSubmittedFrame, run_bind_eq, run_pure_eq, Run.bind, Run.pure, Run.umod,
    Run.index, Run.deref, Run.fault, hN, hfc, h0, hF]

/-! ### Waiting -/

theorem firstInstant_some (ready : Nat → Bool) :
    ∀ (fuel t t1 : Nat), firstInstant ready fuel t = some t1 →
      t ≤ t1 ∧ ready t1 = true ∧ ∀ u, t ≤ u → u < t1 → ready u = false := by
  intro fuel
  induction fuel with
  | zero => intro t t1 h; simp [firstInstant] at h
  | succ fuel ih =>
    intro t t1 h
    unfold firstInstant at h
    by_cases hr : ready t = true
    · rw [if_pos hr] at h
      cases h
      exact ⟨le_refl _, hr, fun u h1 h2 => absurd h1 (by omega)⟩
    · rw [if_neg hr] at h
      obtain ⟨h1, h2, h3⟩ := ih (t + 1) t1 h
      refine ⟨by omega, h2, ?_⟩
      intro u hu1 hu2
      by_cases hut : u = t
      · subst hut
        simpa using hr
      · exact h3 u (by omega) hu2

theorem firstInstant_of_ready (ready : Nat → Bool) :
    ∀ (fuel t u : Nat), t ≤ u → u < t + fuel → ready u = true →
      ∃ t1, firstInstant ready fuel t = some t1 := by
  intro fuel
  induction fuel with
  | zero => intro t u h1 h2 _; omega
  | succ fuel ih =>
    intro t u h1 h2 hu
    unfold firstInstant
    by_cases hr : ready t = true
    · exact ⟨t, by rw [if_pos hr]⟩
    · rw [if_neg hr]
      have hne : u ≠ t := by
        intro h
        subst h
        exact hr hu
      exact ih (t + 1) u (by omega) (by omega) hu

/-! ### C5 -/

/-- C5. For an initialised object (the slot `FrameIndex % N` exists and holds
`fc`, the fence pointer is not null) `WaitForLastSubmittedFrame` arms the fence
event with `SetEventOnCompletion` if and only if the marker of the slot is
nonzero and the completed value of the fence, read at the instant of the call,
is strictly below the marker; `WaitForSingleObject` follows whenever arming
succeeded, and then the calls are exactly `GetCompletedValue`,
`SetEventOnCompletion`, `WaitForSingleObject`. When the marker is zero or at
most the completed value the function returns at the instant it was called
and has made no call besides `GetCompletedValue`. -/
theorem WaitForLastSubmittedFrame_blocks_iff (cfg : Config) (drv : Driver) (self : ImplD3D12)
    (t : Nat) (fc : FrameContext) (hN : cfg.D3D12_NUM_FRAMES_IN_FLIGHT ≠ 0)
    (hfc : self.FrameCtxt[self.FrameIndex % cfg.D3D12_NUM_FRAMES_IN_FLIGHT]? = some fc)
    (hF : self.Fence ≠ 0) :
    (Call.SetEventOnCompletion fc.FenceValue self.FenceEvent
        ∈ (WaitForLastSubmittedFrame cfg drv self t).calls
      ↔ fc.FenceValue ≠ 0 ∧ drv.fence t < fc.FenceValue) ∧
    (Call.WaitForSingleObject self.FenceEvent ∈ (WaitForLastSubmittedFrame cfg drv self t).calls
      ↔ (fc.FenceValue ≠ 0 ∧ drv.fence t < fc.FenceValue) ∧
        drv.succeeds (.SetEventOnCompletion fc.FenceValue self.FenceEvent) = true) ∧
    (fc.FenceValue ≠ 0 ∧ drv.fence t < fc.FenceValue →
      drv.succeeds (.SetEventOnCompletion fc.FenceValue self.FenceEvent) = true →
      (WaitForLastSubmittedFrame cfg drv self t).calls =
        [.GetCompletedValue, .SetEventOnCompletion fc.FenceValue self.FenceEvent,
          .WaitForSingleObject self.FenceEvent]) ∧
    (¬ (fc.FenceValue ≠ 0 ∧ drv.fence t < fc.FenceValue) →
      (∃ self1, (WaitForLastSubmittedFrame cfg drv self t).result = .ok (self1, t)) ∧
      ∀ c ∈ (WaitForLastSubmittedFrame cfg drv self t).calls, c = Call.GetCompletedValue) := by
  by_cases h0 : fc.FenceValue = 0
  · rw [WaitForLastSubmittedFrame_zero cfg drv self t fc hN hfc h0]
    simp [h0]
  · by_cases hc : fc.FenceValue ≤ drv.fence t
    · rw [WaitForLastSubmittedFrame_fast cfg drv self t fc hN hfc h0 hF hc]
      have hnot : ¬ drv.fence t < fc.FenceValue := by omega
      simp [h0, hnot]
    · have hlt : drv.fence t < fc.FenceValue := by omega
      cases hs : drv.succeeds (.SetEventOnCompletion fc.FenceValue self.FenceEvent) with
      | false =>
        rw [WaitForLastSubmittedFrame_armFails cfg drv self t fc hN hfc hF hlt hs]
        simp [h0, hlt]
      | true =>
        rw [WaitForLastSubmittedFrame_slow cfg drv self t fc hN hfc hF hlt hs]
        simp [h0, hlt]

/-- C5 at a concrete object: slot 1 holds marker 2, the fence has completed 0. -/
theorem WaitForLastSubmittedFrame_blocks_iff_witness :
    (Call.SetEventOnCompletion 2 6
        ∈ (WaitForLastSubmittedFrame sampleConfig sampleDriver (sampleState 1 2 [1, 2, 0]) 0).calls
      ↔ (2 : Nat) ≠ 0 ∧ sampleDriver.fence 0 < 2) ∧
    (Call.WaitForSingleObject 6
        ∈ (WaitForLastSubmittedFrame sampleConfig sampleDriver (sampleState 1 2 [1, 2, 0]) 0).calls
      ↔ ((2 : Nat) ≠ 0 ∧ sampleDriver.fence 0 < 2) ∧
        sampleDriver.succeeds (.SetEventOnCompletion 2 6) = true) ∧
    ((2 : Nat) ≠ 0 ∧ sampleDriver.fence 0 < 2 →
      sampleDriver.succeeds (.SetEventOnCompletion 2 6) = true →
      (WaitForLastSubmittedFrame sampleConfig sampleDriver (sampleState 1 2 [1, 2, 0]) 0).calls =
        [.GetCompletedValue, .SetEventOnCompletion 2 6, .WaitForSingleObject 6]) ∧
    (¬ ((2 : Nat) ≠ 0 ∧ sampleDriver.fence 0 < 2) →
      (∃ self1, (WaitForLastSubmittedFrame sampleConfig sampleDriver
          (sampleState 1 2 [1, 2, 0]) 0).result = .ok (self1, 0)) ∧
      ∀ c ∈ (WaitForLastSubmittedFrame sampleConfig sampleDriver
          (sampleState 1 2 [1, 2, 0]) 0).calls, c = Call.GetCompletedValue) :=
  WaitForLastSubmittedFrame_blocks_iff sampleConfig sampleDriver (sampleState 1 2 [1, 2, 0]) 0
    ⟨201, 2⟩ (by decide) (by decide) (by decide)


example : (sampleScenario 0).result = .ok (sampleState 0 2 [1, 2, 0], 0) := by decide
/-! ### C2 -/

theorem Finalize_eq (cfg : Config) (drv : Driver) (self : ImplD3D12) :
    Finalize cfg drv self = Run.bind (WaitForLastSubmittedFrame cfg drv self) (releaseAll cfg) := rfl

/-- The result of `WaitForLastSubmittedFrame`, case by case, for an object
whose slot `FrameIndex % N` exists. -/
theorem WaitForLastSubmittedFrame_cases (cfg : Config) (drv : Driver) (self : ImplD3D12)
    (t : Nat) (fc : FrameContext) (hN : cfg.D3D12_NUM_FRAMES_IN_FLIGHT ≠ 0)
    (hfc : self.FrameCtxt[self.FrameIndex % cfg.D3D12_NUM_FRAMES_IN_FLIGHT]? = some fc) :
    (∀ c ∈ (WaitForLastSubmittedFrame cfg drv self t).calls, c.isRelease = false) ∧
    ∀ self1 t1, (WaitForLastSubmittedFrame cfg drv self t).result = .ok (self1, t1) →
      fc.FenceValue ≤ drv.fence t1 ∧ t ≤ t1 ∧
      (t1 = t ∨ ∀ u, t ≤ u → u < t1 → drv.fence u < fc.FenceValue) := by
  by_cases h0 : fc.FenceValue = 0
  · rw [WaitForLastSubmittedFrame_zero cfg drv self t fc hN hfc h0]
    refine ⟨by simp, ?_⟩
    intro self1 t1 h
    simp only [Except.ok.injEq, Prod.mk.injEq] at h
    obtain ⟨-, rfl⟩ := h
    exact ⟨by omega, le_refl _, Or.inl rfl⟩
  · by_cases hF : self.Fence = 0
    · rw [WaitForLastSubmittedFrame_null cfg drv self t fc hN hfc h0 hF]
      refine ⟨by simp, ?_⟩
      intro self1 t1 h
      cases h
    · by_cases hc : fc.FenceValue ≤ drv.fence t
      · rw [WaitForLastSubmittedFrame_fast cfg drv self t fc hN hfc h0 hF hc]
        refine ⟨by simp [Call.isRelease], ?_⟩
        intro self1 t1 h
        simp only [Except.ok.injEq, Prod.mk.injEq] at h
        obtain ⟨-, rfl⟩ := h
        exact ⟨hc, le_refl _, Or.inl rfl⟩
      · have hlt : drv.fence t < fc.FenceValue := by omega
        cases hs : drv.succeeds (.SetEventOnCompletion fc.FenceValue self.FenceEvent) with
        | false =>
          rw [WaitForLastSubmittedFrame_armFails cfg drv self t fc hN hfc hF hlt hs]
          refine ⟨by simp [Call.isRelease], ?_⟩
          intro self1 t1 h
          cases h
        | true =>
          rw [WaitForLastSubmittedFrame_slow cfg drv self t fc hN hfc hF hlt hs]
          refine ⟨by simp [Call.isRelease], ?_⟩
          intro self1 t1 h
          cases hfi : firstInstant (objectSignalled drv self.SwapChainWaitableObject
              self.FenceEvent (some fc.FenceValue) self.FenceEvent) drv.patience t with
          | none =>
            rw [hfi] at h
            cases h
          | some u =>
            rw [hfi] at h
            simp only [Except.ok.injEq, Prod.mk.injEq] at h
            obtain ⟨-, rfl⟩ := h
            obtain ⟨h1, h2, h3⟩ := firstInstant_some _ _ _ _ hfi
            refine ⟨?_, h1, Or.inr ?_⟩
            · simpa [objectSignalled] using h2
            · intro v hv1 hv2
              have := h3 v hv1 hv2
              simpa [objectSignalled] using this

/-- When the fence pointer is set, arming succeeds and the fence reaches the
marker within the patience of the driver model, `WaitForLastSubmittedFrame`
returns. -/
theorem WaitForLastSubmittedFrame_returns (cfg : Config) (drv : Driver) (self : ImplD3D12)
    (t : Nat) (fc : FrameContext) (hN : cfg.D3D12_NUM_FRAMES_IN_FLIGHT ≠ 0)
    (hfc : self.FrameCtxt[self.FrameIndex % cfg.D3D12_NUM_FRAMES_IN_FLIGHT]? = some fc)
    (hF : self.Fence ≠ 0)
    (hs : drv.succeeds (.SetEventOnCompletion fc.FenceValue self.FenceEvent) = true)
    (hgpu : ∃ u, t ≤ u ∧ u < t + drv.patience ∧ fc.FenceValue ≤ drv.fence u) :
    ∃ self1 t1, (WaitForLastSubmittedFrame cfg drv self t).result = .ok (self1, t1) := by
  by_cases h0 : fc.FenceValue = 0
  · rw [WaitForLastSubmittedFrame_zero cfg drv self t fc hN hfc h0]
    exact ⟨_, _, rfl⟩
  · by_cases hc : fc.FenceValue ≤ drv.fence t
    · rw [WaitForLastSubmittedFrame_fast cfg drv self t fc hN hfc h0 hF hc]
      exact ⟨_, _, rfl⟩
    · have hlt : drv.fence t < fc.FenceValue := by omega
      rw [WaitForLastSubmittedFrame_slow cfg drv self t fc hN hfc hF hlt hs]
      obtain ⟨u, hu1, hu2, hu3⟩ := hgpu
      obtain ⟨t1, ht1⟩ := firstInstant_of_ready
        (objectSignalled drv self.SwapChainWaitableObject self.FenceEvent (some fc.FenceValue)
          self.FenceEvent) drv.patience t u hu1 hu2 (by simpa [objectSignalled] using hu3)
      rw [ht1]
      exact ⟨_, _, rfl⟩

/-- C2 (amended). Take an object whose slot `FrameIndex % N` still holds the
marker of the last submitted frame (its `FenceValue` equals
`LastSignalledFenceValue`, as after a `Render` called with the index that
`WaitForResources` returned), or for which the fence has already completed
`LastSignalledFenceValue`. Then in `Finalize`: the calls of the wait release
nothing; if the wait does not return nothing is released; if the wait returns,
the completed value of the fence at that instant is at least
`LastSignalledFenceValue`, and every release call of `Finalize` comes after
the calls of the wait; and the wait does return when the fence pointer is
set, arming succeeds and the fence reaches the marker in time. -/
theorem Finalize_waits_for_last_frame (cfg : Config) (drv : Driver) (self : ImplD3D12)
    (t : Nat) (fc : FrameContext) (hN : cfg.D3D12_NUM_FRAMES_IN_FLIGHT ≠ 0)
    (hfc : self.FrameCtxt[self.FrameIndex % cfg.D3D12_NUM_FRAMES_IN_FLIGHT]? = some fc)
    (hlast : fc.FenceValue = self.LastSignalledFenceValue ∨
      self.LastSignalledFenceValue ≤ drv.fence t) :
    (∀ c ∈ (WaitForLastSubmittedFrame cfg drv self t).calls, c.isRelease = false) ∧
    (∀ e, (WaitForLastSubmittedFrame cfg drv self t).result = .error e →
      Finalize cfg drv self t = ⟨(WaitForLastSubmittedFrame cfg drv self t).calls, .error e⟩) ∧
    (∀ self1 t1, (WaitForLastSubmittedFrame cfg drv self t).result = .ok (self1, t1) →
      self.LastSignalledFenceValue ≤ drv.fence t1 ∧
      (Finalize cfg drv self t).calls =
        (WaitForLastSubmittedFrame cfg drv self t).calls ++ (releaseAll cfg self1 t1).calls) ∧
    (self.Fence ≠ 0 →
      drv.succeeds (.SetEventOnCompletion fc.FenceValue self.FenceEvent) = true →
      (∃ u, t ≤ u ∧ u < t + drv.patience ∧ fc.FenceValue ≤ drv.fence u) →
      ∃ self1 t1, (WaitForLastSubmittedFrame cfg drv self t).result = .ok (self1, t1)) := by
  obtain ⟨hrel, hret⟩ := WaitForLastSubmittedFrame_cases cfg drv self t fc hN hfc
  refine ⟨hrel, ?_, ?_, ?_⟩
  · intro e he
    rw [Finalize_eq, run_bind_of_error _ _ _ _ he]
  · intro self1 t1 hok
    obtain ⟨h1, h2, h3⟩ := hret self1 t1 hok
    refine ⟨?_, ?_⟩
    · rcases hlast with hl | hl
      · omega
      · rcases h3 with h3 | h3
        · subst h3
          exact hl
        · by_cases htt : t1 = t
          · subst htt
            exact hl
          · have := h3 t (le_refl _) (by omega)
            omega
    · rw [Finalize_eq, run_bind_of_ok _ _ _ _ _ hok]
  · intro hF hs hgpu
    exact WaitForLastSubmittedFrame_returns cfg drv self t fc hN hfc hF hs hgpu

/-- C2 (amended) at a concrete object: frame index 1, slot 1 holds marker 2,
the last signalled value. -/
theorem Finalize_waits_for_last_frame_witness :
    (∀ c ∈ (WaitForLastSubmittedFrame sampleConfig sampleDriver
        (sampleState 1 2 [1, 2, 0]) 0).calls, c.isRelease = false) ∧
    (∀ e, (WaitForLastSubmittedFrame sampleConfig sampleDriver
        (sampleState 1 2 [1, 2, 0]) 0).result = .error e →
      Finalize sampleConfig sampleDriver (sampleState 1 2 [1, 2, 0]) 0 =
        ⟨(WaitForLastSubmittedFrame sampleConfig sampleDriver
          (sampleState 1 2 [1, 2, 0]) 0).calls, .error e⟩) ∧
    (∀ self1 t1, (WaitForLastSubmittedFrame sampleConfig sampleDriver
        (sampleState 1 2 [1, 2, 0]) 0).result = .ok (self1, t1) →
      (sampleState 1 2 [1, 2, 0]).LastSignalledFenceValue ≤ sampleDriver.fence t1 ∧
      (Finalize sampleConfig sampleDriver (sampleState 1 2 [1, 2, 0]) 0).calls =
        (WaitForLastSubmittedFrame sampleConfig sampleDriver (sampleState 1 2 [1, 2, 0]) 0).calls
          ++ (releaseAll sampleConfig self1 t1).calls) ∧
    ((sampleState 1 2 [1, 2, 0]).Fence ≠ 0 →
      sampleDriver.succeeds (.SetEventOnCompletion (2 : Nat)
        (sampleState 1 2 [1, 2, 0]).FenceEvent) = true →
      (∃ u, 0 ≤ u ∧ u < 0 + sampleDriver.patience ∧ (2 : Nat) ≤ sampleDriver.fence u) →
      ∃ self1 t1, (WaitForLastSubmittedFrame sampleConfig sampleDriver
        (sampleState 1 2 [1, 2, 0]) 0).result = .ok (self1, t1)) :=
  Finalize_waits_for_last_frame sampleConfig sampleDriver (sampleState 1 2 [1, 2, 0]) 0
    ⟨201, 2⟩ (by decide) (by decide) (Or.inl (by decide))

set_option maxRecDepth 10000 in
/-- C2 as stated fails. The run `Initialize`, `Resize(800, 600)`, `Render(0)`,
`Render(1)` ends in an object whose frame index is 0, whose slots hold the
markers 1, 2, 0 and whose last signalled value is 2. Called at instant 0, with
a fence that has completed `t` at instant `t`, the wait of `Finalize` is armed
for the marker 1 of slot 0 and returns at instant 1, when the fence has
completed 1, which is below the last signalled value 2; the releases follow. -/
theorem Finalize_returns_before_last_frame :
    (sampleScenario 0).result = .ok (sampleState 0 2 [1, 2, 0], 0) ∧
    (sampleState 0 2 [1, 2, 0]).LastSignalledFenceValue = 2 ∧
    (WaitForLastSubmittedFrame sampleConfig sampleDriver (sampleState 0 2 [1, 2, 0]) 0).result
      = .ok (sampleState 0 2 [0, 2, 0], 1) ∧
    sampleDriver.fence 1 < (sampleState 0 2 [1, 2, 0]).LastSignalledFenceValue ∧
    (Finalize sampleConfig sampleDriver (sampleState 0 2 [1, 2, 0]) 0).calls =
      [.GetCompletedValue, .SetEventOnCompletion 1 6, .WaitForSingleObject 6, .ImGuiShutdown,
        .SafeRelease (.CommandAllocator 0) 0, .SafeRelease (.CommandAllocator 1) 0,
        .SafeRelease (.CommandAllocator 2) 0, .SafeRelease .RTVHeap 0, .SafeRelease .SRVHeap 0,
        .SafeRelease .CmdList 0, .SafeRelease .PipelineState 0, .SafeRelease .RootSignature 0,
        .SafeRelease .VertexBuffer 0, .SafeRelease .Fence 0,
        .SafeRelease (.BackBufferResource 0) 2, .SafeRelease (.BackBufferResource 1) 1,
        .SafeRelease (.BackBufferResource 2) 0, .SafeRelease .DxgiSwapChain3 0,
        .SafeRelease .CommandQueue 0, .SafeRelease .Device 0, .SafeRelease .DxgiFactory4 0,
        .CloseHandle 8, .CloseHandle 6] :=
  ⟨rfl, rfl, rfl, by decide, rfl⟩

/-! ### WaitForResources -/

theorem list_set_same {α : Type} (l : List α) (i : Nat) (a : α) (h : l[i]? = some a) :
    l.set i a = l := by
  apply List.ext_getElem?
  intro j
  rw [List.getElem?_set]
  by_cases hij : i = j
  · subst hij
    by_cases hlt : i < l.length
    · simp [hlt, h]
    · rw [List.getElem?_eq_none (by omega)] at h
      cases h
  · simp [hij]

/-- The next slot holds no marker: one wait, on the swap chain alone. -/
theorem WaitForResources_zero (cfg : Config) (drv : Driver) (self : ImplD3D12) (t : Nat)
    (fc : FrameContext) (hN : cfg.D3D12_NUM_FRAMES_IN_FLIGHT ≠ 0)
    (hfc : self.FrameCtxt[((self.FrameIndex + 1) % UINT_RANGE) % cfg.D3D12_NUM_FRAMES_IN_FLIGHT]?
      = some fc)
    (h0 : fc.FenceValue = 0) :
    WaitForResources cfg drv self t =
      ⟨[.WaitForMultipleObjects 1 [self.SwapChainWaitableObject, 0] true],
        if drv.succeeds (.WaitForMultipleObjects 1 [self.SwapChainWaitableObject, 0] true) then
          match firstInstant (fun u => ([self.SwapChainWaitableObject, 0].take 1).all
            (fun h => objectSignalled drv self.SwapChainWaitableObject self.FenceEvent none h u))
            drv.patience t with
          | some t1 =>
            .ok ((((self.FrameIndex + 1) % UINT_RANGE) % cfg.D3D12_NUM_FRAMES_IN_FLIGHT,
              { self with FrameIndex := (self.FrameIndex + 1) % UINT_RANGE }), t1)
          | none => .error .waitNeverReturns
        else .error .callFailed⟩ := by
  simp only [WaitForResources, run_bind_eq, run_pure_eq, Run.bind, Run.pure, Run.umod,
    Run.index, WaitForMultipleObjects, hN, hfc, h0, if_false, if_true, ne_eq, not_true_eq_false,
    List.nil_append, List.append_nil]
  cases drv.succeeds (.WaitForMultipleObjects 1 [self.SwapChainWaitableObject, 0] true)
  · rfl
  · simp only [if_true]
    cases firstInstant (fun u => ([self.SwapChainWaitableObject, 0].take 1).all
            (fun h => objectSignalled drv self.SwapChainWaitableObject self.FenceEvent none h u))
            drv.patience t <;> rfl

/-- The next slot holds a marker: the fence event is armed for it and one wait
covers the swap chain and the fence event. -/
theorem WaitForResources_marked (cfg : Config) (drv : Driver) (self : ImplD3D12) (t : Nat)
    (fc : FrameContext) (hN : cfg.D3D12_NUM_FRAMES_IN_FLIGHT ≠ 0)
    (hfc : self.FrameCtxt[((self.FrameIndex + 1) % UINT_RANGE) % cfg.D3D12_NUM_FRAMES_IN_FLIGHT]?
      = some fc)
    (h0 : fc.FenceValue ≠ 0) (hF : self.Fence ≠ 0)
    (hs : drv.succeeds (.SetEventOnCompletion fc.FenceValue self.FenceEvent) = true) :
    WaitForResources cfg drv self t =
      ⟨[.SetEventOnCompletion fc.FenceValue self.FenceEvent,
          .WaitForMultipleObjects 2 [self.SwapChainWaitableObject, self.FenceEvent] true],
        if drv.succeeds
            (.WaitForMultipleObjects 2 [self.SwapChainWaitableObject, self.FenceEvent] true) then
          match firstInstant (fun u => ([self.SwapChainWaitableObject, self.FenceEvent].take 2).all
            (fun h => objectSignalled drv self.SwapChainWaitableObject self.FenceEvent
              (some fc.FenceValue) h u)) drv.patience t with
          | some t1 =>
            .ok ((((self.FrameIndex + 1) % UINT_RANGE) % cfg.D3D12_NUM_FRAMES_IN_FLIGHT,
              ({ self with FrameIndex := (self.FrameIndex + 1) % UINT_RANGE }).storeFenceValue
                (((self.FrameIndex + 1) % UINT_RANGE) % cfg.D3D12_NUM_FRAMES_IN_FLIGHT) fc 0), t1)
          | none => .error .waitNeverReturns
        else .error .callFailed⟩ := by
  simp only [WaitForResources, run_bind_eq, run_pure_eq, Run.bind, Run.pure, Run.umod,
    Run.index, Run.deref, HR_CHECK, WaitForMultipleObjects, hN, hfc, h0, hF, hs, if_false, if_true,
    ne_eq, not_false_eq_true, List.nil_append, List.append_nil, List.cons_append,
    List.singleton_append]
  cases drv.succeeds
    (.WaitForMultipleObjects 2 [self.SwapChainWaitableObject, self.FenceEvent] true)
  · rfl
  · simp only [if_true]
    cases firstInstant (fun u => ([self.SwapChainWaitableObject, self.FenceEvent].take 2).all
            (fun h => objectSignalled drv self.SwapChainWaitableObject self.FenceEvent
              (some fc.FenceValue) h u)) drv.patience t <;> rfl

/-- What a call of `WaitForResources` that returns has done to the object. -/
theorem WaitForResources_result (cfg : Config) (drv : Driver) (self : ImplD3D12) (t : Nat)
    (r : Nat) (self1 : ImplD3D12) (t1 : Nat)
    (h : (WaitForResources cfg drv self t).result = .ok ((r, self1), t1)) :
    cfg.D3D12_NUM_FRAMES_IN_FLIGHT ≠ 0 ∧
    r = ((self.FrameIndex + 1) % UINT_RANGE) % cfg.D3D12_NUM_FRAMES_IN_FLIGHT ∧
    ∃ fc, self.FrameCtxt[r]? = some fc ∧
      self1 = ({ self with FrameIndex := (self.FrameIndex + 1) % UINT_RANGE }).storeFenceValue
        r fc 0 := by
  by_cases hN : cfg.D3D12_NUM_FRAMES_IN_FLIGHT = 0
  · simp [WaitForResources, run_bind_eq, run_pure_eq, Run.bind, Run.umod, Run.fault, hN] at h
  · cases hfc : self.FrameCtxt[((self.FrameIndex + 1) % UINT_RANGE)
        % cfg.D3D12_NUM_FRAMES_IN_FLIGHT]? with
    | none =>
      simp [WaitForResources, run_bind_eq, run_pure_eq, Run.bind, Run.pure, Run.umod, Run.index,
        Run.fault, hN, hfc] at h
    | some fc =>
      by_cases h0 : fc.FenceValue = 0
      · rw [WaitForResources_zero cfg drv self t fc hN hfc h0] at h
        simp only at h
        split at h
        · split at h
          · simp only [Except.ok.injEq, Prod.mk.injEq] at h
            obtain ⟨⟨rfl, rfl⟩, -⟩ := h
            refine ⟨hN, rfl, fc, hfc, ?_⟩
            have hsame : ({ fc with FenceValue := 0 } : FrameContext) = fc := by
              cases fc
              simp only at h0
              subst h0
              rfl
            simp only [ImplD3D12.storeFenceValue, hsame, list_set_same _ _ _ hfc]
          · cases h
        · cases h
      · by_cases hF : self.Fence = 0
        · simp [WaitForResources, run_bind_eq, run_pure_eq, Run.bind, Run.pure, Run.umod,
            Run.index, Run.deref, Run.fault, hN, hfc, h0, hF] at h
        · cases hs : drv.succeeds (.SetEventOnCompletion fc.FenceValue self.FenceEvent) with
          | false =>
            simp [WaitForResources, run_bind_eq, run_pure_eq, Run.bind, Run.pure, Run.umod,
              Run.index, Run.deref, HR_CHECK, hN, hfc, h0, hF, hs] at h
          | true =>
            rw [WaitForResources_marked cfg drv self t fc hN hfc h0 hF hs] at h
            simp only at h
            split at h
            · split at h
              · simp only [Except.ok.injEq, Prod.mk.injEq] at h
                obtain ⟨⟨rfl, rfl⟩, -⟩ := h
                exact ⟨hN, rfl, fc, hfc, rfl⟩
              · cases h
            · cases h

/-! ### Render -/

/-- The calls of a `Render` that runs to its end: `allocator` is the command
allocator of the frame slot, `target` the back buffer the swap chain names. -/
theorem Render_ok (drv : Driver) (self : ImplD3D12) (r t : Nat) (fc : FrameContext)
    (bb : BackBufferEntry)
    (hfc : self.FrameCtxt[r]? = some fc) (hsc : self.DxgiSwapChain3 ≠ 0)
    (hal : fc.CommandAllocator ≠ 0)
    (h1 : drv.succeeds (.CommandAllocatorReset fc.CommandAllocator) = true)
    (h2 : drv.succeeds (.CmdListReset fc.CommandAllocator) = true)
    (hbb : self.BackBuffer[drv.currentBackBufferIndex]? = some bb)
    (h3 : drv.succeeds .CmdListClose = true)
    (h4 : drv.succeeds (.Present 1 0) = true)
    (h5 : drv.succeeds
      (.Signal self.Fence ((self.LastSignalledFenceValue + 1) % UINT64_RANGE)) = true) :
    Render drv self r t =
      ⟨[.GetCurrentBackBufferIndex,
        .CommandAllocatorReset fc.CommandAllocator,
        .CmdListReset fc.CommandAllocator,
        .ResourceBarrier bb.Resource .PRESENT .RENDER_TARGET,
        .ClearRenderTargetView bb.Handle,
        .SetGraphicsRootSignature,
        .SetDescriptorHeaps,
        .IASetPrimitiveTopology,
        .IASetVertexBuffers,
        .RSSetViewports self.Width self.Height,
        .OMSetRenderTargets bb.Handle,
        .RSSetScissorRects self.Width self.Height,
        .GetDescriptorHandleIncrementSize,
        .SetGraphicsRootDescriptorTable 1,
        .DrawInstanced 3 1 0 0,
        .SetGraphicsRootDescriptorTable 0,
        .ImGuiRender,
        .ResourceBarrier bb.Resource .RENDER_TARGET .PRESENT,
        .CmdListClose,
        .ExecuteCommandLists,
        .Present 1 0,
        .Signal self.Fence ((self.LastSignalledFenceValue + 1) % UINT64_RANGE)],
       .ok (({ self with LastSignalledFenceValue :=
                (self.LastSignalledFenceValue + 1) % UINT64_RANGE }).storeFenceValue r fc
              ((self.LastSignalledFenceValue + 1) % UINT64_RANGE), t)⟩ := by
  simp [Render, run_bind_eq, run_pure_eq, Run.bind, Run.pure, Run.index, Run.deref, Run.call,
    HR_CHECK, hfc, hsc, hal, h1, h2, hbb, h3, h4, h5]

/-- A `Render` that returns has met every condition of `Render_ok`. -/
theorem Render_returns (drv : Driver) (self : ImplD3D12) (r t : Nat) (self1 : ImplD3D12)
    (t1 : Nat) (h : (Render drv self r t).result = .ok (self1, t1)) :
    ∃ fc bb, self.FrameCtxt[r]? = some fc ∧ self.DxgiSwapChain3 ≠ 0 ∧
      fc.CommandAllocator ≠ 0 ∧
      drv.succeeds (.CommandAllocatorReset fc.CommandAllocator) = true ∧
      drv.succeeds (.CmdListReset fc.CommandAllocator) = true ∧
      self.BackBuffer[drv.currentBackBufferIndex]? = some bb ∧
      drv.succeeds .CmdListClose = true ∧
      drv.succeeds (.Present 1 0) = true ∧
      drv.succeeds
        (.Signal self.Fence ((self.LastSignalledFenceValue + 1) % UINT64_RANGE)) = true := by
  cases hfc : self.FrameCtxt[r]? with
  | none =>
    simp [Render, run_bind_eq, run_pure_eq, Run.bind, Run.pure, Run.index, Run.fault, hfc] at h
  | some fc =>
  by_cases hsc : self.DxgiSwapChain3 = 0
  · simp [Render, run_bind_eq, run_pure_eq, Run.bind, Run.pure, Run.index, Run.deref, Run.fault,
      hfc, hsc] at h
  by_cases hal : fc.CommandAllocator = 0
  · simp [Render, run_bind_eq, run_pure_eq, Run.bind, Run.pure, Run.index, Run.deref, Run.fault,
      Run.call, hfc, hsc, hal] at h
  cases h1 : drv.succeeds (.CommandAllocatorReset fc.CommandAllocator) with
  | false =>
    simp [Render, run_bind_eq, run_pure_eq, Run.bind, Run.pure, Run.index, Run.deref, Run.fault,
      Run.call, HR_CHECK, hfc, hsc, hal, h1] at h
  | true =>
  cases h2 : drv.succeeds (.CmdListReset fc.CommandAllocator) with
  | false =>
    simp [Render, run_bind_eq, run_pure_eq, Run.bind, Run.pure, Run.index, Run.deref, Run.fault,
      Run.call, HR_CHECK, hfc, hsc, hal, h1, h2] at h
  | true =>
  cases hbb : self.BackBuffer[drv.currentBackBufferIndex]? with
  | none =>
    simp [Render, run_bind_eq, run_pure_eq, Run.bind, Run.pure, Run.index, Run.deref, Run.fault,
      Run.call, HR_CHECK, hfc, hsc, hal, h1, h2, hbb] at h
  | some bb =>
  cases h3 : drv.succeeds .CmdListClose with
  | false =>
    simp [Render, run_bind_eq, run_pure_eq, Run.bind, Run.pure, Run.index, Run.deref, Run.fault,
      Run.call, HR_CHECK, hfc, hsc, hal, h1, h2, hbb, h3] at h
  | true =>
  cases h4 : drv.succeeds (.Present 1 0) with
  | false =>
    simp [Render, run_bind_eq, run_pure_eq, Run.bind, Run.pure, Run.index, Run.deref, Run.fault,
      Run.call, HR_CHECK, hfc, hsc, hal, h1, h2, hbb, h3, h4] at h
  | true =>
  cases h5 : drv.succeeds
      (.Signal self.Fence ((self.LastSignalledFenceValue + 1) % UINT64_RANGE)) with
  | false =>
    simp [Render, run_bind_eq, run_pure_eq, Run.bind, Run.pure, Run.index, Run.deref, Run.fault,
      Run.call, HR_CHECK, hfc, hsc, hal, h1, h2, hbb, h3, h4, h5] at h
  | true =>
    refine ⟨fc, bb, rfl, hsc, hal, ?_, ?_, rfl, ?_, ?_, ?_⟩ <;> first | rfl | assumption

/-- The object after a `Render` that returns. -/
theorem Render_result (drv : Driver) (self : ImplD3D12) (r t : Nat) (self1 : ImplD3D12)
    (t1 : Nat) (h : (Render drv self r t).result = .ok (self1, t1)) :
    ∃ fc, self.FrameCtxt[r]? = some fc ∧
      self1 = ({ self with LastSignalledFenceValue :=
          (self.LastSignalledFenceValue + 1) % UINT64_RANGE }).storeFenceValue r fc
        ((self.LastSignalledFenceValue + 1) % UINT64_RANGE) := by
  obtain ⟨fc, bb, hfc, hsc, hal, h1, h2, hbb, h3, h4, h5⟩ :=
    Render_returns drv self r t self1 t1 h
  rw [Render_ok drv self r t fc bb hfc hsc hal h1 h2 hbb h3 h4 h5] at h
  simp only [Except.ok.injEq, Prod.mk.injEq] at h
  exact ⟨fc, hfc, h.1.symm⟩

/-! ### Loops and the members they keep -/

theorem forEach_preserves {σ : Type} (P : σ → Prop) (body : Nat → σ → Run σ)
    (hbody : ∀ i s t s1 t1, P s → (body i s t).result = .ok (s1, t1) → P s1) :
    ∀ (l : List Nat) (s : σ) (t : Nat) (s1 : σ) (t1 : Nat),
      P s → (Run.forEach body l s t).result = .ok (s1, t1) → P s1 := by
  intro l
  induction l with
  | nil =>
    intro s t s1 t1 hP h
    simp only [Run.forEach, Run.pure, Except.ok.injEq, Prod.mk.injEq] at h
    obtain ⟨rfl, -⟩ := h
    exact hP
  | cons i rest ih =>
    intro s t s1 t1 hP h
    simp only [Run.forEach] at h
    rw [run_bind_result_ok] at h
    obtain ⟨a, u, h1, h2⟩ := h
    exact ih a u s1 t1 (hbody i s t a u hP h1) h2

theorem keeps_refl (a : ImplD3D12) : a.keeps a := ⟨rfl, rfl, rfl⟩

theorem keeps_trans {a b c : ImplD3D12} (h1 : a.keeps b) (h2 : b.keeps c) : a.keeps c :=
  ⟨h2.1.trans h1.1, h2.2.1.trans h1.2.1, h2.2.2.trans h1.2.2⟩

theorem map_handle_set (l : List BackBufferEntry) (i : Nat) (bb : BackBufferEntry) (res : Nat)
    (h : l[i]? = some bb) :
    (l.set i { bb with Resource := res }).map (fun b => b.Handle) = l.map (fun b => b.Handle) := by
  rw [List.map_set]
  apply list_set_same
  simp [List.getElem?_map, h]

theorem storeFenceValue_keeps (a : ImplD3D12) (slot : Nat) (fc : FrameContext) (v : Nat) :
    a.keeps (a.storeFenceValue slot fc v) := ⟨rfl, rfl, rfl⟩

theorem releaseBackBuffer_keeps (i : Nat) (s : ImplD3D12) (t : Nat) (s1 : ImplD3D12) (t1 : Nat)
    (h : (releaseBackBuffer i s t).result = .ok (s1, t1)) : s.keeps s1 := by
  cases hbb : s.BackBuffer[i]? with
  | none =>
    simp [releaseBackBuffer, run_bind_eq, run_pure_eq, Run.bind, Run.index, Run.fault, hbb] at h
  | some bb =>
    by_cases hr : bb.Resource = 0
    · simp [releaseBackBuffer, run_bind_eq, run_pure_eq, Run.bind, Run.pure, Run.index, Run.deref,
        Run.fault, hbb, hr] at h
    · simp [releaseBackBuffer, run_bind_eq, run_pure_eq, Run.bind, Run.pure, Run.index, Run.deref,
        Run.call, hbb, hr] at h
      obtain ⟨rfl, -⟩ := h
      exact ⟨rfl, rfl, map_handle_set _ _ _ _ hbb⟩

theorem acquireBackBuffer_keeps (drv : Driver) (i : Nat) (s : ImplD3D12) (t : Nat)
    (s1 : ImplD3D12) (t1 : Nat)
    (h : (acquireBackBuffer drv i s t).result = .ok (s1, t1)) : s.keeps s1 := by
  cases hbb : s.BackBuffer[i]? with
  | none =>
    simp [acquireBackBuffer, run_bind_eq, run_pure_eq, Run.bind, Run.index, Run.fault, hbb] at h
  | some bb =>
    by_cases hr : s.DxgiSwapChain3 = 0
    · simp [acquireBackBuffer, run_bind_eq, run_pure_eq, Run.bind, Run.pure, Run.index, Run.deref,
        Run.fault, hbb, hr] at h
    · cases hs : drv.succeeds (.GetBuffer i) with
      | false =>
        simp [acquireBackBuffer, run_bind_eq, run_pure_eq, Run.bind, Run.pure, Run.index,
          Run.deref, Run.call, HR_CHECK, hbb, hr, hs] at h
      | true =>
        simp [acquireBackBuffer, run_bind_eq, run_pure_eq, Run.bind, Run.pure, Run.index,
          Run.deref, Run.call, HR_CHECK, hbb, hr, hs] at h
        obtain ⟨rfl, -⟩ := h
        exact ⟨rfl, rfl, map_handle_set _ _ _ _ hbb⟩

theorem releaseAllocator_keeps (i : Nat) (s : ImplD3D12) (t : Nat) (s1 : ImplD3D12) (t1 : Nat)
    (h : (releaseAllocator i s t).result = .ok (s1, t1)) : s.keeps s1 := by
  cases hfc : s.FrameCtxt[i]? with
  | none =>
    simp [releaseAllocator, run_bind_eq, run_pure_eq, Run.bind, Run.index, Run.fault, hfc] at h
  | some fc =>
    simp [releaseAllocator, run_bind_eq, run_pure_eq, Run.bind, Run.pure, Run.index, SafeRelease,
      Run.call, hfc] at h
    obtain ⟨rfl, -⟩ := h
    exact ⟨rfl, rfl, rfl⟩

theorem releaseImage_keeps (cfg : Config) (i : Nat) (s : ImplD3D12) (t : Nat) (s1 : ImplD3D12)
    (t1 : Nat) (h : (releaseImage cfg i s t).result = .ok (s1, t1)) : s.keeps s1 := by
  cases hbb : s.BackBuffer[i]? with
  | none =>
    simp [releaseImage, run_bind_eq, run_pure_eq, Run.bind, Run.index, Run.fault, hbb] at h
  | some bb =>
    simp [releaseImage, run_bind_eq, run_pure_eq, Run.bind, Run.pure, Run.index, SafeRelease,
      Run.call, hbb] at h
    obtain ⟨rfl, -⟩ := h
    exact ⟨rfl, rfl, map_handle_set _ _ _ _ hbb⟩

/-- A loop whose turns keep the counters and the handles keeps them. -/
theorem forEach_keeps (body : Nat → ImplD3D12 → Run ImplD3D12)
    (hbody : ∀ i s t s1 t1, (body i s t).result = .ok (s1, t1) → s.keeps s1)
    (l : List Nat) (s : ImplD3D12) (t : Nat) (s1 : ImplD3D12) (t1 : Nat)
    (h : (Run.forEach body l s t).result = .ok (s1, t1)) : s.keeps s1 :=
  forEach_preserves (fun x => s.keeps x) body
    (fun i a u b v hP hb => keeps_trans hP (hbody i a u b v hb)) l s t s1 t1 (keeps_refl s) h

/-- What a call of `WaitForLastSubmittedFrame` that returns has done to the
object: the marker of slot `FrameIndex % N` is zero, nothing else changed. -/
theorem WaitForLastSubmittedFrame_result (cfg : Config) (drv : Driver) (self : ImplD3D12)
    (t : Nat) (self1 : ImplD3D12) (t1 : Nat)
    (h : (WaitForLastSubmittedFrame cfg drv self t).result = .ok (self1, t1)) :
    cfg.D3D12_NUM_FRAMES_IN_FLIGHT ≠ 0 ∧
    ∃ fc, self.FrameCtxt[self.FrameIndex % cfg.D3D12_NUM_FRAMES_IN_FLIGHT]? = some fc ∧
      self1 = self.storeFenceValue (self.FrameIndex % cfg.D3D12_NUM_FRAMES_IN_FLIGHT) fc 0 := by
  by_cases hN : cfg.D3D12_NUM_FRAMES_IN_FLIGHT = 0
  · simp [WaitForLastSubmittedFrame, run_bind_eq, run_pure_eq, Run.bind, Run.umod, Run.fault,
      hN] at h
  · cases hfc : self.FrameCtxt[self.FrameIndex % cfg.D3D12_NUM_FRAMES_IN_FLIGHT]? with
    | none =>
      simp [WaitForLastSubmittedFrame, run_bind_eq, run_pure_eq, Run.bind, Run.pure, Run.umod,
        Run.index, Run.fault, hN, hfc] at h
    | some fc =>
      refine ⟨hN, fc, rfl, ?_⟩
      by_cases h0 : fc.FenceValue = 0
      · rw [WaitForLastSubmittedFrame_zero cfg drv self t fc hN hfc h0] at h
        simp only [Except.ok.injEq, Prod.mk.injEq] at h
        obtain ⟨rfl, -⟩ := h
        have hsame : ({ fc with FenceValue := 0 } : FrameContext) = fc := by
          cases fc
          simp only at h0
          subst h0
          rfl
        simp only [ImplD3D12.storeFenceValue, hsame, list_set_same _ _ _ hfc]
      · by_cases hF : self.Fence = 0
        · rw [WaitForLastSubmittedFrame_null cfg drv self t fc hN hfc h0 hF] at h
          cases h
        · by_cases hc : fc.FenceValue ≤ drv.fence t
          · rw [WaitForLastSubmittedFrame_fast cfg drv self t fc hN hfc h0 hF hc] at h
            simp only [Except.ok.injEq, Prod.mk.injEq] at h
            exact h.1.symm
          · have hlt : drv.fence t < fc.FenceValue := by omega
            cases hs : drv.succeeds (.SetEventOnCompletion fc.FenceValue self.FenceEvent) with
            | false =>
              rw [WaitForLastSubmittedFrame_armFails cfg drv self t fc hN hfc hF hlt hs] at h
              cases h
            | true =>
              rw [WaitForLastSubmittedFrame_slow cfg drv self t fc hN hfc hF hlt hs] at h
              simp only at h
              split at h
              · simp only [Except.ok.injEq, Prod.mk.injEq] at h
                exact h.1.symm
              · cases h

theorem WaitForLastSubmittedFrame_keeps (cfg : Config) (drv : Driver) (self : ImplD3D12)
    (t : Nat) (self1 : ImplD3D12) (t1 : Nat)
    (h : (WaitForLastSubmittedFrame cfg drv self t).result = .ok (self1, t1)) :
    self.keeps self1 := by
  obtain ⟨-, fc, -, rfl⟩ := WaitForLastSubmittedFrame_result cfg drv self t self1 t1 h
  exact storeFenceValue_keeps _ _ _ _

theorem releaseSwapChain_keeps (cfg : Config) (s : ImplD3D12) (t : Nat) (s1 : ImplD3D12)
    (t1 : Nat) (h : (releaseSwapChain cfg s t).result = .ok (s1, t1)) : s.keeps s1 := by
  unfold releaseSwapChain at h
  by_cases hsc : s.DxgiSwapChain3 = 0
  · simp only [hsc, ne_eq, not_true_eq_false, if_false, run_pure_eq, Run.pure, Except.ok.injEq,
      Prod.mk.injEq] at h
    obtain ⟨rfl, -⟩ := h
    exact keeps_refl _
  · simp only [ne_eq, hsc, not_false_eq_true, if_true, run_bind_eq, run_pure_eq,
      run_bind_result_ok] at h
    obtain ⟨_, u1, _, s2, u2, hloop, _, u3, _, hp⟩ := h
    simp only [Run.pure, Except.ok.injEq, Prod.mk.injEq] at hp
    obtain ⟨rfl, -⟩ := hp
    have := forEach_keeps releaseBackBuffer releaseBackBuffer_keeps _ _ _ _ _ hloop
    exact ⟨this.1, this.2.1, this.2.2⟩

theorem Resize_keeps (cfg : Config) (drv : Driver) (self : ImplD3D12) (width height t : Nat)
    (self1 : ImplD3D12) (t1 : Nat)
    (h : (Resize cfg drv self width height t).result = .ok (self1, t1)) : self.keeps self1 := by
  simp only [Resize, run_bind_eq, run_pure_eq, run_bind_result_ok] at h
  obtain ⟨a, u1, hw, b, u2, hrel, _, u3, _, _, u4, _, _, u5, _, _, u6, _, _, u7, _, _, u8, _,
    _, u9, _, hloop⟩ := h
  have k1 := WaitForLastSubmittedFrame_keeps cfg drv self t a u1 hw
  have k2 := releaseSwapChain_keeps cfg _ u1 b u2 hrel
  have k3 := forEach_keeps (acquireBackBuffer drv) (acquireBackBuffer_keeps drv) _ _ _ _ _ hloop
  exact ⟨k3.1.trans (k2.1.trans k1.1), k3.2.1.trans (k2.2.1.trans k1.2.1),
    k3.2.2.trans (k2.2.2.trans k1.2.2)⟩

theorem releaseAll_keeps (cfg : Config) (s : ImplD3D12) (t : Nat) (s1 : ImplD3D12) (t1 : Nat)
    (h : (releaseAll cfg s t).result = .ok (s1, t1)) : s.keeps s1 := by
  simp only [releaseAll, run_bind_eq, run_pure_eq, run_bind_result_ok] at h
  obtain ⟨_, u0, _, a, u1, hl1, _, u2, _, _, u3, _, _, u4, _, _, u5, _, _, u6, _, _, u7, _,
    _, u8, _, b, u9, hl2, _, u10, _, _, u11, _, _, u12, _, _, u13, _, _, u14, _, _, u15, _,
    hp⟩ := h
  simp only [Run.pure, Except.ok.injEq, Prod.mk.injEq] at hp
  obtain ⟨rfl, -⟩ := hp
  have k1 := forEach_keeps releaseAllocator releaseAllocator_keeps _ _ _ _ _ hl1
  have k2 := forEach_keeps (releaseImage cfg) (releaseImage_keeps cfg) _ _ _ _ _ hl2
  exact ⟨k2.1.trans k1.1, k2.2.1.trans k1.2.1, k2.2.2.trans k1.2.2⟩

theorem Finalize_keeps (cfg : Config) (drv : Driver) (self : ImplD3D12) (t : Nat)
    (self1 : ImplD3D12) (t1 : Nat)
    (h : (Finalize cfg drv self t).result = .ok (self1, t1)) : self.keeps self1 := by
  rw [Finalize_eq, run_bind_result_ok] at h
  obtain ⟨a, u, h1, h2⟩ := h
  exact keeps_trans (WaitForLastSubmittedFrame_keeps cfg drv self t a u h1)
    (releaseAll_keeps cfg a u self1 t1 h2)

/-! ### C3 -/

theorem UINT_RANGE_eq : UINT_RANGE = 4294967296 := by
  norm_num [UINT_RANGE]

theorem UINT64_RANGE_eq : UINT64_RANGE = 18446744073709551616 := by
  norm_num [UINT64_RANGE]

/-- The frame index and the returned indices after consecutive calls of
`WaitForResources`, in `UINT` arithmetic. -/
theorem WaitForResourcesTimes_result (cfg : Config) :
    ∀ (drvs : List Driver) (self : ImplD3D12) (t : Nat) (rs : List Nat) (self1 : ImplD3D12)
      (t1 : Nat), (WaitForResourcesTimes cfg drvs self t).result = .ok ((rs, self1), t1) →
      self1.FrameIndex = (if drvs.length = 0 then self.FrameIndex
        else (self.FrameIndex + drvs.length) % UINT_RANGE) ∧
      rs.length = drvs.length ∧
      ∀ k, k < drvs.length → rs[k]? = some
        (((self.FrameIndex + k + 1) % UINT_RANGE) % cfg.D3D12_NUM_FRAMES_IN_FLIGHT) := by
  intro drvs
  induction drvs with
  | nil =>
    intro self t rs self1 t1 h
    simp only [WaitForResourcesTimes, Run.pure, Except.ok.injEq, Prod.mk.injEq] at h
    obtain ⟨⟨rfl, rfl⟩, -⟩ := h
    simp
  | cons drv rest ih =>
    intro self t rs self1 t1 h
    simp only [WaitForResourcesTimes, run_bind_result_ok] at h
    obtain ⟨r, u1, h1, rs1, u2, h2, hp⟩ := h
    simp only [Run.pure, Except.ok.injEq, Prod.mk.injEq] at hp
    obtain ⟨⟨rfl, rfl⟩, -⟩ := hp
    obtain ⟨r1, s1⟩ := r
    obtain ⟨rs2, s2⟩ := rs1
    obtain ⟨-, hr, fc, -, hs1⟩ := WaitForResources_result cfg drv self t r1 s1 u1 h1
    obtain ⟨hF, hlen, hidx⟩ := ih s1 u1 rs2 s2 u2 h2
    have hs1F : s1.FrameIndex = (self.FrameIndex + 1) % UINT_RANGE := by
      rw [hs1]
      rfl
    refine ⟨?_, by simp [hlen], ?_⟩
    · have hne : ¬ (drv :: rest).length = 0 := by simp
      rw [if_neg hne]
      show s2.FrameIndex = _
      rw [hF, hs1F, List.length_cons, UINT_RANGE_eq]
      by_cases hrest : rest.length = 0
      · rw [if_pos hrest, hrest]
      · rw [if_neg hrest]
        omega
    · intro k hk
      cases k with
      | zero => simp [hr]
      | succ k =>
        simp only [List.length_cons] at hk
        simp only [List.getElem?_cons_succ]
        rw [hidx k (by omega), hs1F]
        congr 2
        rw [UINT_RANGE_eq]
        omega

/-- C3 (amended). Let `N = D3D12_NUM_FRAMES_IN_FLIGHT`. Every call of
`WaitForResources` that returns has set `FrameIndex` to `FrameIndex + 1` (a
`UINT` sum) and returns that value modulo `N`; so of `N` consecutive calls the
one with number `k` (counted from 0) returns `(FrameIndex + k + 1) % 2 ^ 32 % N`.
If the 32 bit counter does not wrap around during the `N` calls
(`FrameIndex + N < 2 ^ 32`), or if `N` divides `2 ^ 32`, then after the `N`
calls `FrameIndex % N` is what it was before them, and call `k` has returned
`(FrameIndex + k + 1) % N`. -/
theorem WaitForResources_period (cfg : Config) (drvs : List Driver) (self : ImplD3D12)
    (t : Nat) (rs : List Nat) (self1 : ImplD3D12) (t1 : Nat)
    (hlen : drvs.length = cfg.D3D12_NUM_FRAMES_IN_FLIGHT)
    (h : (WaitForResourcesTimes cfg drvs self t).result = .ok ((rs, self1), t1)) :
    (∀ (drv : Driver) (s : ImplD3D12) (u r : Nat) (s1 : ImplD3D12) (u1 : Nat),
      (WaitForResources cfg drv s u).result = .ok ((r, s1), u1) →
      s1.FrameIndex = (s.FrameIndex + 1) % UINT_RANGE ∧
      r = ((s.FrameIndex + 1) % UINT_RANGE) % cfg.D3D12_NUM_FRAMES_IN_FLIGHT) ∧
    rs.length = cfg.D3D12_NUM_FRAMES_IN_FLIGHT ∧
    (∀ k, k < cfg.D3D12_NUM_FRAMES_IN_FLIGHT → rs[k]? = some
      (((self.FrameIndex + k + 1) % UINT_RANGE) % cfg.D3D12_NUM_FRAMES_IN_FLIGHT)) ∧
    (self.FrameIndex + cfg.D3D12_NUM_FRAMES_IN_FLIGHT < UINT_RANGE ∨
        cfg.D3D12_NUM_FRAMES_IN_FLIGHT ∣ UINT_RANGE →
      self1.FrameIndex % cfg.D3D12_NUM_FRAMES_IN_FLIGHT
        = self.FrameIndex % cfg.D3D12_NUM_FRAMES_IN_FLIGHT ∧
      ∀ k, k < cfg.D3D12_NUM_FRAMES_IN_FLIGHT →
        rs[k]? = some ((self.FrameIndex + k + 1) % cfg.D3D12_NUM_FRAMES_IN_FLIGHT)) := by
  obtain ⟨hF, hl, hidx⟩ := WaitForResourcesTimes_result cfg drvs self t rs self1 t1 h
  rw [hlen] at hF hl hidx
  refine ⟨?_, hl, hidx, ?_⟩
  · intro drv s u r s1 u1 hr
    obtain ⟨-, hr1, fc, -, rfl⟩ := WaitForResources_result cfg drv s u r s1 u1 hr
    exact ⟨rfl, hr1⟩
  · intro hwrap
    refine ⟨?_, ?_⟩
    · rw [hF]
      by_cases hN : cfg.D3D12_NUM_FRAMES_IN_FLIGHT = 0
      · rw [if_pos hN]
      · rw [if_neg hN]
        rcases hwrap with hw | hw
        · rw [Nat.mod_eq_of_lt hw, Nat.add_mod_right]
        · rw [Nat.mod_mod_of_dvd _ hw, Nat.add_mod_right]
    · intro k hk
      rw [hidx k hk]
      rcases hwrap with hw | hw
      · rw [Nat.mod_eq_of_lt (show self.FrameIndex + k + 1 < UINT_RANGE by omega)]
      · rw [Nat.mod_mod_of_dvd _ hw]

/-- C3 (amended) at a concrete object: three calls from frame index 0 return
1, 2, 0 and leave frame index 3. -/
theorem WaitForResources_period_witness :
    (sampleState 3 0 [0, 0, 0]).FrameIndex % sampleConfig.D3D12_NUM_FRAMES_IN_FLIGHT
      = (sampleState 0 0 [0, 0, 0]).FrameIndex % sampleConfig.D3D12_NUM_FRAMES_IN_FLIGHT ∧
    ∀ k, k < sampleConfig.D3D12_NUM_FRAMES_IN_FLIGHT →
      [1, 2, 0][k]? = some (((sampleState 0 0 [0, 0, 0]).FrameIndex + k + 1)
        % sampleConfig.D3D12_NUM_FRAMES_IN_FLIGHT) :=
  (WaitForResources_period sampleConfig [sampleDriver, sampleDriver, sampleDriver]
    (sampleState 0 0 [0, 0, 0]) 0 [1, 2, 0] (sampleState 3 0 [0, 0, 0]) 0 rfl rfl).2.2.2
    (Or.inl (by decide))

/-- C3 as stated fails where the 32 bit counter wraps around. With `N = 3` and
`FrameIndex = 2 ^ 32 - 2`, three calls of `WaitForResources` return the indices
0, 0, 1 and leave `FrameIndex = 1`: the frame index modulo 3 was 2 before the
three calls and is 1 after them. -/
theorem WaitForResources_wraps :
    (WaitForResourcesTimes sampleConfig [sampleDriver, sampleDriver, sampleDriver]
        (sampleState 4294967294 0 [0, 0, 0]) 0).result
      = .ok (([0, 0, 1], sampleState 1 0 [0, 0, 0]), 0) ∧
    (sampleState 4294967294 0 [0, 0, 0]).FrameIndex % 3 = 2 ∧
    (sampleState 1 0 [0, 0, 0]).FrameIndex % 3 = 1 :=
  ⟨by decide, by decide, by decide⟩

/-! ### C4 -/

theorem storeFenceValue_slot (a : ImplD3D12) (slot : Nat) (fc : FrameContext) (v : Nat)
    (h : a.FrameCtxt[slot]? = some fc) :
    (a.storeFenceValue slot fc v).FrameCtxt[slot]? = some { fc with FenceValue := v } := by
  have hlt : slot < a.FrameCtxt.length := by
    by_contra hge
    rw [List.getElem?_eq_none (by omega)] at h
    cases h
  simp [ImplD3D12.storeFenceValue, List.getElem?_set, hlt]

theorem storeFenceValue_other (a : ImplD3D12) (slot j : Nat) (fc : FrameContext) (v : Nat)
    (h : j ≠ slot) :
    (a.storeFenceValue slot fc v).FrameCtxt[j]? = a.FrameCtxt[j]? := by
  simp [ImplD3D12.storeFenceValue, List.getElem?_set, Ne.symm h]

/-- C4. After construction there are `N` frame slots and every one has
`FenceValue` 0. After a call of `WaitForLastSubmittedFrame` that returns, the
slot `FrameIndex % N` has `FenceValue` 0; after a call of `WaitForResources`
that returns, the slot it waited for and returns, which is `FrameIndex + 1`
(computed as a `UINT`) modulo `N`, has `FenceValue` 0. Both hold whatever the
marker was before, so in particular when it was nonzero. -/
theorem FenceValue_zero_after_wait (cfg : Config) (drv : Driver) (self : ImplD3D12) (t : Nat) :
    ((ImplD3D12.new cfg).FrameCtxt.length = cfg.D3D12_NUM_FRAMES_IN_FLIGHT ∧
      ∀ fc ∈ (ImplD3D12.new cfg).FrameCtxt, fc.FenceValue = 0) ∧
    (∀ self1 t1, (WaitForLastSubmittedFrame cfg drv self t).result = .ok (self1, t1) →
      ∃ fc, self1.FrameCtxt[self.FrameIndex % cfg.D3D12_NUM_FRAMES_IN_FLIGHT]? = some fc ∧
        fc.FenceValue = 0) ∧
    (∀ r self1 t1, (WaitForResources cfg drv self t).result = .ok ((r, self1), t1) →
      r = ((self.FrameIndex + 1) % UINT_RANGE) % cfg.D3D12_NUM_FRAMES_IN_FLIGHT ∧
      (self.FrameIndex + 1 < UINT_RANGE →
        r = (self.FrameIndex + 1) % cfg.D3D12_NUM_FRAMES_IN_FLIGHT) ∧
      ∃ fc, self1.FrameCtxt[r]? = some fc ∧ fc.FenceValue = 0) := by
  refine ⟨⟨by simp [ImplD3D12.new], ?_⟩, ?_, ?_⟩
  · intro fc hfc
    simp only [ImplD3D12.new, List.mem_replicate] at hfc
    rw [hfc.2]
  · intro self1 t1 h
    obtain ⟨-, fc, hfc, rfl⟩ := WaitForLastSubmittedFrame_result cfg drv self t self1 t1 h
    exact ⟨_, storeFenceValue_slot _ _ _ _ hfc, rfl⟩
  · intro r self1 t1 h
    obtain ⟨-, hr, fc, hfc, rfl⟩ := WaitForResources_result cfg drv self t r self1 t1 h
    refine ⟨hr, ?_, _, storeFenceValue_slot _ _ _ _ hfc, rfl⟩
    intro hlt
    rw [hr, Nat.mod_eq_of_lt hlt]

/-- C4 at concrete objects: a wait on slot 1, which holds marker 2, by either
function. -/
theorem FenceValue_zero_after_wait_witness :
    (∃ fc, (sampleState 1 2 [1, 0, 0]).FrameCtxt[(sampleState 1 2 [1, 2, 0]).FrameIndex
        % sampleConfig.D3D12_NUM_FRAMES_IN_FLIGHT]? = some fc ∧ fc.FenceValue = 0) ∧
    (1 = (((sampleState 0 2 [1, 2, 0]).FrameIndex + 1) % UINT_RANGE)
        % sampleConfig.D3D12_NUM_FRAMES_IN_FLIGHT ∧
      ((sampleState 0 2 [1, 2, 0]).FrameIndex + 1 < UINT_RANGE →
        1 = ((sampleState 0 2 [1, 2, 0]).FrameIndex + 1)
          % sampleConfig.D3D12_NUM_FRAMES_IN_FLIGHT) ∧
      ∃ fc, (sampleState 1 2 [1, 0, 0]).FrameCtxt[1]? = some fc ∧ fc.FenceValue = 0) :=
  ⟨(FenceValue_zero_after_wait sampleConfig sampleDriver (sampleState 1 2 [1, 2, 0]) 0).2.1
      (sampleState 1 2 [1, 0, 0]) 2 (by decide),
    (FenceValue_zero_after_wait sampleConfig sampleDriver (sampleState 0 2 [1, 2, 0]) 0).2.2
      1 (sampleState 1 2 [1, 0, 0]) 2 (by decide)⟩

/-! ### C6 -/

/-- C6. A call `Render(r)` that returns has signalled the fence exactly once,
with the value `LastSignalledFenceValue + 1` (a `UINT64` sum); afterwards
`LastSignalledFenceValue` and `FrameCtxt[r].FenceValue` both hold that value,
every other frame slot and `FrameIndex` are as before, and `r` is the index of
a frame slot. -/
theorem Render_records_marker (drv : Driver) (self : ImplD3D12) (r t : Nat)
    (self1 : ImplD3D12) (t1 : Nat) (h : (Render drv self r t).result = .ok (self1, t1)) :
    r < self.FrameCtxt.length ∧
    Call.Signal self.Fence ((self.LastSignalledFenceValue + 1) % UINT64_RANGE)
      ∈ (Render drv self r t).calls ∧
    (∀ f v, Call.Signal f v ∈ (Render drv self r t).calls →
      f = self.Fence ∧ v = (self.LastSignalledFenceValue + 1) % UINT64_RANGE) ∧
    (self.LastSignalledFenceValue + 1 < UINT64_RANGE →
      (self.LastSignalledFenceValue + 1) % UINT64_RANGE = self.LastSignalledFenceValue + 1) ∧
    self1.LastSignalledFenceValue = (self.LastSignalledFenceValue + 1) % UINT64_RANGE ∧
    (∃ fc, self1.FrameCtxt[r]? = some fc ∧
      fc.FenceValue = (self.LastSignalledFenceValue + 1) % UINT64_RANGE) ∧
    (∀ j, j ≠ r → self1.FrameCtxt[j]? = self.FrameCtxt[j]?) ∧
    self1.FrameIndex = self.FrameIndex := by
  obtain ⟨fc, bb, hfc, hsc, hal, h1, h2, hbb, h3, h4, h5⟩ :=
    Render_returns drv self r t self1 t1 h
  have heq := Render_ok drv self r t fc bb hfc hsc hal h1 h2 hbb h3 h4 h5
  rw [heq] at h ⊢
  simp only [Except.ok.injEq, Prod.mk.injEq] at h
  obtain ⟨rfl, -⟩ := h
  have hlt : r < self.FrameCtxt.length := by
    by_contra hge
    rw [List.getElem?_eq_none (by omega)] at hfc
    cases hfc
  refine ⟨hlt, by simp, ?_, fun hlt2 => Nat.mod_eq_of_lt hlt2, rfl, ?_, ?_, rfl⟩
  · intro f v hmem
    simp only [List.mem_cons, reduceCtorEq, Call.Signal.injEq, false_or, List.mem_singleton,
      List.not_mem_nil, or_false] at hmem
    exact hmem
  · exact ⟨_, storeFenceValue_slot _ _ _ _ hfc, rfl⟩
  · intro j hj
    exact storeFenceValue_other _ _ _ _ _ hj

/-- C6 at a concrete object: `Render(1)` when the last signalled value is 1. -/
theorem Render_records_marker_witness :
    1 < (sampleState 1 1 [1, 0, 0]).FrameCtxt.length ∧
    Call.Signal (sampleState 1 1 [1, 0, 0]).Fence
        (((sampleState 1 1 [1, 0, 0]).LastSignalledFenceValue + 1) % UINT64_RANGE)
      ∈ (Render sampleDriver (sampleState 1 1 [1, 0, 0]) 1 0).calls ∧
    (∀ f v, Call.Signal f v ∈ (Render sampleDriver (sampleState 1 1 [1, 0, 0]) 1 0).calls →
      f = (sampleState 1 1 [1, 0, 0]).Fence ∧
      v = ((sampleState 1 1 [1, 0, 0]).LastSignalledFenceValue + 1) % UINT64_RANGE) ∧
    ((sampleState 1 1 [1, 0, 0]).LastSignalledFenceValue + 1 < UINT64_RANGE →
      ((sampleState 1 1 [1, 0, 0]).LastSignalledFenceValue + 1) % UINT64_RANGE
        = (sampleState 1 1 [1, 0, 0]).LastSignalledFenceValue + 1) ∧
    (sampleState 1 2 [1, 2, 0]).LastSignalledFenceValue
      = ((sampleState 1 1 [1, 0, 0]).LastSignalledFenceValue + 1) % UINT64_RANGE ∧
    (∃ fc, (sampleState 1 2 [1, 2, 0]).FrameCtxt[1]? = some fc ∧
      fc.FenceValue = ((sampleState 1 1 [1, 0, 0]).LastSignalledFenceValue + 1) % UINT64_RANGE) ∧
    (∀ j, j ≠ 1 →
      (sampleState 1 2 [1, 2, 0]).FrameCtxt[j]? = (sampleState 1 1 [1, 0, 0]).FrameCtxt[j]?) ∧
    (sampleState 1 2 [1, 2, 0]).FrameIndex = (sampleState 1 1 [1, 0, 0]).FrameIndex :=
  Render_records_marker sampleDriver (sampleState 1 1 [1, 0, 0]) 1 0 (sampleState 1 2 [1, 2, 0]) 0
    (by decide)

/-! ### C7 -/

/-- C7 (amended). `Resize`, `WaitForLastSubmittedFrame`, `WaitForResources` and
`Finalize` leave `LastSignalledFenceValue` as it is. A `Render` that returns
adds one to it in `UINT64` arithmetic: as long as the counter is below
`2 ^ 64 - 1` its value after `Render` is its value before plus one, so after
each of the five operations the value is at least the value before. -/
theorem LastSignalledFenceValue_never_decreases (cfg : Config) (drv : Driver)
    (self : ImplD3D12) (t : Nat) :
    (∀ width height self1 t1,
      (Resize cfg drv self width height t).result = .ok (self1, t1) →
      self1.LastSignalledFenceValue = self.LastSignalledFenceValue) ∧
    (∀ self1 t1, (WaitForLastSubmittedFrame cfg drv self t).result = .ok (self1, t1) →
      self1.LastSignalledFenceValue = self.LastSignalledFenceValue) ∧
    (∀ r self1 t1, (WaitForResources cfg drv self t).result = .ok ((r, self1), t1) →
      self1.LastSignalledFenceValue = self.LastSignalledFenceValue) ∧
    (∀ self1 t1, (Finalize cfg drv self t).result = .ok (self1, t1) →
      self1.LastSignalledFenceValue = self.LastSignalledFenceValue) ∧
    (∀ r self1 t1, (Render drv self r t).result = .ok (self1, t1) →
      self.LastSignalledFenceValue + 1 < UINT64_RANGE →
      self1.LastSignalledFenceValue = self.LastSignalledFenceValue + 1 ∧
      self.LastSignalledFenceValue ≤ self1.LastSignalledFenceValue) := by
  refine ⟨?_, ?_, ?_, ?_, ?_⟩
  · intro width height self1 t1 h
    exact (Resize_keeps cfg drv self width height t self1 t1 h).1
  · intro self1 t1 h
    exact (WaitForLastSubmittedFrame_keeps cfg drv self t self1 t1 h).1
  · intro r self1 t1 h
    obtain ⟨-, -, fc, -, rfl⟩ := WaitForResources_result cfg drv self t r self1 t1 h
    rfl
  · intro self1 t1 h
    exact (Finalize_keeps cfg drv self t self1 t1 h).1
  · intro r self1 t1 h hlt
    obtain ⟨fc, -, rfl⟩ := Render_result drv self r t self1 t1 h
    show (self.LastSignalledFenceValue + 1) % UINT64_RANGE = self.LastSignalledFenceValue + 1 ∧
      self.LastSignalledFenceValue ≤ (self.LastSignalledFenceValue + 1) % UINT64_RANGE
    rw [Nat.mod_eq_of_lt hlt]
    exact ⟨rfl, Nat.le_succ _⟩

/-- C7 (amended) at a concrete object: `Render(1)` takes the counter from 1
to 2. -/
theorem LastSignalledFenceValue_never_decreases_witness :
    (sampleState 1 2 [1, 2, 0]).LastSignalledFenceValue
      = (sampleState 1 1 [1, 0, 0]).LastSignalledFenceValue + 1 ∧
    (sampleState 1 1 [1, 0, 0]).LastSignalledFenceValue
      ≤ (sampleState 1 2 [1, 2, 0]).LastSignalledFenceValue :=
  (LastSignalledFenceValue_never_decreases sampleConfig sampleDriver
    (sampleState 1 1 [1, 0, 0]) 0).2.2.2.2 1 (sampleState 1 2 [1, 2, 0]) 0 (by decide)
    (by decide)

/-- C7 as stated fails at the end of the `UINT64` range: with
`LastSignalledFenceValue = 2 ^ 64 - 1`, `Render(0)` signals the fence with 0
and leaves `LastSignalledFenceValue = 0`. -/
theorem LastSignalledFenceValue_wraps :
    (sampleState 0 18446744073709551615 [0, 0, 0]).LastSignalledFenceValue
      = 18446744073709551615 ∧
    (Render sampleDriver (sampleState 0 18446744073709551615 [0, 0, 0]) 0 0).result
      = .ok (sampleState 0 0 [0, 0, 0], 0) ∧
    (sampleState 0 0 [0, 0, 0]).LastSignalledFenceValue
      < (sampleState 0 18446744073709551615 [0, 0, 0]).LastSignalledFenceValue :=
  ⟨by decide, by decide, by decide⟩

/-! ### C9 -/

/-- C9. Take an initialised object (the next frame slot exists and holds `fc`,
the fence pointer is set, the swap chain waitable object and the fence event
are different handles). If the marker of the next slot is nonzero and arming
the fence event succeeds, `WaitForResources` makes exactly two calls: it arms
the fence event for the marker, and it calls `WaitForMultipleObjects` once,
on the two handles swap chain waitable object and fence event, waiting for
all; when that call returns, at that instant the waitable object is signalled
and the fence has completed the marker. If the marker is zero it makes one
call, `WaitForMultipleObjects` with a count of one, which looks at the swap
chain waitable object alone; when it returns the waitable object is
signalled. -/
theorem WaitForResources_waits_for_both (cfg : Config) (drv : Driver) (self : ImplD3D12)
    (t : Nat) (fc : FrameContext) (hN : cfg.D3D12_NUM_FRAMES_IN_FLIGHT ≠ 0)
    (hfc : self.FrameCtxt[((self.FrameIndex + 1) % UINT_RANGE) % cfg.D3D12_NUM_FRAMES_IN_FLIGHT]?
      = some fc)
    (hF : self.Fence ≠ 0) (hdist : self.SwapChainWaitableObject ≠ self.FenceEvent) :
    (fc.FenceValue ≠ 0 →
      drv.succeeds (.SetEventOnCompletion fc.FenceValue self.FenceEvent) = true →
      (WaitForResources cfg drv self t).calls =
        [.SetEventOnCompletion fc.FenceValue self.FenceEvent,
          .WaitForMultipleObjects 2 [self.SwapChainWaitableObject, self.FenceEvent] true] ∧
      ∀ r self1 t1, (WaitForResources cfg drv self t).result = .ok ((r, self1), t1) →
        t ≤ t1 ∧ drv.swapChainReady t1 = true ∧ fc.FenceValue ≤ drv.fence t1) ∧
    (fc.FenceValue = 0 →
      (WaitForResources cfg drv self t).calls =
        [.WaitForMultipleObjects 1 [self.SwapChainWaitableObject, 0] true] ∧
      ([self.SwapChainWaitableObject, 0].take 1 = [self.SwapChainWaitableObject]) ∧
      ∀ r self1 t1, (WaitForResources cfg drv self t).result = .ok ((r, self1), t1) →
        t ≤ t1 ∧ drv.swapChainReady t1 = true) := by
  constructor
  · intro h0 hs
    rw [WaitForResources_marked cfg drv self t fc hN hfc h0 hF hs]
    refine ⟨rfl, ?_⟩
    intro r self1 t1 h
    simp only at h
    split at h
    · cases hfi : firstInstant (fun u => ([self.SwapChainWaitableObject, self.FenceEvent].take 2).all
          (fun h => objectSignalled drv self.SwapChainWaitableObject self.FenceEvent
            (some fc.FenceValue) h u)) drv.patience t with
      | none =>
        rw [hfi] at h
        cases h
      | some u =>
        rw [hfi] at h
        simp only [Except.ok.injEq, Prod.mk.injEq] at h
        obtain ⟨-, rfl⟩ := h
        obtain ⟨h1, h2, -⟩ := firstInstant_some _ _ _ _ hfi
        simp [objectSignalled, hdist] at h2
        exact ⟨h1, h2.1, h2.2⟩
    · cases h
  · intro h0
    rw [WaitForResources_zero cfg drv self t fc hN hfc h0]
    refine ⟨rfl, rfl, ?_⟩
    intro r self1 t1 h
    simp only at h
    split at h
    · cases hfi : firstInstant (fun u => ([self.SwapChainWaitableObject, 0].take 1).all
          (fun h => objectSignalled drv self.SwapChainWaitableObject self.FenceEvent none h u))
          drv.patience t with
      | none =>
        rw [hfi] at h
        cases h
      | some u =>
        rw [hfi] at h
        simp only [Except.ok.injEq, Prod.mk.injEq] at h
        obtain ⟨-, rfl⟩ := h
        obtain ⟨h1, h2, -⟩ := firstInstant_some _ _ _ _ hfi
        simp [objectSignalled, hdist] at h2
        exact ⟨h1, h2⟩
    · cases h

/-- C9 at a concrete object: the next slot is slot 1 and holds marker 2. -/
theorem WaitForResources_waits_for_both_witness :
    (WaitForResources sampleConfig sampleDriver (sampleState 0 2 [1, 2, 0]) 0).calls =
        [.SetEventOnCompletion 2 6, .WaitForMultipleObjects 2 [8, 6] true] ∧
      ∀ r self1 t1, (WaitForResources sampleConfig sampleDriver
          (sampleState 0 2 [1, 2, 0]) 0).result = .ok ((r, self1), t1) →
        0 ≤ t1 ∧ sampleDriver.swapChainReady t1 = true ∧ 2 ≤ sampleDriver.fence t1 :=
  (WaitForResources_waits_for_both sampleConfig sampleDriver (sampleState 0 2 [1, 2, 0]) 0
    ⟨201, 2⟩ (by decide) (by decide) (by decide) (by decide)).1 (by decide) rfl

/-! ### C10 -/

/-- C10. Let `Render` return and let `target` be the back buffer the swap
chain names as current. The calls of `Render` contain, in this order: the
transition of `target` from `PRESENT` to `RENDER_TARGET`, the clear of its
view, the draw, the recording of the UI overlay, the transition of `target`
from `RENDER_TARGET` to `PRESENT`, the close of the command list, its
execution, the present, and the signal of the fence. These two transitions
are the only ones and every clear or draw lies between them; the last five
calls named are the last five calls of `Render`, with nothing in between.
The nine calls named are all the transitions, clears, draws, closes,
executions, presents and signals that `Render` makes, so no close, execution,
present or signal comes before the second transition. The whole sequence of
calls is given: `fc` is the frame slot `Render` was called for. -/
theorem Render_transitions_in_order (drv : Driver) (self : ImplD3D12) (r t : Nat)
    (self1 : ImplD3D12) (t1 : Nat) (h : (Render drv self r t).result = .ok (self1, t1)) :
    ∃ target, self.BackBuffer[drv.currentBackBufferIndex]? = some target ∧
      List.Sublist
        [.ResourceBarrier target.Resource .PRESENT .RENDER_TARGET,
          .ClearRenderTargetView target.Handle,
          .DrawInstanced 3 1 0 0,
          .ImGuiRender,
          .ResourceBarrier target.Resource .RENDER_TARGET .PRESENT,
          .CmdListClose,
          .ExecuteCommandLists,
          .Present 1 0,
          .Signal self.Fence ((self.LastSignalledFenceValue + 1) % UINT64_RANGE)]
        (Render drv self r t).calls ∧
      (Render drv self r t).calls.filter (fun c => c.isResourceBarrier || c.isDrawing) =
        [.ResourceBarrier target.Resource .PRESENT .RENDER_TARGET,
          .ClearRenderTargetView target.Handle,
          .DrawInstanced 3 1 0 0,
          .ImGuiRender,
          .ResourceBarrier target.Resource .RENDER_TARGET .PRESENT] ∧
      List.IsSuffix
        [.ResourceBarrier target.Resource .RENDER_TARGET .PRESENT,
          .CmdListClose,
          .ExecuteCommandLists,
          .Present 1 0,
          .Signal self.Fence ((self.LastSignalledFenceValue + 1) % UINT64_RANGE)]
        (Render drv self r t).calls ∧
      (Render drv self r t).calls.filter
          (fun c => c.isResourceBarrier || c.isDrawing || c.isSubmission) =
        [.ResourceBarrier target.Resource .PRESENT .RENDER_TARGET,
          .ClearRenderTargetView target.Handle,
          .DrawInstanced 3 1 0 0,
          .ImGuiRender,
          .ResourceBarrier target.Resource .RENDER_TARGET .PRESENT,
          .CmdListClose,
          .ExecuteCommandLists,
          .Present 1 0,
          .Signal self.Fence ((self.LastSignalledFenceValue + 1) % UINT64_RANGE)] ∧
      ∃ fc, self.FrameCtxt[r]? = some fc ∧
        (Render drv self r t).calls =
        [.GetCurrentBackBufferIndex,
          .CommandAllocatorReset fc.CommandAllocator,
          .CmdListReset fc.CommandAllocator,
          .ResourceBarrier target.Resource .PRESENT .RENDER_TARGET,
          .ClearRenderTargetView target.Handle,
          .SetGraphicsRootSignature,
          .SetDescriptorHeaps,
          .IASetPrimitiveTopology,
          .IASetVertexBuffers,
          .RSSetViewports self.Width self.Height,
          .OMSetRenderTargets target.Handle,
          .RSSetScissorRects self.Width self.Height,
          .GetDescriptorHandleIncrementSize,
          .SetGraphicsRootDescriptorTable 1,
          .DrawInstanced 3 1 0 0,
          .SetGraphicsRootDescriptorTable 0,
          .ImGuiRender,
          .ResourceBarrier target.Resource .RENDER_TARGET .PRESENT,
          .CmdListClose,
          .ExecuteCommandLists,
          .Present 1 0,
          .Signal self.Fence ((self.LastSignalledFenceValue + 1) % UINT64_RANGE)] := by
  obtain ⟨fc, bb, hfc, hsc, hal, h1, h2, hbb, h3, h4, h5⟩ :=
    Render_returns drv self r t self1 t1 h
  rw [Render_ok drv self r t fc bb hfc hsc hal h1 h2 hbb h3 h4 h5]
  refine ⟨bb, hbb, ?_, ?_, ?_, ?_, fc, hfc, rfl⟩
  · repeat (first
      | exact List.nil_sublist _
      | apply List.Sublist.cons₂
      | apply List.Sublist.cons)
  · simp [List.filter, Call.isResourceBarrier, Call.isDrawing]
  · exact ⟨[.GetCurrentBackBufferIndex,
        .CommandAllocatorReset fc.CommandAllocator,
        .CmdListReset fc.CommandAllocator,
        .ResourceBarrier bb.Resource .PRESENT .RENDER_TARGET,
        .ClearRenderTargetView bb.Handle,
        .SetGraphicsRootSignature,
        .SetDescriptorHeaps,
        .IASetPrimitiveTopology,
        .IASetVertexBuffers,
        .RSSetViewports self.Width self.Height,
        .OMSetRenderTargets bb.Handle,
        .RSSetScissorRects self.Width self.Height,
        .GetDescriptorHandleIncrementSize,
        .SetGraphicsRootDescriptorTable 1,
        .DrawInstanced 3 1 0 0,
        .SetGraphicsRootDescriptorTable 0,
        .ImGuiRender], rfl⟩
  · simp [List.filter, Call.isResourceBarrier, Call.isDrawing, Call.isSubmission]

/-- C10 at a concrete object: `Render(1)` with back buffer 0 as target. -/
theorem Render_transitions_in_order_witness :
    ∃ target, (sampleState 1 1 [1, 0, 0]).BackBuffer[sampleDriver.currentBackBufferIndex]?
        = some target ∧
      List.Sublist
        [.ResourceBarrier target.Resource .PRESENT .RENDER_TARGET,
          .ClearRenderTargetView target.Handle,
          .DrawInstanced 3 1 0 0,
          .ImGuiRender,
          .ResourceBarrier target.Resource .RENDER_TARGET .PRESENT,
          .CmdListClose,
          .ExecuteCommandLists,
          .Present 1 0,
          .Signal (sampleState 1 1 [1, 0, 0]).Fence
            (((sampleState 1 1 [1, 0, 0]).LastSignalledFenceValue + 1) % UINT64_RANGE)]
        (Render sampleDriver (sampleState 1 1 [1, 0, 0]) 1 0).calls ∧
      (Render sampleDriver (sampleState 1 1 [1, 0, 0]) 1 0).calls.filter
          (fun c => c.isResourceBarrier || c.isDrawing) =
        [.ResourceBarrier target.Resource .PRESENT .RENDER_TARGET,
          .ClearRenderTargetView target.Handle,
          .DrawInstanced 3 1 0 0,
          .ImGuiRender,
          .ResourceBarrier target.Resource .RENDER_TARGET .PRESENT] ∧
      List.IsSuffix
        [.ResourceBarrier target.Resource .RENDER_TARGET .PRESENT,
          .CmdListClose,
          .ExecuteCommandLists,
          .Present 1 0,
          .Signal (sampleState 1 1 [1, 0, 0]).Fence
            (((sampleState 1 1 [1, 0, 0]).LastSignalledFenceValue + 1) % UINT64_RANGE)]
        (Render sampleDriver (sampleState 1 1 [1, 0, 0]) 1 0).calls ∧
      (Render sampleDriver (sampleState 1 1 [1, 0, 0]) 1 0).calls.filter
          (fun c => c.isResourceBarrier || c.isDrawing || c.isSubmission) =
        [.ResourceBarrier target.Resource .PRESENT .RENDER_TARGET,
          .ClearRenderTargetView target.Handle,
          .DrawInstanced 3 1 0 0,
          .ImGuiRender,
          .ResourceBarrier target.Resource .RENDER_TARGET .PRESENT,
          .CmdListClose,
          .ExecuteCommandLists,
          .Present 1 0,
          .Signal (sampleState 1 1 [1, 0, 0]).Fence (((sampleState 1 1 [1, 0, 0]).LastSignalledFenceValue + 1) % UINT64_RANGE)] ∧
      ∃ fc, (sampleState 1 1 [1, 0, 0]).FrameCtxt[1]? = some fc ∧
        (Render sampleDriver (sampleState 1 1 [1, 0, 0]) 1 0).calls =
        [.GetCurrentBackBufferIndex,
          .CommandAllocatorReset fc.CommandAllocator,
          .CmdListReset fc.CommandAllocator,
          .ResourceBarrier target.Resource .PRESENT .RENDER_TARGET,
          .ClearRenderTargetView target.Handle,
          .SetGraphicsRootSignature,
          .SetDescriptorHeaps,
          .IASetPrimitiveTopology,
          .IASetVertexBuffers,
          .RSSetViewports (sampleState 1 1 [1, 0, 0]).Width (sampleState 1 1 [1, 0, 0]).Height,
          .OMSetRenderTargets target.Handle,
          .RSSetScissorRects (sampleState 1 1 [1, 0, 0]).Width (sampleState 1 1 [1, 0, 0]).Height,
          .GetDescriptorHandleIncrementSize,
          .SetGraphicsRootDescriptorTable 1,
          .DrawInstanced 3 1 0 0,
          .SetGraphicsRootDescriptorTable 0,
          .ImGuiRender,
          .ResourceBarrier target.Resource .RENDER_TARGET .PRESENT,
          .CmdListClose,
          .ExecuteCommandLists,
          .Present 1 0,
          .Signal (sampleState 1 1 [1, 0, 0]).Fence (((sampleState 1 1 [1, 0, 0]).LastSignalledFenceValue + 1) % UINT64_RANGE)] :=
  Render_transitions_in_order sampleDriver (sampleState 1 1 [1, 0, 0]) 1 0
    (sampleState 1 2 [1, 2, 0]) 0 (by decide)

/-! ### C8 -/

theorem assignHandle_result (size i : Nat) (st : Nat × ImplD3D12) (t : Nat)
    (st1 : Nat × ImplD3D12) (t1 : Nat)
    (h : (assignHandle size i st t).result = .ok (st1, t1)) :
    ∃ bb, st.2.BackBuffer[i]? = some bb ∧ st1.1 = (st.1 + size) % UINT64_RANGE ∧
      st1.2.BackBuffer = st.2.BackBuffer.set i { bb with Handle := st.1 } := by
  cases hbb : st.2.BackBuffer[i]? with
  | none =>
    simp [assignHandle, run_bind_eq, run_pure_eq, Run.bind, Run.index, Run.fault, hbb] at h
  | some bb =>
    simp [assignHandle, run_bind_eq, run_pure_eq, Run.bind, Run.pure, Run.index, hbb] at h
    obtain ⟨rfl, -⟩ := h
    exact ⟨bb, rfl, rfl, rfl⟩

/-- The handles after the loop of `Initialize` has run over the indices
`k, ..., k + m - 1`, started with the running handle `p`. -/
theorem assignHandle_loop (size : Nat) :
    ∀ (m k p : Nat) (s : ImplD3D12) (t : Nat) (st1 : Nat × ImplD3D12) (t1 : Nat),
      p < UINT64_RANGE →
      (Run.forEach (assignHandle size) (List.range' k m) (p, s) t).result = .ok (st1, t1) →
      st1.2.BackBuffer.length = s.BackBuffer.length ∧
      (∀ j, j < m → ∃ bb, st1.2.BackBuffer[k + j]? = some bb ∧
        bb.Handle = (p + j * size) % UINT64_RANGE) ∧
      (∀ i, i < k → st1.2.BackBuffer[i]? = s.BackBuffer[i]?) := by
  intro m
  induction m with
  | zero =>
    intro k p s t st1 t1 _ h
    simp only [List.range'_zero, Run.forEach, Run.pure, Except.ok.injEq, Prod.mk.injEq] at h
    obtain ⟨rfl, -⟩ := h
    exact ⟨rfl, fun j hj => absurd hj (by omega), fun i _ => rfl⟩
  | succ m ih =>
    intro k p s t st1 t1 hp h
    rw [List.range'_succ] at h
    simp only [Run.forEach] at h
    rw [run_bind_result_ok] at h
    obtain ⟨a, u, h1, h2⟩ := h
    obtain ⟨bb, hbb, ha1, ha2⟩ := assignHandle_result size k (p, s) t a u h1
    obtain ⟨p1, s1⟩ := a
    simp only at ha1 ha2 hbb
    have hp1 : p1 < UINT64_RANGE := by
      rw [ha1]
      exact Nat.mod_lt _ (by rw [UINT64_RANGE_eq]; omega)
    obtain ⟨hl, hin, hbelow⟩ := ih (k + 1) p1 s1 u st1 t1 hp1 h2
    have hk : k < s.BackBuffer.length := by
      by_contra hge
      rw [List.getElem?_eq_none (by omega)] at hbb
      cases hbb
    refine ⟨by rw [hl, ha2, List.length_set], ?_, ?_⟩
    · intro j hj
      cases j with
      | zero =>
        refine ⟨{ bb with Handle := p }, ?_, ?_⟩
        · rw [Nat.add_zero, hbelow k (by omega), ha2]
          simp [List.getElem?_set, hk]
        · simp only [Nat.zero_mul, Nat.add_zero]
          exact (Nat.mod_eq_of_lt hp).symm
      | succ j =>
        obtain ⟨b2, hb2, hb3⟩ := hin j (by omega)
        refine ⟨b2, ?_, ?_⟩
        · rw [← hb2]
          congr 1
          omega
        · rw [hb3, ha1, Nat.succ_mul, UINT64_RANGE_eq]
          omega
    · intro i hi
      rw [hbelow i (by omega), ha2]
      simp [List.getElem?_set, show k ≠ i by omega]

theorem createAllocator_BackBuffer (drv : Driver) (i : Nat) (s : ImplD3D12) (t : Nat)
    (s1 : ImplD3D12) (t1 : Nat) (h : (createAllocator drv i s t).result = .ok (s1, t1)) :
    s1.BackBuffer = s.BackBuffer := by
  cases hfc : s.FrameCtxt[i]? with
  | none =>
    simp [createAllocator, run_bind_eq, run_pure_eq, Run.bind, Run.index, Run.fault, hfc] at h
  | some fc =>
    cases hs : drv.succeeds (.CreateCommandAllocator i) with
    | false =>
      simp [createAllocator, run_bind_eq, run_pure_eq, Run.bind, Run.pure, Run.index, HR_CHECK,
        hfc, hs] at h
    | true =>
      simp [createAllocator, run_bind_eq, run_pure_eq, Run.bind, Run.pure, Run.index, HR_CHECK,
        hfc, hs] at h
      obtain ⟨rfl, -⟩ := h
      rfl

/-- The back buffers after an `Initialize` that returns `true`: as many as
before, with the handles the loop over the RTV heap gave them. -/
theorem Initialize_handles (cfg : Config) (drv : Driver) (self : ImplD3D12) (hwnd t : Nat)
    (self1 : ImplD3D12) (t1 : Nat) (hstart : drv.rtvHeapStart < UINT64_RANGE)
    (h : (Initialize cfg drv self hwnd t).result = .ok ((true, self1), t1)) :
    self1.BackBuffer.length = self.BackBuffer.length ∧
    ∀ i, i < cfg.D3D12_NUM_BACK_BUFFERS → ∃ bb, self1.BackBuffer[i]? = some bb ∧
      bb.Handle = (drv.rtvHeapStart + i * drv.rtvDescriptorSize) % UINT64_RANGE := by
  unfold Initialize at h
  simp only [run_bind_eq, run_pure_eq, run_bind_result_ok] at h
  obtain ⟨_, u0, _, h⟩ := h
  by_cases hlib : drv.library = 0
  · simp [hlib, Run.pure] at h
  · simp only [hlib, if_false, run_bind_result_ok] at h
    obtain ⟨_, u1, _, _, u2, _, _, u3, _, _, u4, _, h⟩ := h
    by_cases had : drv.adapter = 0
    · simp [had, Run.pure] at h
    · simp only [had, if_false, run_bind_result_ok] at h
      obtain ⟨_, u5, _, _, u6, _, _, u7, _, _, u8, _, _, u9, _, st, u10, hloop, h⟩ := h
      obtain ⟨_, u11, _, _, u12, _, _, u13, _, _, u14, _, _, u15, _, _, u16, _, _, u17, _,
        _, u18, _, s3, u19, halloc, h⟩ := h
      obtain ⟨_, u20, _, _, u21, _, _, u22, _, _, u23, _, _, u24, _, _, u25, _, _, u26, _,
        _, u27, _, _, u28, _, _, u29, _, _, u30, _, _, u31, _, _, u32, _, hp⟩ := h
      simp only [Run.pure, Except.ok.injEq, Prod.mk.injEq, true_and] at hp
      obtain ⟨rfl, -⟩ := hp
      rw [List.range_eq_range'] at hloop
      obtain ⟨hl, hin, -⟩ := assignHandle_loop drv.rtvDescriptorSize _ 0 _ _ _ st u10 hstart hloop
      have hbb : s3.BackBuffer = st.2.BackBuffer :=
        forEach_preserves (fun x => x.BackBuffer = st.2.BackBuffer) (createAllocator drv)
          (fun i a u b v hP hb => (createAllocator_BackBuffer drv i a u b v hb).trans hP)
          _ _ _ _ _ rfl halloc
      refine ⟨?_, ?_⟩
      · show s3.BackBuffer.length = _
        rw [hbb, hl]
      · intro i hi
        obtain ⟨bb, hb1, hb2⟩ := hin i hi
        refine ⟨bb, ?_, hb2⟩
        show s3.BackBuffer[i]? = _
        rw [hbb, ← hb1, Nat.zero_add]

theorem acquireBackBuffer_result (drv : Driver) (i : Nat) (s : ImplD3D12) (t : Nat)
    (s1 : ImplD3D12) (t1 : Nat) (h : (acquireBackBuffer drv i s t).result = .ok (s1, t1)) :
    ∃ bb, s.BackBuffer[i]? = some bb ∧
      s1.BackBuffer = s.BackBuffer.set i { bb with Resource := drv.buffer i } := by
  cases hbb : s.BackBuffer[i]? with
  | none =>
    simp [acquireBackBuffer, run_bind_eq, run_pure_eq, Run.bind, Run.index, Run.fault, hbb] at h
  | some bb =>
    by_cases hr : s.DxgiSwapChain3 = 0
    · simp [acquireBackBuffer, run_bind_eq, run_pure_eq, Run.bind, Run.pure, Run.index, Run.deref,
        Run.fault, hbb, hr] at h
    · cases hs : drv.succeeds (.GetBuffer i) with
      | false =>
        simp [acquireBackBuffer, run_bind_eq, run_pure_eq, Run.bind, Run.pure, Run.index,
          Run.deref, Run.call, HR_CHECK, hbb, hr, hs] at h
      | true =>
        simp [acquireBackBuffer, run_bind_eq, run_pure_eq, Run.bind, Run.pure, Run.index,
          Run.deref, Run.call, HR_CHECK, hbb, hr, hs] at h
        obtain ⟨rfl, -⟩ := h
        exact ⟨bb, rfl, rfl⟩

/-- The resources after the last loop of `Resize` has run over the indices
`k, ..., k + m - 1`. -/
theorem acquireBackBuffer_loop (drv : Driver) :
    ∀ (m k : Nat) (s : ImplD3D12) (t : Nat) (s1 : ImplD3D12) (t1 : Nat),
      (Run.forEach (acquireBackBuffer drv) (List.range' k m) s t).result = .ok (s1, t1) →
      (∀ j, j < m → ∃ bb, s1.BackBuffer[k + j]? = some bb ∧ bb.Resource = drv.buffer (k + j)) ∧
      (∀ i, i < k → s1.BackBuffer[i]? = s.BackBuffer[i]?) := by
  intro m
  induction m with
  | zero =>
    intro k s t s1 t1 h
    simp only [List.range'_zero, Run.forEach, Run.pure, Except.ok.injEq, Prod.mk.injEq] at h
    obtain ⟨rfl, -⟩ := h
    exact ⟨fun j hj => absurd hj (by omega), fun i _ => rfl⟩
  | succ m ih =>
    intro k s t s1 t1 h
    rw [List.range'_succ] at h
    simp only [Run.forEach] at h
    rw [run_bind_result_ok] at h
    obtain ⟨a, u, h1, h2⟩ := h
    obtain ⟨bb, hbb, ha⟩ := acquireBackBuffer_result drv k s t a u h1
    obtain ⟨hin, hbelow⟩ := ih (k + 1) a u s1 t1 h2
    have hk : k < s.BackBuffer.length := by
      by_contra hge
      rw [List.getElem?_eq_none (by omega)] at hbb
      cases hbb
    refine ⟨?_, ?_⟩
    · intro j hj
      cases j with
      | zero =>
        refine ⟨{ bb with Resource := drv.buffer k }, ?_, rfl⟩
        rw [Nat.add_zero, hbelow k (by omega), ha]
        simp [List.getElem?_set, hk]
      | succ j =>
        obtain ⟨b2, hb2, hb3⟩ := hin j (by omega)
        refine ⟨b2, ?_, ?_⟩
        · rw [← hb2]
          congr 1
          omega
        · rw [hb3]
          congr 1
          omega
    · intro i hi
      rw [hbelow i (by omega), ha]
      simp [List.getElem?_set, show k ≠ i by omega]

/-- After a `Resize` that returns, back buffer `i` is the buffer `i` of the new
swap chain. -/
theorem Resize_resources (cfg : Config) (drv : Driver) (self : ImplD3D12) (width height t : Nat)
    (self1 : ImplD3D12) (t1 : Nat)
    (h : (Resize cfg drv self width height t).result = .ok (self1, t1)) :
    ∀ i, i < cfg.D3D12_NUM_BACK_BUFFERS →
      ∃ bb, self1.BackBuffer[i]? = some bb ∧ bb.Resource = drv.buffer i := by
  simp only [Resize, run_bind_eq, run_pure_eq, run_bind_result_ok] at h
  obtain ⟨a, u1, hw, b, u2, hrel, _, u3, _, _, u4, _, _, u5, _, _, u6, _, _, u7, _, _, u8, _,
    _, u9, _, hloop⟩ := h
  rw [List.range_eq_range'] at hloop
  obtain ⟨hin, -⟩ := acquireBackBuffer_loop drv _ 0 _ _ _ _ hloop
  intro i hi
  obtain ⟨bb, hb1, hb2⟩ := hin i hi
  rw [Nat.zero_add] at hb1 hb2
  exact ⟨bb, hb1, hb2⟩

theorem ResizeTimes_keeps (cfg : Config) :
    ∀ (calls : List (Driver × Nat × Nat)) (self : ImplD3D12) (t : Nat) (self1 : ImplD3D12)
      (t1 : Nat), (ResizeTimes cfg calls self t).result = .ok (self1, t1) → self.keeps self1 := by
  intro calls
  induction calls with
  | nil =>
    intro self t self1 t1 h
    simp only [ResizeTimes, Run.pure, Except.ok.injEq, Prod.mk.injEq] at h
    obtain ⟨rfl, -⟩ := h
    exact keeps_refl _
  | cons c rest ih =>
    intro self t self1 t1 h
    obtain ⟨drv, width, height⟩ := c
    simp only [ResizeTimes] at h
    rw [run_bind_result_ok] at h
    obtain ⟨a, u, h1, h2⟩ := h
    exact keeps_trans (Resize_keeps cfg drv self width height t a u h1) (ih a u self1 t1 h2)

/-- C8. Let `Initialize` return `true` on a freshly constructed object, for a
driver whose RTV descriptors have a positive size and whose RTV heap of
`D3D12_NUM_BACK_BUFFERS` descriptors ends below `2 ^ 64`, and let any number
of calls of `Resize` follow and return. Then `BackBuffer` has exactly
`D3D12_NUM_BACK_BUFFERS` entries, entry `i` has the handle
`heap start + i * descriptor size`, different entries have different handles,
and the handles are the ones `Initialize` assigned. Moreover every `Resize`
that returns, from any object, leaves the handles as they were and leaves in
entry `i` the buffer `i` of the swap chain it created. -/
theorem BackBuffer_handles_stable (cfg : Config) (drv : Driver) (hwnd t : Nat)
    (self0 : ImplD3D12) (t0 : Nat) (calls : List (Driver × Nat × Nat)) (self1 : ImplD3D12)
    (t1 : Nat) (hsize : 0 < drv.rtvDescriptorSize)
    (hheap : drv.rtvHeapStart + cfg.D3D12_NUM_BACK_BUFFERS * drv.rtvDescriptorSize
      < UINT64_RANGE)
    (hinit : (Initialize cfg drv (ImplD3D12.new cfg) hwnd t).result = .ok ((true, self0), t0))
    (hres : (ResizeTimes cfg calls self0 t0).result = .ok (self1, t1)) :
    self1.BackBuffer.length = cfg.D3D12_NUM_BACK_BUFFERS ∧
    (∀ i, i < cfg.D3D12_NUM_BACK_BUFFERS → ∃ bb, self1.BackBuffer[i]? = some bb ∧
      bb.Handle = drv.rtvHeapStart + i * drv.rtvDescriptorSize) ∧
    (∀ (i j : Nat) (bi bj : BackBufferEntry), self1.BackBuffer[i]? = some bi → self1.BackBuffer[j]? = some bj → i ≠ j →
      bi.Handle ≠ bj.Handle) ∧
    self1.BackBuffer.map (fun b => b.Handle) = self0.BackBuffer.map (fun b => b.Handle) ∧
    (∀ (drv2 : Driver) (width height : Nat) (s : ImplD3D12) (u : Nat) (s2 : ImplD3D12) (u2 : Nat),
      (Resize cfg drv2 s width height u).result = .ok (s2, u2) →
      s2.BackBuffer.map (fun b => b.Handle) = s.BackBuffer.map (fun b => b.Handle) ∧
      ∀ i, i < cfg.D3D12_NUM_BACK_BUFFERS →
        ∃ bb, s2.BackBuffer[i]? = some bb ∧ bb.Resource = drv2.buffer i) := by
  have hstart : drv.rtvHeapStart < UINT64_RANGE := by omega
  obtain ⟨hl0, hh0⟩ := Initialize_handles cfg drv _ hwnd t self0 t0 hstart hinit
  have hk := ResizeTimes_keeps cfg calls self0 t0 self1 t1 hres
  have hmap := hk.2.2
  have hlen1 : self1.BackBuffer.length = self0.BackBuffer.length := by
    have := congrArg List.length hmap
    simpa using this
  have hlen : self1.BackBuffer.length = cfg.D3D12_NUM_BACK_BUFFERS := by
    rw [hlen1, hl0]
    simp [ImplD3D12.new]
  have hget : ∀ i : Nat, (self1.BackBuffer[i]?).map (fun (b : BackBufferEntry) => b.Handle)
      = (self0.BackBuffer[i]?).map (fun (b : BackBufferEntry) => b.Handle) := by
    intro i
    have := congrArg (fun l => l[i]?) hmap
    simpa [List.getElem?_map] using this
  have hhandle : ∀ i, i < cfg.D3D12_NUM_BACK_BUFFERS → ∃ bb, self1.BackBuffer[i]? = some bb ∧
      bb.Handle = drv.rtvHeapStart + i * drv.rtvDescriptorSize := by
    intro i hi
    obtain ⟨b0, hb0, hb0h⟩ := hh0 i hi
    have hg := hget i
    rw [hb0] at hg
    cases hb1 : self1.BackBuffer[i]? with
    | none =>
      rw [hb1] at hg
      cases hg
    | some b1 =>
      rw [hb1] at hg
      simp only [Option.map_some', Option.some.injEq] at hg
      refine ⟨b1, rfl, ?_⟩
      rw [hg, hb0h]
      apply Nat.mod_eq_of_lt
      have : i * drv.rtvDescriptorSize ≤ cfg.D3D12_NUM_BACK_BUFFERS * drv.rtvDescriptorSize :=
        Nat.mul_le_mul_right _ (by omega)
      omega
  refine ⟨hlen, hhandle, ?_, hmap, ?_⟩
  · intro i j bi bj hbi hbj hij heq
    have hi : i < cfg.D3D12_NUM_BACK_BUFFERS := by
      by_contra hge
      rw [List.getElem?_eq_none (by omega)] at hbi
      cases hbi
    have hj : j < cfg.D3D12_NUM_BACK_BUFFERS := by
      by_contra hge
      rw [List.getElem?_eq_none (by omega)] at hbj
      cases hbj
    obtain ⟨b1, hb1, hb1h⟩ := hhandle i hi
    obtain ⟨b2, hb2, hb2h⟩ := hhandle j hj
    rw [hbi] at hb1
    rw [hbj] at hb2
    cases hb1
    cases hb2
    rw [hb1h, hb2h] at heq
    have : i * drv.rtvDescriptorSize = j * drv.rtvDescriptorSize := by omega
    exact hij (Nat.eq_of_mul_eq_mul_right hsize this)
  · intro drv2 width height s u s2 u2 h
    exact ⟨(Resize_keeps cfg drv2 s width height u s2 u2 h).2.2,
      Resize_resources cfg drv2 s width height u s2 u2 h⟩

set_option maxRecDepth 10000 in
/-- C8 at a concrete run: `Initialize`, `Resize(800, 600)`, `Resize(1024, 768)`. -/
theorem BackBuffer_handles_stable_witness :
    ({ sampleState 0 0 [] with Width := 1024, Height := 768 } : ImplD3D12).BackBuffer.length
      = sampleConfig.D3D12_NUM_BACK_BUFFERS ∧
    (∀ i, i < sampleConfig.D3D12_NUM_BACK_BUFFERS →
      ∃ bb, ({ sampleState 0 0 [] with Width := 1024, Height := 768 } : ImplD3D12).BackBuffer[i]?
          = some bb ∧
        bb.Handle = sampleDriver.rtvHeapStart + i * sampleDriver.rtvDescriptorSize) ∧
    (∀ (i j : Nat) (bi bj : BackBufferEntry),
      ({ sampleState 0 0 [] with Width := 1024, Height := 768 } : ImplD3D12).BackBuffer[i]?
        = some bi →
      ({ sampleState 0 0 [] with Width := 1024, Height := 768 } : ImplD3D12).BackBuffer[j]?
        = some bj →
      i ≠ j → bi.Handle ≠ bj.Handle) ∧
    ({ sampleState 0 0 [] with Width := 1024, Height := 768 } : ImplD3D12).BackBuffer.map
        (fun b => b.Handle) = sampleInitialized.BackBuffer.map (fun b => b.Handle) ∧
    (∀ (drv2 : Driver) (width height : Nat) (s : ImplD3D12) (u : Nat) (s2 : ImplD3D12) (u2 : Nat),
      (Resize sampleConfig drv2 s width height u).result = .ok (s2, u2) →
      s2.BackBuffer.map (fun b => b.Handle) = s.BackBuffer.map (fun b => b.Handle) ∧
      ∀ i, i < sampleConfig.D3D12_NUM_BACK_BUFFERS →
        ∃ bb, s2.BackBuffer[i]? = some bb ∧ bb.Resource = drv2.buffer i) :=
  BackBuffer_handles_stable sampleConfig sampleDriver 1 0 sampleInitialized 0
    [(sampleDriver, 800, 600), (sampleDriver, 1024, 768)]
    { sampleState 0 0 [] with Width := 1024, Height := 768 } 0
    (by decide) (by decide) rfl rfl

/-! ### C13 -/

/-- A run of the loop that returns is the body run for each loop counter in
turn. -/
theorem fillLoop_fold (R c h T ps : Nat) :
    ∀ (fuel n : Nat) (data d : List Nat), fillLoop R c h T ps fuel n data = .ok d →
      (loopCounters T ps fuel n).foldlM (fun acc k => writePixel R c h k acc) data = .ok d := by
  intro fuel
  induction fuel with
  | zero =>
    intro n data d hd
    simp [fillLoop] at hd
  | succ fuel ih =>
    intro n data d hd
    unfold fillLoop at hd
    unfold loopCounters
    by_cases hlt : n < T
    · rw [if_pos hlt] at hd
      rw [if_pos hlt, List.foldlM_cons]
      cases hw : writePixel R c h n data with
      | error e =>
        rw [hw] at hd
        cases hd
      | ok d1 =>
        rw [hw] at hd
        exact ih _ d1 d hd
    · rw [if_neg hlt] at hd
      rw [if_neg hlt]
      exact hd

/-- For a four byte pixel and a texture size that is a multiple of four, the
loop counters are the multiples of four below the texture size. -/
theorem mem_loopCounters (T : Nat) (hT : T < UINT_RANGE) (hT4 : 4 ∣ T) :
    ∀ (fuel n : Nat), 4 ∣ n → n ≤ T → (T - n) / 4 < fuel →
      ∀ x, x ∈ loopCounters T 4 fuel n ↔ (n ≤ x ∧ x < T ∧ 4 ∣ x) := by
  intro fuel
  induction fuel with
  | zero => intro n _ _ hf; omega
  | succ fuel ih =>
    intro n hn4 hnT hf x
    unfold loopCounters
    by_cases hlt : n < T
    · have hn4T : n + 4 ≤ T := by
        obtain ⟨a, rfl⟩ := hn4
        obtain ⟨b, rfl⟩ := hT4
        omega
      have hwrap : (n + 4) % UINT_RANGE = n + 4 := Nat.mod_eq_of_lt (by omega)
      rw [if_pos hlt, hwrap, List.mem_cons,
        ih (n + 4) (Dvd.dvd.add hn4 (dvd_refl 4)) hn4T (by omega) x]
      constructor
      · rintro (rfl | ⟨h1, h2, h3⟩)
        · exact ⟨le_refl _, hlt, hn4⟩
        · exact ⟨by omega, h2, h3⟩
      · rintro ⟨h1, h2, h3⟩
        by_cases hx : x = n
        · exact Or.inl hx
        · right
          obtain ⟨a, rfl⟩ := hn4
          obtain ⟨b, rfl⟩ := h3
          exact ⟨by omega, h2, Dvd.intro b rfl⟩
    · rw [if_neg hlt]
      simp only [List.not_mem_nil, false_iff]
      omega

/-- C13, as it holds: for a four byte pixel, a width of at least 8, a height of
at least 1 and a texture of fewer than `2 ^ 32` bytes, `GenerateTextureData`
divides by a nonzero `cellPitch` and a nonzero `cellHeight`, every index the
loop stores at is below `textureSize`, every index below `textureSize` is one
the loop stores at, and the function returns a vector of exactly
`TextureWidth * 4 * TextureHeight` bytes, which is the result of the loop
bodies run in turn and does not depend on what the vector held before the
loop. -/
theorem GenerateTextureData_writes_every_byte (W H : Nat) (hW : 8 ≤ W) (hH : 1 ≤ H)
    (hsize : W * 4 * H < UINT_RANGE) :
    let rowPitch := (W * 4) % UINT_RANGE
    let cellPitch := rowPitch >>> 3
    let cellHeight := W >>> 3
    let textureSize := (rowPitch * H) % UINT_RANGE
    let counters := loopCounters textureSize 4 (textureSize + 1) 0
    cellPitch ≠ 0 ∧ cellHeight ≠ 0 ∧
    (∀ n ∈ counters, ∀ k, k < 4 → (n + k) % UINT_RANGE < textureSize) ∧
    (∀ m, m < textureSize → ∃ n ∈ counters, ∃ k, k < 4 ∧ m = (n + k) % UINT_RANGE) ∧
    ∃ data, GenerateTextureData W H 4 = .ok data ∧ data.length = W * 4 * H ∧
      counters.foldlM (fun acc n => writePixel rowPitch cellPitch cellHeight n acc)
        (List.replicate textureSize 0) = .ok data ∧
      ∀ initial : List Nat, initial.length = textureSize →
        fillLoop rowPitch cellPitch cellHeight textureSize 4 (textureSize + 1) 0 initial
          = .ok data := by
  have hrow : W * 4 ≤ W * 4 * H := Nat.le_mul_of_pos_right _ hH
  have e1 : (W * 4) % UINT_RANGE = W * 4 := Nat.mod_eq_of_lt (by omega)
  have e2 : (W * 4 * H) % UINT_RANGE = W * 4 * H := Nat.mod_eq_of_lt hsize
  have hT0 : W * 4 * H ≠ 0 := by omega
  have hT4 : 4 ∣ W * 4 * H := Dvd.dvd.mul_right (Dvd.intro_left W rfl) H
  have hmem := mem_loopCounters (W * 4 * H) hsize hT4 (W * 4 * H + 1) 0 (dvd_zero 4)
    (Nat.zero_le _) (by omega)
  simp only [e1, e2, Nat.shiftRight_eq_div_pow]
  refine ⟨by omega, by omega, ?_, ?_, ?_⟩
  · intro n hn k hk
    obtain ⟨_, h2, h3⟩ := (hmem n).1 hn
    have hle : n + 4 ≤ W * 4 * H := by
      obtain ⟨a, rfl⟩ := h3
      obtain ⟨b, hb⟩ := hT4
      omega
    rw [Nat.mod_eq_of_lt (by omega)]
    omega
  · intro m hm
    refine ⟨m - m % 4, (hmem _).2 ⟨Nat.zero_le _, by omega, ?_⟩, m % 4, by omega, ?_⟩
    · exact (Nat.dvd_sub_mod m)
    · rw [Nat.mod_eq_of_lt (by omega)]
      omega
  · obtain ⟨d, hd, hl, hg⟩ := fillLoop_ok (W * 4) (W * 4 / 2 ^ 3) (W / 2 ^ 3) (W * 4 * H)
      (by omega) (by omega) (by omega) hsize hT4
      (W * 4 * H + 1) 0 (List.replicate (W * 4 * H) 0) (dvd_zero 4) (Nat.zero_le _)
      (by simp) (by omega)
    refine ⟨d, ?_, hl, fillLoop_fold _ _ _ _ _ _ _ _ _ hd, ?_⟩
    · unfold GenerateTextureData
      simp only [e1, e2, hT0, if_false, Nat.shiftRight_eq_div_pow]
      exact hd
    · intro initial hinit
      obtain ⟨d2, hd2, hl2, hg2⟩ := fillLoop_ok (W * 4) (W * 4 / 2 ^ 3) (W / 2 ^ 3) (W * 4 * H)
        (by omega) (by omega) (by omega) hsize hT4
        (W * 4 * H + 1) 0 initial (dvd_zero 4) (Nat.zero_le _) hinit (by omega)
      rw [hd2]
      congr 1
      apply List.ext_getElem?
      intro m
      rw [hg m, hg2 m]
      by_cases hm : m < W * 4 * H
      · simp [hm]
      · simp only [Nat.zero_le, true_and, hm, if_false]
        have h1 : (List.replicate (W * 4 * H) 0)[m]? = none :=
          List.getElem?_eq_none (by rw [List.length_replicate]; omega)
        have h2 : initial[m]? = none := List.getElem?_eq_none (by rw [hinit]; omega)
        rw [h1, h2]

/-- The property holds for the texture of 8 by 2 pixels. -/
theorem GenerateTextureData_writes_every_byte_witness :
    (8 ≤ 8 ∧ 1 ≤ 2 ∧ 8 * 4 * 2 < UINT_RANGE) ∧
    (((8 * 4) % UINT_RANGE) >>> 3 ≠ 0 ∧ 8 >>> 3 ≠ 0 ∧
     ∃ data, GenerateTextureData 8 2 4 = .ok data ∧ data.length = 8 * 4 * 2) :=
  ⟨⟨by decide, by decide, by decide⟩,
   (GenerateTextureData_writes_every_byte 8 2 (by decide) (by decide) (by decide)).1,
   (GenerateTextureData_writes_every_byte 8 2 (by decide) (by decide) (by decide)).2.1,
   let ⟨d, h1, h2, _⟩ :=
     (GenerateTextureData_writes_every_byte 8 2 (by decide) (by decide) (by decide)).2.2.2.2
   ⟨d, h1, h2⟩⟩

/-- C13 fails where the 32 bit products wrap: for a width of `2 ^ 30 + 1`
`rowPitch` is 4, `cellPitch` is 0 and the first pass of the loop divides by
zero; for a width of `2 ^ 30 + 8` and a height of 1 the function returns 32
bytes, not `TextureWidth * 4 * TextureHeight`. -/
theorem GenerateTextureData_wraps :
    8 ≤ 2 ^ 30 + 1 ∧ 1 ≤ 1 ∧
    (((2 ^ 30 + 1) * 4) % UINT_RANGE) >>> 3 = 0 ∧
    GenerateTextureData (2 ^ 30 + 1) 1 4 = .error .divideByZero ∧
    (GenerateTextureData (2 ^ 30 + 8) 1 4).map List.length = .ok 32 ∧
    (2 ^ 30 + 8) * 4 * 1 ≠ 32 :=
  ⟨by decide, by decide, by decide, by decide, by decide, by decide⟩

/-! ### C12 -/

/-- Where the rows of the texture need no padding (`TextureWidth * 4` is a
multiple of the pitch alignment) the upload buffer is the generated data and
the footprint reads every pixel where the data has it. -/
theorem uploadTexture_aligned (cfg : Config) (unwritten : Nat → Nat)
    (hps : cfg.TexturePixelSize = 4) (hW : 8 ≤ cfg.TextureWidth) (hH : 1 ≤ cfg.TextureHeight)
    (hsize : cfg.TextureWidth * 4 * cfg.TextureHeight < UINT_RANGE)
    (halign : D3D12_TEXTURE_DATA_PITCH_ALIGNMENT ∣ cfg.TextureWidth * 4) (x y : Nat) :
    ∃ data, GenerateTextureData cfg.TextureWidth cfg.TextureHeight 4 = .ok data ∧
      uploadTexture cfg unwritten = .ok data ∧
      footprintBytes data (uploadPitch cfg) x y = pixelBytes data cfg.TextureWidth x y := by
  obtain ⟨d, hd, hl, -⟩ := GenerateTextureData_ok cfg.TextureWidth cfg.TextureHeight hW hH hsize
  have hU := UINT_RANGE_eq
  have hrow : cfg.TextureWidth * 4 ≤ cfg.TextureWidth * 4 * cfg.TextureHeight :=
    Nat.le_mul_of_pos_right _ hH
  have hpitch : uploadPitch cfg = cfg.TextureWidth * 4 := by
    unfold uploadPitch
    unfold D3D12_TEXTURE_DATA_PITCH_ALIGNMENT at halign ⊢
    obtain ⟨k, hk⟩ := halign
    rw [Nat.mod_eq_of_lt (show cfg.TextureWidth * 4 < UINT_RANGE by omega),
      Nat.mod_eq_of_lt (show cfg.TextureWidth * 4 + (256 - 1) < UINT_RANGE by omega)]
    omega
  have hsz : uploadSize cfg = cfg.TextureWidth * 4 * cfg.TextureHeight := by
    unfold uploadSize
    rw [hpitch, Nat.mul_comm cfg.TextureHeight]
    exact Nat.mod_eq_of_lt hsize
  have hcount : (cfg.TextureHeight * cfg.TextureWidth * 4) % UINT_RANGE
      = cfg.TextureWidth * 4 * cfg.TextureHeight := by
    have : cfg.TextureHeight * cfg.TextureWidth * 4 = cfg.TextureWidth * 4 * cfg.TextureHeight := by
      ring
    rw [this]
    exact Nat.mod_eq_of_lt hsize
  refine ⟨d, hd, ?_, ?_⟩
  · unfold uploadTexture
    rw [hps, hd]
    show memcpy _ d _ = _
    unfold memcpy
    rw [hcount, hsz, if_pos ⟨by omega, by simp⟩, ← hl, List.take_length]
    rw [List.drop_of_length_le (by simp [hl]), List.append_nil]
  · unfold footprintBytes pixelBytes
    rw [hpitch]
    congr 2
    ring

set_option maxRecDepth 100000 in
/-- C12 does not hold of the code: the one `memcpy` of `Initialize` copies the
generated data as one block, without the padding of `uploadPitch` between the
rows. For a texture 8 pixels wide and 9 high, `uploadPitch` is 256; the
generated pixel `(0, 1)` is black (`00 00 00 FF`), and the four bytes at offset
`1 * uploadPitch + 4 * 0` of the upload buffer, which the footprint reads for
that pixel, are the white generated pixel `(0, 8)`, whatever the buffer held
before. -/
theorem uploadTexture_misplaces_rows (unwritten : Nat → Nat) :
    uploadPitch ⟨3, 3, 8, 9, 4⟩ = 256 ∧
    (GenerateTextureData 8 9 4).map (fun data => pixelBytes data 8 0 1)
      = .ok [0x00, 0x00, 0x00, 0xff] ∧
    (uploadTexture ⟨3, 3, 8, 9, 4⟩ unwritten).map
        (fun buffer => footprintBytes buffer (uploadPitch ⟨3, 3, 8, 9, 4⟩) 0 1)
      = .ok [0xff, 0xff, 0xff, 0xff] ∧
    (GenerateTextureData 8 9 4).map (fun data => pixelBytes data 8 0 8)
      = .ok [0xff, 0xff, 0xff, 0xff] :=
  ⟨by decide, by decide, rfl, by decide⟩

/-! ### C11 -/

theorem storeFenceValue_markers (a : ImplD3D12) (slot : Nat) (fc : FrameContext) (v : Nat) :
    (a.storeFenceValue slot fc v).markers = a.markers.set slot v := by
  simp [ImplD3D12.storeFenceValue, ImplD3D12.markers, List.map_set]

theorem markers_getElem (a : ImplD3D12) (i : Nat) (fc : FrameContext)
    (h : a.FrameCtxt[i]? = some fc) : a.markers[i]? = some fc.FenceValue := by
  simp [ImplD3D12.markers, List.getElem?_map, h]

theorem pacedMarkers_set_zero (ms : List Nat) (L r : Nat) (h : pacedMarkers ms L) :
    pacedMarkers (ms.set r 0) L := by
  obtain ⟨h1, h2⟩ := h
  refine ⟨?_, ?_⟩
  · intro i m hm
    rw [List.getElem?_set] at hm
    by_cases hri : r = i
    · rw [if_pos hri] at hm
      split at hm
      · cases hm
        exact Nat.zero_le _
      · cases hm
    · rw [if_neg hri] at hm
      exact h1 i m hm
  · intro i j m hij hi hj
    rw [List.getElem?_set] at hi hj
    by_cases hri : r = i
    · rw [if_pos hri] at hi
      split at hi
      · cases hi
        rfl
      · cases hi
    · rw [if_neg hri] at hi
      by_cases hrj : r = j
      · rw [if_pos hrj] at hj
        split at hj
        · cases hj
          rfl
        · cases hj
      · rw [if_neg hrj] at hj
        exact h2 i j m hij hi hj

theorem pacedMarkers_set_next (ms : List Nat) (L r : Nat) (h : pacedMarkers ms L) :
    pacedMarkers (ms.set r (L + 1)) (L + 1) := by
  obtain ⟨h1, h2⟩ := h
  refine ⟨?_, ?_⟩
  · intro i m hm
    rw [List.getElem?_set] at hm
    by_cases hri : r = i
    · rw [if_pos hri] at hm
      split at hm
      · cases hm
        exact Nat.le_refl _
      · cases hm
    · rw [if_neg hri] at hm
      exact Nat.le_succ_of_le (h1 i m hm)
  · intro i j m hij hi hj
    rw [List.getElem?_set] at hi hj
    by_cases hri : r = i
    · have hrj : r ≠ j := fun e => hij (hri.symm.trans e)
      rw [if_pos hri] at hi
      rw [if_neg hrj] at hj
      split at hi
      · cases hi
        have := h1 j _ hj
        omega
      · cases hi
    · rw [if_neg hri] at hi
      by_cases hrj : r = j
      · rw [if_pos hrj] at hj
        split at hj
        · cases hj
          have := h1 i _ hi
          omega
        · cases hj
      · rw [if_neg hrj] at hj
        exact h2 i j m hij hi hj

theorem assignHandle_pacing (size i : Nat) (st : Nat × ImplD3D12) (t : Nat)
    (st1 : Nat × ImplD3D12) (t1 : Nat)
    (h : (assignHandle size i st t).result = .ok (st1, t1)) :
    st1.2.FrameCtxt = st.2.FrameCtxt ∧
    st1.2.LastSignalledFenceValue = st.2.LastSignalledFenceValue ∧
    st1.2.FrameIndex = st.2.FrameIndex := by
  cases hbb : st.2.BackBuffer[i]? with
  | none =>
    simp [assignHandle, run_bind_eq, run_pure_eq, Run.bind, Run.index, Run.fault, hbb] at h
  | some bb =>
    simp [assignHandle, run_bind_eq, run_pure_eq, Run.bind, Run.pure, Run.index, hbb] at h
    obtain ⟨rfl, -⟩ := h
    exact ⟨rfl, rfl, rfl⟩

theorem createAllocator_pacing (drv : Driver) (i : Nat) (s : ImplD3D12) (t : Nat)
    (s1 : ImplD3D12) (t1 : Nat) (h : (createAllocator drv i s t).result = .ok (s1, t1)) :
    s1.markers = s.markers ∧
    s1.LastSignalledFenceValue = s.LastSignalledFenceValue ∧
    s1.FrameIndex = s.FrameIndex := by
  cases hfc : s.FrameCtxt[i]? with
  | none =>
    simp [createAllocator, run_bind_eq, run_pure_eq, Run.bind, Run.index, Run.fault, hfc] at h
  | some fc =>
    cases hs : drv.succeeds (.CreateCommandAllocator i) with
    | false =>
      simp [createAllocator, run_bind_eq, run_pure_eq, Run.bind, Run.pure, Run.index, HR_CHECK,
        hfc, hs] at h
    | true =>
      simp [createAllocator, run_bind_eq, run_pure_eq, Run.bind, Run.pure, Run.index, HR_CHECK,
        hfc, hs] at h
      obtain ⟨rfl, -⟩ := h
      refine ⟨?_, rfl, rfl⟩
      simp only [ImplD3D12.markers, List.map_set]
      apply list_set_same
      simp [List.getElem?_map, hfc]

/-- An `Initialize` that returns `true` leaves the markers and the two counters
as they were. -/
theorem Initialize_pacing (cfg : Config) (drv : Driver) (self : ImplD3D12) (hwnd t : Nat)
    (self1 : ImplD3D12) (t1 : Nat)
    (h : (Initialize cfg drv self hwnd t).result = .ok ((true, self1), t1)) :
    self1.markers = self.markers ∧
    self1.LastSignalledFenceValue = self.LastSignalledFenceValue ∧
    self1.FrameIndex = self.FrameIndex := by
  unfold Initialize at h
  simp only [run_bind_eq, run_pure_eq, run_bind_result_ok] at h
  obtain ⟨_, u0, _, h⟩ := h
  by_cases hlib : drv.library = 0
  · simp [hlib, Run.pure] at h
  · simp only [hlib, if_false, run_bind_result_ok] at h
    obtain ⟨_, u1, _, _, u2, _, _, u3, _, _, u4, _, h⟩ := h
    by_cases had : drv.adapter = 0
    · simp [had, Run.pure] at h
    · simp only [had, if_false, run_bind_result_ok] at h
      obtain ⟨_, u5, _, _, u6, _, _, u7, _, _, u8, _, _, u9, _, st, u10, hloop, h⟩ := h
      obtain ⟨_, u11, _, _, u12, _, _, u13, _, _, u14, _, _, u15, _, _, u16, _, _, u17, _,
        _, u18, _, s3, u19, halloc, h⟩ := h
      obtain ⟨_, u20, _, _, u21, _, _, u22, _, _, u23, _, _, u24, _, _, u25, _, _, u26, _,
        _, u27, _, _, u28, _, _, u29, _, _, u30, _, _, u31, _, _, u32, _, hp⟩ := h
      simp only [Run.pure, Except.ok.injEq, Prod.mk.injEq, true_and] at hp
      obtain ⟨rfl, -⟩ := hp
      have h1 := forEach_preserves
        (fun (x : Nat × ImplD3D12) => x.2.FrameCtxt = self.FrameCtxt ∧
          x.2.LastSignalledFenceValue = self.LastSignalledFenceValue ∧
          x.2.FrameIndex = self.FrameIndex)
        (assignHandle drv.rtvDescriptorSize)
        (fun i a u b v hP hb =>
          have k := assignHandle_pacing drv.rtvDescriptorSize i a u b v hb
          ⟨k.1.trans hP.1, k.2.1.trans hP.2.1, k.2.2.trans hP.2.2⟩)
        _ _ _ _ _ ⟨rfl, rfl, rfl⟩ hloop
      have h2 := forEach_preserves
        (fun (x : ImplD3D12) => x.markers = st.2.markers ∧
          x.LastSignalledFenceValue = st.2.LastSignalledFenceValue ∧
          x.FrameIndex = st.2.FrameIndex)
        (createAllocator drv)
        (fun i a u b v hP hb =>
          have k := createAllocator_pacing drv i a u b v hb
          ⟨k.1.trans hP.1, k.2.1.trans hP.2.1, k.2.2.trans hP.2.2⟩)
        _ _ _ _ _ ⟨rfl, rfl, rfl⟩ halloc
      have hm : st.2.markers = self.markers := by
        unfold ImplD3D12.markers
        rw [h1.1]
      exact ⟨h2.1.trans hm, h2.2.1.trans h1.2.1, h2.2.2.trans h1.2.2⟩

theorem releaseBackBuffer_FrameCtxt (i : Nat) (s : ImplD3D12) (t : Nat) (s1 : ImplD3D12)
    (t1 : Nat) (h : (releaseBackBuffer i s t).result = .ok (s1, t1)) :
    s1.FrameCtxt = s.FrameCtxt := by
  cases hbb : s.BackBuffer[i]? with
  | none =>
    simp [releaseBackBuffer, run_bind_eq, run_pure_eq, Run.bind, Run.index, Run.fault, hbb] at h
  | some bb =>
    by_cases hr : bb.Resource = 0
    · simp [releaseBackBuffer, run_bind_eq, run_pure_eq, Run.bind, Run.pure, Run.index, Run.deref,
        Run.fault, hbb, hr] at h
    · simp [releaseBackBuffer, run_bind_eq, run_pure_eq, Run.bind, Run.pure, Run.index, Run.deref,
        Run.call, hbb, hr] at h
      obtain ⟨rfl, -⟩ := h
      rfl

theorem acquireBackBuffer_FrameCtxt (drv : Driver) (i : Nat) (s : ImplD3D12) (t : Nat)
    (s1 : ImplD3D12) (t1 : Nat)
    (h : (acquireBackBuffer drv i s t).result = .ok (s1, t1)) : s1.FrameCtxt = s.FrameCtxt := by
  obtain ⟨bb, hbb, -⟩ := acquireBackBuffer_result drv i s t s1 t1 h
  by_cases hr : s.DxgiSwapChain3 = 0
  · simp [acquireBackBuffer, run_bind_eq, run_pure_eq, Run.bind, Run.pure, Run.index, Run.deref,
      Run.fault, hbb, hr] at h
  · cases hs : drv.succeeds (.GetBuffer i) with
    | false =>
      simp [acquireBackBuffer, run_bind_eq, run_pure_eq, Run.bind, Run.pure, Run.index,
        Run.deref, Run.call, HR_CHECK, hbb, hr, hs] at h
    | true =>
      simp [acquireBackBuffer, run_bind_eq, run_pure_eq, Run.bind, Run.pure, Run.index,
        Run.deref, Run.call, HR_CHECK, hbb, hr, hs] at h
      obtain ⟨rfl, -⟩ := h
      rfl

theorem releaseSwapChain_FrameCtxt (cfg : Config) (s : ImplD3D12) (t : Nat) (s1 : ImplD3D12)
    (t1 : Nat) (h : (releaseSwapChain cfg s t).result = .ok (s1, t1)) :
    s1.FrameCtxt = s.FrameCtxt := by
  unfold releaseSwapChain at h
  by_cases hsc : s.DxgiSwapChain3 = 0
  · simp only [hsc, ne_eq, not_true_eq_false, if_false, run_pure_eq, Run.pure, Except.ok.injEq,
      Prod.mk.injEq] at h
    obtain ⟨rfl, -⟩ := h
    rfl
  · simp only [ne_eq, hsc, not_false_eq_true, if_true, run_bind_eq, run_pure_eq,
      run_bind_result_ok] at h
    obtain ⟨_, u1, _, s2, u2, hloop, _, u3, _, hp⟩ := h
    simp only [Run.pure, Except.ok.injEq, Prod.mk.injEq] at hp
    obtain ⟨rfl, -⟩ := hp
    exact forEach_preserves (fun x => x.FrameCtxt = s.FrameCtxt) releaseBackBuffer
      (fun i a u b v hP hb => (releaseBackBuffer_FrameCtxt i a u b v hb).trans hP)
      _ _ _ _ _ rfl hloop

/-- A `Resize` that returns has set the marker of slot `FrameIndex % N` to zero
and has left the other markers and the two counters as they were. -/
theorem Resize_markers (cfg : Config) (drv : Driver) (self : ImplD3D12) (width height t : Nat)
    (self1 : ImplD3D12) (t1 : Nat)
    (h : (Resize cfg drv self width height t).result = .ok (self1, t1)) :
    self1.markers = self.markers.set (self.FrameIndex % cfg.D3D12_NUM_FRAMES_IN_FLIGHT) 0 ∧
    self1.LastSignalledFenceValue = self.LastSignalledFenceValue ∧
    self1.FrameIndex = self.FrameIndex := by
  have hk := Resize_keeps cfg drv self width height t self1 t1 h
  refine ⟨?_, hk.1, hk.2.1⟩
  simp only [Resize, run_bind_eq, run_pure_eq, run_bind_result_ok] at h
  obtain ⟨a, u1, hw, b, u2, hrel, _, u3, _, _, u4, _, _, u5, _, _, u6, _, _, u7, _, _, u8, _,
    _, u9, _, hloop⟩ := h
  obtain ⟨-, fc, -, ha⟩ := WaitForLastSubmittedFrame_result cfg drv self t a u1 hw
  have k2 := releaseSwapChain_FrameCtxt cfg _ u1 b u2 hrel
  have k3 := forEach_preserves (fun x => x.FrameCtxt = b.FrameCtxt) (acquireBackBuffer drv)
    (fun i a u b v hP hb => (acquireBackBuffer_FrameCtxt drv i a u b v hb).trans hP)
    _ _ _ _ _ rfl hloop
  have hm : self1.markers = a.markers := by
    unfold ImplD3D12.markers
    rw [k3, k2]
  rw [hm, ha, storeFenceValue_markers]

/-- One turn of the frame loop that returns has advanced both counters by one
and has stored the new last signalled value in slot `FrameIndex % N`. -/
theorem frameStep_result (cfg : Config) (drv : Driver) (self : ImplD3D12) (t : Nat)
    (self1 : ImplD3D12) (t1 : Nat)
    (h : (frameStep cfg drv self t).result = .ok (self1, t1)) :
    self1.FrameIndex = (self.FrameIndex + 1) % UINT_RANGE ∧
    self1.LastSignalledFenceValue = (self.LastSignalledFenceValue + 1) % UINT64_RANGE ∧
    self1.markers = (self.markers.set (self1.FrameIndex % cfg.D3D12_NUM_FRAMES_IN_FLIGHT) 0).set
      (self1.FrameIndex % cfg.D3D12_NUM_FRAMES_IN_FLIGHT) self1.LastSignalledFenceValue ∧
    ∃ fc, self1.FrameCtxt[self1.FrameIndex % cfg.D3D12_NUM_FRAMES_IN_FLIGHT]? = some fc ∧
      fc.FenceValue = self1.LastSignalledFenceValue := by
  simp only [frameStep, run_bind_eq, run_bind_result_ok] at h
  obtain ⟨⟨r, s1⟩, u, hw, hr⟩ := h
  obtain ⟨-, hr1, fc, -, hs1⟩ := WaitForResources_result cfg drv self t r s1 u hw
  obtain ⟨fc2, hfc2, hs2⟩ := Render_result drv s1 r u self1 t1 hr
  subst hs1
  subst hs2
  subst hr1
  refine ⟨rfl, rfl, ?_, ?_⟩
  · rw [storeFenceValue_markers]
    show (ImplD3D12.storeFenceValue _ _ fc 0).markers.set _ _ = _
    rw [storeFenceValue_markers]
    rfl
  · exact ⟨_, storeFenceValue_slot _ _ fc2 _ hfc2, rfl⟩

/-- A run of two sequences of steps, one after the other, returns exactly when
the first returns and the second returns from where the first ended. -/
theorem FrameLoop_append (cfg : Config) (post : List LoopStep) (r : ImplD3D12 × Nat) :
    ∀ (pre : List LoopStep) (s : ImplD3D12) (t : Nat),
      (FrameLoop cfg (pre ++ post) s t).result = .ok r ↔
        ∃ s1 t1, (FrameLoop cfg pre s t).result = .ok (s1, t1) ∧
          (FrameLoop cfg post s1 t1).result = .ok r := by
  intro pre
  induction pre with
  | nil =>
    intro s t
    simp only [List.nil_append, FrameLoop, Run.pure, Except.ok.injEq, Prod.mk.injEq]
    constructor
    · intro h
      exact ⟨s, t, ⟨rfl, rfl⟩, h⟩
    · rintro ⟨s1, t1, ⟨rfl, rfl⟩, h⟩
      exact h
  | cons x pre ih =>
    intro s t
    simp only [List.cons_append, FrameLoop, run_bind_result_ok]
    constructor
    · rintro ⟨a, u, h1, h2⟩
      obtain ⟨s1, t1, h3, h4⟩ := (ih a u).1 h2
      exact ⟨s1, t1, ⟨a, u, h1, h3⟩, h4⟩
    · rintro ⟨s1, t1, ⟨a, u, h1, h3⟩, h4⟩
      exact ⟨a, u, h1, (ih a u).2 ⟨s1, t1, h3, h4⟩⟩

/-- The property of the markers is kept by every step of the caller as long as
the last signalled value does not wrap around. -/
theorem FrameLoop_paced (cfg : Config) :
    ∀ (steps : List LoopStep) (s : ImplD3D12) (u : Nat) (s1 : ImplD3D12) (t1 : Nat),
      pacedMarkers s.markers s.LastSignalledFenceValue →
      s.LastSignalledFenceValue + frameCount steps < UINT64_RANGE →
      (FrameLoop cfg steps s u).result = .ok (s1, t1) →
      s1.LastSignalledFenceValue = s.LastSignalledFenceValue + frameCount steps ∧
      pacedMarkers s1.markers s1.LastSignalledFenceValue := by
  intro steps
  induction steps with
  | nil =>
    intro s u s1 t1 hp _ h
    simp only [FrameLoop, Run.pure, Except.ok.injEq, Prod.mk.injEq] at h
    obtain ⟨rfl, -⟩ := h
    exact ⟨rfl, hp⟩
  | cons x rest ih =>
    intro s u s1 t1 hp hc h
    simp only [FrameLoop, run_bind_result_ok] at h
    obtain ⟨a, v, h1, h2⟩ := h
    cases x with
    | resize drv width height =>
      simp only [frameCount] at hc ⊢
      obtain ⟨hm, hL, -⟩ := Resize_markers cfg drv s width height u a v h1
      have hpa : pacedMarkers a.markers a.LastSignalledFenceValue := by
        rw [hm, hL]
        exact pacedMarkers_set_zero _ _ _ hp
      obtain ⟨k1, k2⟩ := ih a v s1 t1 hpa (by rw [hL]; exact hc) h2
      exact ⟨by rw [k1, hL], k2⟩
    | frame drv =>
      simp only [frameCount] at hc ⊢
      obtain ⟨-, hL, hm, -⟩ := frameStep_result cfg drv s u a v h1
      have hL1 : a.LastSignalledFenceValue = s.LastSignalledFenceValue + 1 := by
        rw [hL]
        exact Nat.mod_eq_of_lt (by omega)
      have hpa : pacedMarkers a.markers a.LastSignalledFenceValue := by
        rw [hm, hL1]
        exact pacedMarkers_set_next _ _ _ (pacedMarkers_set_zero _ _ _ hp)
      obtain ⟨k1, k2⟩ := ih a v s1 t1 hpa (by rw [hL1]; omega) h2
      exact ⟨by rw [k1, hL1]; omega, k2⟩

theorem pacedMarkers_new (cfg : Config) :
    pacedMarkers (ImplD3D12.new cfg).markers (ImplD3D12.new cfg).LastSignalledFenceValue := by
  have h0 : ∀ (i m : Nat), (ImplD3D12.new cfg).markers[i]? = some m → m = 0 := by
    intro i m h
    have hmem : m ∈ (ImplD3D12.new cfg).markers := List.getElem?_mem h
    simp only [ImplD3D12.markers, ImplD3D12.new, List.map_replicate] at hmem
    exact List.eq_of_mem_replicate hmem
  exact ⟨fun i m h => by rw [h0 i m h]; exact Nat.zero_le _, fun i j m _ h _ => h0 i m h⟩

/-- C11, as it holds. Let `Initialize` return `true` on a freshly constructed
object and let the caller then resize and run turns of the frame loop, each
`Render` being called with the index `WaitForResources` has just returned, in
any order, fewer than `2 ^ 64` turns in all. Whenever such a run returns,
`LastSignalledFenceValue` is the number of turns made, no slot holds a marker
above it, a slot with a nonzero marker holds a marker different from that of
every other slot, and if the last step was a turn of the frame loop, slot
`FrameIndex % N` holds `LastSignalledFenceValue`. -/
theorem FrameLoop_markers (cfg : Config) (drv : Driver) (hwnd t : Nat) (self0 : ImplD3D12)
    (t0 : Nat) (steps : List LoopStep) (self1 : ImplD3D12) (t1 : Nat)
    (hinit : (Initialize cfg drv (ImplD3D12.new cfg) hwnd t).result = .ok ((true, self0), t0))
    (hloop : (FrameLoop cfg steps self0 t0).result = .ok (self1, t1))
    (hcount : frameCount steps < UINT64_RANGE) :
    self1.LastSignalledFenceValue = frameCount steps ∧
    (∀ (pre : List LoopStep) (d : Driver), steps = pre ++ [.frame d] →
      ∃ fc, self1.FrameCtxt[self1.FrameIndex % cfg.D3D12_NUM_FRAMES_IN_FLIGHT]? = some fc ∧
        fc.FenceValue = self1.LastSignalledFenceValue) ∧
    (∀ (i : Nat) (fc : FrameContext), self1.FrameCtxt[i]? = some fc →
      fc.FenceValue ≤ self1.LastSignalledFenceValue) ∧
    (∀ (i j : Nat) (fi fj : FrameContext), i ≠ j → self1.FrameCtxt[i]? = some fi →
      self1.FrameCtxt[j]? = some fj → fi.FenceValue ≠ 0 → fi.FenceValue ≠ fj.FenceValue) := by
  obtain ⟨hm, hL, -⟩ := Initialize_pacing cfg drv _ hwnd t self0 t0 hinit
  have hL0 : self0.LastSignalledFenceValue = 0 := hL
  have hp0 : pacedMarkers self0.markers self0.LastSignalledFenceValue := by
    rw [hm, hL]
    exact pacedMarkers_new cfg
  obtain ⟨k1, k2, k3⟩ := FrameLoop_paced cfg steps self0 t0 self1 t1 hp0
    (by rw [hL0]; omega) hloop
  refine ⟨by rw [k1, hL0, Nat.zero_add], ?_, ?_, ?_⟩
  · intro pre d hsteps
    rw [hsteps, FrameLoop_append] at hloop
    obtain ⟨a, u, -, hlast⟩ := hloop
    simp only [FrameLoop, run_bind_result_ok, LoopStep.run] at hlast
    obtain ⟨b, v, hb, hpure⟩ := hlast
    simp only [Run.pure, Except.ok.injEq, Prod.mk.injEq] at hpure
    obtain ⟨rfl, -⟩ := hpure
    exact (frameStep_result cfg d a u b v hb).2.2.2
  · intro i fc hfc
    exact k2 i _ (markers_getElem _ _ _ hfc)
  · intro i j fi fj hij hi hj hne heq
    apply hne
    apply k3 i j _ hij (markers_getElem _ _ _ hi)
    rw [heq]
    exact markers_getElem _ _ _ hj

theorem firstInstant_now (ready : Nat → Bool) (fuel t : Nat) (h : ready t = true) :
    firstInstant ready (fuel + 1) t = some t := by
  simp [firstInstant, h]

theorem sampleState_FrameCtxt (F L a b c : Nat) :
    (sampleState F L [a, b, c]).FrameCtxt = [⟨200, a⟩, ⟨201, b⟩, ⟨202, c⟩] := rfl

/-- Storing a marker in a slot of a sample object. -/
theorem sampleState_store (F L a b c r v : Nat) (fc : FrameContext)
    (hfc : (sampleState F L [a, b, c]).FrameCtxt[r]? = some fc) :
    (sampleState F L [a, b, c]).storeFenceValue r fc v = sampleState F L ([a, b, c].set r v) := by
  rw [sampleState_FrameCtxt] at hfc
  have hr : r < 3 := by
    by_contra hge
    rw [List.getElem?_eq_none (by simp; omega)] at hfc
    cases hfc
  have hcases : r = 0 ∨ r = 1 ∨ r = 2 := by omega
  rcases hcases with rfl | rfl | rfl
  · cases hfc
    rfl
  · cases hfc
    rfl
  · cases hfc
    rfl

/-- On a sample object whose next slot holds a 64 bit value, with a GPU that
has completed everything, `WaitForResources` returns at once. -/
theorem WaitForResources_sample (F L m0 m1 m2 t : Nat) (fc : FrameContext)
    (hfc : (sampleState F L [m0, m1, m2]).FrameCtxt[((F + 1) % UINT_RANGE) % 3]? = some fc)
    (hm : fc.FenceValue < UINT64_RANGE) :
    (WaitForResources sampleConfig readyDriver (sampleState F L [m0, m1, m2]) t).result =
      .ok ((((F + 1) % UINT_RANGE) % 3,
        sampleState ((F + 1) % UINT_RANGE) L ([m0, m1, m2].set (((F + 1) % UINT_RANGE) % 3) 0)),
        t) := by
  have hN : sampleConfig.D3D12_NUM_FRAMES_IN_FLIGHT ≠ 0 := by decide
  have hF : (sampleState F L [m0, m1, m2]).Fence ≠ 0 := Nat.succ_ne_zero 4
  have hex : ∃ x, (WaitForResources sampleConfig readyDriver (sampleState F L [m0, m1, m2]) t).result
      = .ok (x, t) := by
    by_cases h0 : fc.FenceValue = 0
    · rw [WaitForResources_zero sampleConfig readyDriver _ t fc hN hfc h0]
      simp only
      rw [show readyDriver.succeeds (.WaitForMultipleObjects 1
        [(sampleState F L [m0, m1, m2]).SwapChainWaitableObject, 0] true) = true from rfl,
        if_pos rfl, show readyDriver.patience = 15 + 1 from rfl, firstInstant_now _ _ _ rfl]
      exact ⟨_, rfl⟩
    · rw [WaitForResources_marked sampleConfig readyDriver _ t fc hN hfc h0 hF rfl]
      simp only
      rw [show readyDriver.succeeds (.WaitForMultipleObjects 2
        [(sampleState F L [m0, m1, m2]).SwapChainWaitableObject,
          (sampleState F L [m0, m1, m2]).FenceEvent] true) = true from rfl,
        if_pos rfl, show readyDriver.patience = 15 + 1 from rfl, firstInstant_now]
      · exact ⟨_, rfl⟩
      · have hle : fc.FenceValue ≤ UINT64_RANGE - 1 := by omega
        simp [objectSignalled, readyDriver, sampleDriver, sampleState, hle]
  obtain ⟨⟨r, s1⟩, hx⟩ := hex
  obtain ⟨-, hr, fc2, hfc2, hs1⟩ := WaitForResources_result _ _ _ _ _ _ _ hx
  have hr2 : r = ((F + 1) % UINT_RANGE) % 3 := hr
  subst hr2
  rw [hfc] at hfc2
  cases hfc2
  have hs2 : s1 = (sampleState ((F + 1) % UINT_RANGE) L [m0, m1, m2]).storeFenceValue
      (((F + 1) % UINT_RANGE) % 3) fc 0 := hs1
  rw [sampleState_store ((F + 1) % UINT_RANGE) L m0 m1 m2 _ 0 fc hfc] at hs2
  rw [hx, hs2]

/-- On a sample object, with a driver whose calls all succeed, `Render` returns
at once. -/
theorem Render_sample (F L a b c r t : Nat) (fc : FrameContext)
    (hfc : (sampleState F L [a, b, c]).FrameCtxt[r]? = some fc) :
    (Render readyDriver (sampleState F L [a, b, c]) r t).result =
      .ok (sampleState F ((L + 1) % UINT64_RANGE) ([a, b, c].set r ((L + 1) % UINT64_RANGE)),
        t) := by
  have hal : fc.CommandAllocator ≠ 0 := by
    have hfc2 := hfc
    rw [sampleState_FrameCtxt] at hfc2
    have hr : r < 3 := by
      by_contra hge
      rw [List.getElem?_eq_none (by simp; omega)] at hfc2
      cases hfc2
    have hcases : r = 0 ∨ r = 1 ∨ r = 2 := by omega
    rcases hcases with rfl | rfl | rfl
    · cases hfc2
      exact Nat.succ_ne_zero 199
    · cases hfc2
      exact Nat.succ_ne_zero 200
    · cases hfc2
      exact Nat.succ_ne_zero 201
  have hsc : (sampleState F L [a, b, c]).DxgiSwapChain3 ≠ 0 := Nat.succ_ne_zero 6
  rw [Render_ok readyDriver (sampleState F L [a, b, c]) r t fc ⟨100, 4096⟩ hfc hsc hal rfl rfl rfl
    rfl rfl rfl]
  have hfc3 : (sampleState F ((L + 1) % UINT64_RANGE) [a, b, c]).FrameCtxt[r]? = some fc := hfc
  have e := sampleState_store F ((L + 1) % UINT64_RANGE) a b c r ((L + 1) % UINT64_RANGE) fc hfc3
  rw [← e]
  rfl


/-- One turn of the frame loop on a sample object whose markers are 64 bit
values, with a GPU that has completed everything: it returns at once, both
counters have advanced, and the new last signalled value is stored in slot
`FrameIndex % 3`. -/
theorem frameStep_sample (F F1 L L1 r m0 m1 m2 t : Nat) (h0 : m0 < UINT64_RANGE)
    (h1 : m1 < UINT64_RANGE) (h2 : m2 < UINT64_RANGE) (hF : (F + 1) % UINT_RANGE = F1)
    (hL : (L + 1) % UINT64_RANGE = L1) (hr : F1 % 3 = r) :
    (frameStep sampleConfig readyDriver (sampleState F L [m0, m1, m2]) t).result =
      .ok (sampleState F1 L1 ([m0, m1, m2].set r L1), t) := by
  have hlt : r < 3 := by
    rw [← hr]
    exact Nat.mod_lt _ (by decide)
  have hw := WaitForResources_sample F L m0 m1 m2 t
  have hrender := fun (a b c r : Nat) (fc : FrameContext) =>
    Render_sample ((F + 1) % UINT_RANGE) L a b c r t fc
  have hbind : ∀ (r : Nat) (s1 s2 : ImplD3D12),
      (WaitForResources sampleConfig readyDriver (sampleState F L [m0, m1, m2]) t).result
        = .ok ((r, s1), t) →
      (Render readyDriver s1 r t).result = .ok (s2, t) →
      (frameStep sampleConfig readyDriver (sampleState F L [m0, m1, m2]) t).result
        = .ok (s2, t) := by
    intro r s1 s2 ha hb
    simp only [frameStep, run_bind_eq, run_bind_result_ok]
    exact ⟨(r, s1), t, ha, hb⟩
  rw [hF] at hw hrender
  rw [hr] at hw
  rw [hL] at hrender
  have hcases : r = 0 ∨ r = 1 ∨ r = 2 := by omega
  rcases hcases with rfl | rfl | rfl
  · exact hbind 0 _ _ (hw ⟨200, m0⟩ rfl h0) (hrender 0 m1 m2 0 ⟨200, 0⟩ rfl)
  · exact hbind 1 _ _ (hw ⟨201, m1⟩ rfl h1) (hrender m0 0 m2 1 ⟨201, 0⟩ rfl)
  · exact hbind 2 _ _ (hw ⟨202, m2⟩ rfl h2) (hrender m0 m1 0 2 ⟨202, 0⟩ rfl)

/-- The same, naming the markers after the turn. -/
theorem frameStep_sample_slot (F L m0 m1 m2 t : Nat) (h0 : m0 < UINT64_RANGE)
    (h1 : m1 < UINT64_RANGE) (h2 : m2 < UINT64_RANGE) :
    ∃ a b c : Nat, a < UINT64_RANGE ∧ b < UINT64_RANGE ∧ c < UINT64_RANGE ∧
      (frameStep sampleConfig readyDriver (sampleState F L [m0, m1, m2]) t).result =
        .ok (sampleState ((F + 1) % UINT_RANGE) ((L + 1) % UINT64_RANGE) [a, b, c], t) ∧
      [a, b, c][((F + 1) % UINT_RANGE) % 3]? = some ((L + 1) % UINT64_RANGE) := by
  have hlt : ((F + 1) % UINT_RANGE) % 3 < 3 := Nat.mod_lt _ (by decide)
  have hL : (L + 1) % UINT64_RANGE < UINT64_RANGE :=
    Nat.mod_lt _ (by rw [UINT64_RANGE_eq]; omega)
  have hstep := fun (r : Nat) => frameStep_sample F ((F + 1) % UINT_RANGE) L
    ((L + 1) % UINT64_RANGE) r m0 m1 m2 t h0 h1 h2 rfl rfl
  generalize ((F + 1) % UINT_RANGE) % 3 = r0 at hlt hstep ⊢
  generalize (F + 1) % UINT_RANGE = F1 at hstep ⊢
  generalize (L + 1) % UINT64_RANGE = L1 at hL hstep ⊢
  have hcases : r0 = 0 ∨ r0 = 1 ∨ r0 = 2 := by omega
  rcases hcases with rfl | rfl | rfl
  · exact ⟨L1, m1, m2, hL, h1, h2, hstep 0 rfl, rfl⟩
  · exact ⟨m0, L1, m2, h0, hL, h2, hstep 1 rfl, rfl⟩
  · exact ⟨m0, m1, L1, h0, h1, hL, hstep 2 rfl, rfl⟩


/-- Any number of turns of the frame loop on a sample object, with a GPU that
has completed everything: the run returns, both counters have advanced by the
number of turns modulo their ranges, and after at least one turn slot
`FrameIndex % 3` holds the last signalled value. -/
theorem FrameLoop_sample (t : Nat) :
    ∀ (n F L m0 m1 m2 : Nat), F < UINT_RANGE → L < UINT64_RANGE → m0 < UINT64_RANGE →
      m1 < UINT64_RANGE → m2 < UINT64_RANGE →
      ∃ a b c : Nat, a < UINT64_RANGE ∧ b < UINT64_RANGE ∧ c < UINT64_RANGE ∧
        (FrameLoop sampleConfig (List.replicate n (.frame readyDriver))
            (sampleState F L [m0, m1, m2]) t).result =
          .ok (sampleState ((F + n) % UINT_RANGE) ((L + n) % UINT64_RANGE) [a, b, c], t) ∧
        (0 < n → [a, b, c][((F + n) % UINT_RANGE) % 3]? = some ((L + n) % UINT64_RANGE)) := by
  intro n
  induction n with
  | zero =>
    intro F L m0 m1 m2 hF hL h0 h1 h2
    refine ⟨m0, m1, m2, h0, h1, h2, ?_, fun h => absurd h (by omega)⟩
    rw [Nat.add_zero, Nat.add_zero, Nat.mod_eq_of_lt hF, Nat.mod_eq_of_lt hL]
    rfl
  | succ n ih =>
    intro F L m0 m1 m2 hF hL h0 h1 h2
    obtain ⟨a, b, c, ha, hb, hc, hrun, -⟩ := ih F L m0 m1 m2 hF hL h0 h1 h2
    obtain ⟨a1, b1, c1, ha1, hb1, hc1, hstep, hslot⟩ :=
      frameStep_sample_slot ((F + n) % UINT_RANGE) ((L + n) % UINT64_RANGE) a b c t ha hb hc
    have eF : ((F + n) % UINT_RANGE + 1) % UINT_RANGE = (F + (n + 1)) % UINT_RANGE := by
      rw [UINT_RANGE_eq]
      omega
    have eL : ((L + n) % UINT64_RANGE + 1) % UINT64_RANGE = (L + (n + 1)) % UINT64_RANGE := by
      rw [UINT64_RANGE_eq]
      omega
    rw [eF, eL] at hstep hslot
    refine ⟨a1, b1, c1, ha1, hb1, hc1, ?_, fun _ => hslot⟩
    rw [List.replicate_succ', FrameLoop_append]
    refine ⟨_, _, hrun, ?_⟩
    simp only [FrameLoop, run_bind_result_ok]
    exact ⟨_, _, hstep, rfl⟩


set_option maxRecDepth 100000 in
/-- C11 on a concrete run: `Initialize`, `Resize(800, 600)` and four turns of
the frame loop, the last of which waits for the marker of slot 1. -/
theorem FrameLoop_markers_witness :
    (sampleState 4 4 [3, 4, 2]).LastSignalledFenceValue = 4 ∧
    (∃ fc, (sampleState 4 4 [3, 4, 2]).FrameCtxt[(sampleState 4 4 [3, 4, 2]).FrameIndex
        % sampleConfig.D3D12_NUM_FRAMES_IN_FLIGHT]? = some fc ∧
      fc.FenceValue = (sampleState 4 4 [3, 4, 2]).LastSignalledFenceValue) ∧
    (∀ (i : Nat) (fc : FrameContext), (sampleState 4 4 [3, 4, 2]).FrameCtxt[i]? = some fc →
      fc.FenceValue ≤ (sampleState 4 4 [3, 4, 2]).LastSignalledFenceValue) ∧
    (∀ (i j : Nat) (fi fj : FrameContext), i ≠ j →
      (sampleState 4 4 [3, 4, 2]).FrameCtxt[i]? = some fi →
      (sampleState 4 4 [3, 4, 2]).FrameCtxt[j]? = some fj →
      fi.FenceValue ≠ 0 → fi.FenceValue ≠ fj.FenceValue) :=
  have h := FrameLoop_markers sampleConfig sampleDriver 1 0 sampleInitialized 0
    [.resize sampleDriver 800 600, .frame sampleDriver, .frame sampleDriver,
      .frame sampleDriver, .frame sampleDriver]
    (sampleState 4 4 [3, 4, 2]) 1 rfl rfl (by decide)
  ⟨h.1, h.2.1 [.resize sampleDriver 800 600, .frame sampleDriver, .frame sampleDriver,
      .frame sampleDriver] sampleDriver rfl, h.2.2.1, h.2.2.2⟩

set_option maxRecDepth 100000 in
/-- C11 as stated fails once `LastSignalledFenceValue` has wrapped around.
After `Initialize`, `Resize(800, 600)` and `2 ^ 64` turns of the frame loop,
with three frame slots and a GPU that has completed everything, the last
signalled value is 0 again while slot 2 still holds the marker `2 ^ 64 - 2`
and slot 1 the marker `2 ^ 64 - 3`: these markers are above
`LastSignalledFenceValue`. -/
theorem FrameLoop_markers_wrap :
    (Initialize sampleConfig sampleDriver (ImplD3D12.new sampleConfig) 1 0).result
      = .ok ((true, sampleInitialized), 0) ∧
    (FrameLoop sampleConfig
        ([.resize sampleDriver 800 600] ++ List.replicate UINT64_RANGE (.frame readyDriver))
        sampleInitialized 0).result
      = .ok (sampleState 0 0 [0, 18446744073709551613, 18446744073709551614], 0) ∧
    (sampleState 0 0 [0, 18446744073709551613, 18446744073709551614]).FrameCtxt[2]?
      = some ⟨202, 18446744073709551614⟩ ∧
    ¬ (18446744073709551614 ≤
      (sampleState 0 0 [0, 18446744073709551613, 18446744073709551614]).LastSignalledFenceValue)
      ∧
    18446744073709551614 = 2 ^ 64 - 2 := by
  refine ⟨rfl, ?_, rfl, by decide, by decide⟩
  have hrep : List.replicate UINT64_RANGE (LoopStep.frame readyDriver) =
      List.replicate 18446744073709551613 (LoopStep.frame readyDriver) ++
        [.frame readyDriver, .frame readyDriver, .frame readyDriver] := by
    rw [UINT64_RANGE_eq, show (18446744073709551616 : Nat) = 18446744073709551613 + 3 from rfl,
      List.replicate_add]
    rfl
  obtain ⟨a, b, c, ha, hb, hc, hrun, hslot⟩ := FrameLoop_sample 0 18446744073709551613 0 0 0 0 0
    (by decide) (by decide) (by decide) (by decide) (by decide)
  have eF : (0 + 18446744073709551613) % UINT_RANGE = 4294967293 := by decide
  have eL : (0 + 18446744073709551613) % UINT64_RANGE = 18446744073709551613 := by decide
  rw [eF, eL] at hrun hslot
  have hb2 : b = 18446744073709551613 := by
    have := hslot (by decide)
    simpa using this
  subst hb2
  have s1 := frameStep_sample 4294967293 4294967294 18446744073709551613 18446744073709551614 2
    a 18446744073709551613 c 0 ha hb hc (by decide) (by decide) (by decide)
  have s2 := frameStep_sample 4294967294 4294967295 18446744073709551614 18446744073709551615 0
    a 18446744073709551613 18446744073709551614 0 ha hb (by decide) (by decide) (by decide)
    (by decide)
  have s3 := frameStep_sample 4294967295 0 18446744073709551615 0 0
    18446744073709551615 18446744073709551613 18446744073709551614 0 (by decide) hb (by decide)
    (by decide) (by decide) (by decide)
  rw [hrep, FrameLoop_append]
  refine ⟨sampleState 0 0 [0, 0, 0], 0, rfl, ?_⟩
  rw [FrameLoop_append]
  refine ⟨_, _, hrun, ?_⟩
  simp only [FrameLoop, run_bind_result_ok, LoopStep.run]
  exact ⟨_, _, s1, _, _, s2, _, _, s3, rfl⟩


end MetricsGui
